import Mathlib

/-!
# Huntarr front end

A shallow embedding of the JavaScript of the Huntarr web interface:
`frontend/static/js/stats-tooltips.js` (number formatting, tooltip position, averages),
`static/js/main.js` (duration display, log stream, loading and saving the settings),
`static/js/settings_forms.js` and `frontend/static/js/settings_forms.js` (the generated
settings forms and their duration displays) and `frontend/static/js/settings_sync.js`
(`parseNumericSetting`).

JavaScript numbers are IEEE-754 binary64 values.  Every finite binary64 value is a
rational number, so a number is modelled by the rational it denotes, and every
arithmetic operation is the exact operation followed by rounding to the nearest
binary64 value (ties to the even significand), as ECMAScript prescribes.  The exponent
range is not bounded in the rounding `fl`: a result of size 2^1024 or more stands for the
infinity of its sign, which `parseNumericSetting` returns as such, and subnormal numbers
are not modelled; no computation of this program reaches either for operands below 2^1000
in size.  That the rounding `fl` returns a binary64 value and that no binary64 value is
closer to the exact result is proved below (`fl_isBinary64`, `fl_nearest`).
-/

namespace Huntarr

/-! ## JavaScript numbers -/

/-- Position of the leading binary digit of `n`, found by halving; `fuel` bounds the
number of halvings and `fuel = n` is always enough. -/
def log2Nat : ℕ → ℕ → ℕ
  | 0, _ => 0
  | fuel + 1, n => if n < 2 then 0 else log2Nat fuel (n / 2) + 1

/-- Binade of a positive rational `q`: the integer `e` with `2^e ≤ q < 2^(e+1)`. -/
def log2Floor (q : ℚ) : ℤ :=
  let t : ℤ := (log2Nat q.num.natAbs q.num.natAbs : ℤ) - (log2Nat q.den q.den : ℤ)
  if (2 : ℚ) ^ t ≤ q then t else t - 1

/-- Nearest integer to `y`, a tie going to the even neighbour. -/
def roundHalfEven (y : ℚ) : ℤ :=
  if Int.fract y < 1 / 2 then ⌊y⌋
  else if 1 / 2 < Int.fract y then ⌊y⌋ + 1
  else if ⌊y⌋ % 2 = 0 then ⌊y⌋ else ⌊y⌋ + 1

/-- Spacing of the binary64 values in the binade of `q`: 53 significant bits. -/
def ulp (q : ℚ) : ℚ := (2 : ℚ) ^ (log2Floor |q| - 52)

/-- Rounding of an exact result to the Number that JavaScript stores for it:
the nearest binary64 value, ties to even.  The exponent is not bounded: a result of size
2^1024 or more is what the rounding gives before the overflow to an infinity. -/
def fl (q : ℚ) : ℚ :=
  if q = 0 then 0 else (roundHalfEven (q / ulp q) : ℚ) * ulp q

/-- The binary64 values, exponent range apart: an integer significand of at most 53 bits
times a power of two. -/
def IsBinary64 (x : ℚ) : Prop := ∃ m e : ℤ, |m| ≤ 2 ^ 53 ∧ x = (m : ℚ) * (2 : ℚ) ^ e

/-- JavaScript `a / b` on Numbers (`b` nonzero). -/
def numDiv (a b : ℚ) : ℚ := fl (a / b)

/-- JavaScript `a * b` on Numbers. -/
def numMul (a b : ℚ) : ℚ := fl (a * b)

/-- JavaScript `a - b` on Numbers. -/
def numSub (a b : ℚ) : ℚ := fl (a - b)

/-- JavaScript `Math.floor`. -/
def mathFloor (x : ℚ) : ℤ := ⌊x⌋

/-- JavaScript `Math.max` on two Numbers. -/
def mathMax (a b : ℤ) : ℤ := max a b

/-- Decimal numeral of a natural number (`Number::toString` on an integer value
below 2^53, see `numberToString_natCast`). -/
def natToString (n : ℕ) : String := toString n

/-- The text `Number::toString` gives for an integer value of size below 2^53. -/
def intToString (z : ℤ) : String :=
  if z < 0 then "-" ++ natToString z.natAbs else natToString z.natAbs

/-! ### `Number::toString` -/

/-- Position of the leading decimal digit of `n`, found by dividing by ten; `fuel`
bounds the number of divisions and `fuel = n` is always enough. -/
def log10Nat : ℕ → ℕ → ℕ
  | 0, _ => 0
  | fuel + 1, n => if n < 10 then 0 else log10Nat fuel (n / 10) + 1

/-- Decade of a positive rational `q`: the integer `e` with `10^e ≤ q < 10^(e+1)`. -/
def log10Floor (q : ℚ) : ℤ :=
  let t : ℤ := (log10Nat q.num.natAbs q.num.natAbs : ℤ) - (log10Nat q.den q.den : ℤ)
  if (10 : ℚ) ^ t ≤ q then t else t - 1

/-- The pair `(s, n)` for the decimal `s * 10^(n0-k)` with `10^(k-1) ≤ s ≤ 10^k`: when
`s` reaches `10^k` the decimal is written `10^(k-1) * 10^(n0+1-k)`. -/
def normalDigits (n0 : ℤ) (k s : ℕ) : ℕ × ℤ :=
  if s = 10 ^ k then (10 ^ (k - 1), n0 + 1) else (s, n0)

/-- The digits `Number::toString` can print for `x > 0` with `k` significant digits: a
pair `(s, n)` with `10^(k-1) ≤ s < 10^k` for which `s * 10^(n-k)` rounds to `x`, the
closest to `x` if there are two (the even `s` if they are equally close), or `none` if
no `k`-digit decimal rounds to `x`.  Here `n0` is the number of digits of the integer part
of `x`: the decimals `s * 10^(n0-k)` next below and next above `x` are the only
candidates. -/
def shortestCandidate (x : ℚ) (n0 : ℤ) (k : ℕ) : Option (ℕ × ℤ) :=
  let unit : ℚ := (10 : ℚ) ^ (n0 - k)
  let lo : ℕ := ⌊x / unit⌋.toNat
  let hi : ℕ := lo + 1
  let okLo : Bool := decide (fl (lo * unit) = x)
  let okHi : Bool := decide (fl (hi * unit) = x)
  if okLo && okHi then
    if x - lo * unit < hi * unit - x then some (normalDigits n0 k lo)
    else if hi * unit - x < x - lo * unit then some (normalDigits n0 k hi)
    else if lo % 2 = 0 then some (normalDigits n0 k lo) else some (normalDigits n0 k hi)
  else if okLo then some (normalDigits n0 k lo)
  else if okHi then some (normalDigits n0 k hi)
  else none

/-- The triple `(s, n, k)` of `Number::toString` for `x > 0`: the candidate for the
smallest number `k` of digits that has one, searched upwards from `k`.  A binary64 value
has a candidate with at most 17 digits, and an integer below 10^21 has one with at most
21; the search stops after `fuel` steps. -/
def shortestDigits (x : ℚ) (n0 : ℤ) : ℕ → ℕ → ℕ × ℤ × ℕ
  | 0, k => (⌊x / (10 : ℚ) ^ (n0 - k)⌋.toNat, n0, k)
  | fuel + 1, k =>
    match shortestCandidate x n0 k with
    | some (s, n) => (s, n, k)
    | none => shortestDigits x n0 fuel (k + 1)

/-- The text `Number::toString` writes for the `k` digits of `s` and the exponent `n`:
the digits followed by zeros, or with a point inside, or after `0.` and zeros, or
in exponent notation. -/
def formatDigits (digits : List Char) (n : ℤ) (k : ℕ) : String :=
  if (k : ℤ) ≤ n ∧ n ≤ 21 then
    String.mk (digits ++ List.replicate (n - k).toNat '0')
  else if 0 < n ∧ n ≤ 21 then
    String.mk (digits.take n.toNat ++ '.' :: digits.drop n.toNat)
  else if -6 < n ∧ n ≤ 0 then
    String.mk ('0' :: '.' :: List.replicate (-n).toNat '0' ++ digits)
  else
    let e : ℤ := n - 1
    let exponent := (if 0 < e then "+" else "-") ++ natToString e.natAbs
    if k = 1 then String.mk digits ++ "e" ++ exponent
    else String.mk (digits.take 1 ++ '.' :: digits.drop 1) ++ "e" ++ exponent

/-- The text `Number::toString(x)` (radix 10) for a positive Number. -/
def positiveToString (x : ℚ) : String :=
  let r := shortestDigits x (log10Floor x + 1) 21 1
  formatDigits (natToString r.1).toList r.2.1 r.2.2

/-- The text `Number::toString(x)` (radix 10), which `String(x)`, a template literal
and the `value` setter of an input use for a finite Number `x`. -/
def numberToString (x : ℚ) : String :=
  if x = 0 then "0"
  else if x < 0 then "-" ++ positiveToString (-x)
  else positiveToString x

/-! ### `Number.prototype.toFixed` -/

/-- The digits part of `Number.prototype.toFixed(f)` for a non-negative scaled integer
`n` (the integer for which `n / 10^f - x` is closest to zero): the numeral of `n`,
padded with zeros on the left to at least `f + 1` digits, with a point before the last
`f` digits. -/
def fixedDigits (f n : ℕ) : String :=
  if f = 0 then natToString n
  else
    let m := (natToString n).toList
    let m := List.replicate (f + 1 - m.length) '0' ++ m
    String.mk (m.take (m.length - f)) ++ "." ++ String.mk (m.drop (m.length - f))

/-- The scaled integer `Number.prototype.toFixed(f)` prints for `x ≥ 0`: the integer
`n` for which `n / 10^f - x` is as close to zero as possible, the larger one if there
are two. -/
def fixedScaled (f : ℕ) (x : ℚ) : ℕ := ⌊x * 10 ^ f + 1 / 2⌋.toNat

/-- The method `Number.prototype.toFixed(f)`: from a size of 10^21 on the text is that of
`Number::toString`, below it the scaled integer with a point before the last `f`
digits. -/
def toFixed (f : ℕ) (x : ℚ) : String :=
  if (10 : ℚ) ^ 21 ≤ |x| then numberToString x
  else if x < 0 then "-" ++ fixedDigits f (fixedScaled f (-x))
  else fixedDigits f (fixedScaled f x)

/-! ## `formatLargeNumber` -/

/-- The function `formatLargeNumber(num)` for a Number `num` holding a non-negative
integer. -/
def formatLargeNumber (num : ℕ) : String :=
  if num < 1000 then
    natToString num
  else if num < 10000 then
    toFixed 1 (numDiv num 1000) ++ "K"
  else if num < 100000 then
    toFixed 1 (numDiv num 1000) ++ "K"
  else if num < 1000000 then
    intToString (mathFloor (numDiv num 1000)) ++ "K"
  else if num < 10000000 then
    toFixed 1 (numDiv num 1000000) ++ " MIL"
  else if num < 1000000000 then
    intToString (mathFloor (numDiv num 1000000)) ++ " MIL"
  else if num < 1000000000000 then
    toFixed 1 (numDiv num 1000000000) ++ " BIL"
  else
    toFixed 1 (numDiv num 1000000000000) ++ " TRI"

/-! ## `moveStatsTooltip`

Pointer coordinates, element sizes and window sizes are CSS pixel counts: integers far
below 2^53, on which JavaScript arithmetic is exact. -/

/-- The fields of the mouse event the handlers read. -/
structure MouseEvent where
  clientX : ℤ
  clientY : ℤ

/-- The tooltip element: its rendered size. -/
structure Tooltip where
  offsetWidth : ℤ
  offsetHeight : ℤ

/-- The browser window: the size of its viewport. -/
structure Window where
  innerWidth : ℤ
  innerHeight : ℤ

/-- The handler `moveStatsTooltip(e)`: the pair `(posX, posY)` written (in px) to the `left` and
`top` of the tooltip, or `none` when the tooltip element is missing and the handler
returns without writing. -/
def moveStatsTooltip (tooltip : Option Tooltip) (window : Window) (e : MouseEvent) :
    Option (ℤ × ℤ) :=
  match tooltip with
  | none => none
  | some tooltip =>
    let offsetX : ℤ := 15
    let offsetY : ℤ := 10
    let tooltipWidth := tooltip.offsetWidth
    let tooltipHeight := tooltip.offsetHeight
    let windowWidth := window.innerWidth
    let windowHeight := window.innerHeight
    let posX := e.clientX + offsetX
    let posY := e.clientY + offsetY
    let posX := if posX + tooltipWidth > windowWidth - 10
      then e.clientX - tooltipWidth - offsetX else posX
    let posY := if posY + tooltipHeight > windowHeight - 10
      then e.clientY - tooltipHeight - offsetY else posY
    some (posX, posY)

/-! ## The statistics window of `showStatsTooltip`

A time value is the number of milliseconds since the Unix epoch.  The clock reading
`now` of `new Date()` is a natural number of milliseconds, at most `maxTimeValue`; dates
before 1970 arise only as the default start date. -/

/-- The largest time value a `Date` can hold. -/
def maxTimeValue : ℕ := 8640000000000000

/-- The date `new Date(t)` for an integer-valued Number `t`: the time value of the date, or
`none` for an invalid date (a time value out of range). -/
def newDate (t : ℚ) : Option ℤ :=
  if |t| ≤ maxTimeValue then some ⌊t⌋ else none

/-- An ISO-8601 string as `Date.prototype.toISOString` writes it, represented by the
time value it denotes: `toISOString` keeps milliseconds, and the `Date` constructor
reads such a string back to the same time value. -/
structure IsoString where
  time : ℤ
deriving DecidableEq

/-- The method `date.toISOString()`: throws a `RangeError` (here `none`) on an invalid date. -/
def toISOString (date : Option ℤ) : Option IsoString :=
  date.map IsoString.mk

/-- The reset-stats click handler: a click on the element with id `reset-stats` stores
the ISO string of the current time under `huntarr-stats-start-date`; any other click
leaves the stored item (`none` when the key is absent) as it is. -/
def resetStatsClick (targetId : String) (now : ℕ) (item : Option IsoString) :
    Option IsoString :=
  if targetId = "reset-stats" then some ⟨now⟩ else item

/-- The `startDate` of `showStatsTooltip`: the stored item, or by default the ISO string
of 30 days before `now`; `none` when `toISOString` throws. -/
def startDate (item : Option IsoString) (now : ℕ) : Option IsoString :=
  match item with
  | some s => some s
  | none => toISOString (newDate (numSub now (30 * 24 * 60 * 60 * 1000)))

/-- The `daysDiff` of `showStatsTooltip` for the time values of `now` and
`startTime`. -/
def daysDiff (now startTime : ℤ) : ℤ :=
  mathMax 1 (mathFloor (numDiv (numSub now startTime) (1000 * 60 * 60 * 24)))

/-- The `daysDiff` that `showStatsTooltip` computes from the stored item at clock
reading `now`. -/
def daysElapsed (item : Option IsoString) (now : ℕ) : Option ℤ :=
  (startDate item now).map fun s => daysDiff now s.time

/-- The Number `rawValue / daysDiff` of `showStatsTooltip`. -/
def dailyValue (rawValue daysDiff : ℕ) : ℚ := numDiv rawValue daysDiff

/-- The Number `rawValue / daysDiff * 7` of `showStatsTooltip`. -/
def weeklyValue (rawValue daysDiff : ℕ) : ℚ := numMul (numDiv rawValue daysDiff) 7

/-- The Number `rawValue / daysDiff * 30` of `showStatsTooltip`. -/
def monthlyValue (rawValue daysDiff : ℕ) : ℚ := numMul (numDiv rawValue daysDiff) 30

/-- The `dailyAvg` of `showStatsTooltip`. -/
def dailyAvg (rawValue daysDiff : ℕ) : String := toFixed 1 (dailyValue rawValue daysDiff)

/-- The `weeklyAvg` of `showStatsTooltip`. -/
def weeklyAvg (rawValue daysDiff : ℕ) : String := toFixed 1 (weeklyValue rawValue daysDiff)

/-- The `monthlyAvg` of `showStatsTooltip`. -/
def monthlyAvg (rawValue daysDiff : ℕ) : String :=
  toFixed 1 (monthlyValue rawValue daysDiff)

/-! ## Rounding to one decimal place, as arithmetic states it -/

/-- The quotient `n / d` rounded to one decimal place the way it is taught: the
nearest multiple of one tenth, a half going up; the result counts tenths. -/
def roundTenthsHalfUp (n d : ℕ) : ℕ := (20 * n + d) / (2 * d)

/-- The quotient `n / d` rounded to one decimal place with a half going to the even
digit; the result counts tenths. -/
def roundTenthsHalfEven (n d : ℕ) : ℕ :=
  let k := (10 * n) / d
  let r := (10 * n) % d
  if 2 * r < d then k else if d < 2 * r then k + 1 else if k % 2 = 0 then k else k + 1

/-- The text `s` shows the quotient `n / d` with one decimal place and the unit `u`:
it is the `toFixed(1)` numeral of a count `k` of tenths followed by `u`, where `k / 10`
is a one-decimal value nearest to the quotient, and the half-up rounding of the quotient
whenever the quotient is not exactly halfway between two one-decimal values. -/
def ShowsTenths (s : String) (n d : ℕ) (u : String) : Prop :=
  ∃ k : ℕ, s = fixedDigits 1 k ++ u ∧ |(k : ℚ) / 10 - (n : ℚ) / d| ≤ 1 / 20 ∧
    ((20 * n + d) % (2 * d) ≠ 0 → k = roundTenthsHalfUp n d)

/-! ## `parseInt` -/

/-- The characters `parseInt` skips at the start of its argument: ECMAScript white
space and line terminators. -/
def isStrWhiteSpace (c : Char) : Bool :=
  [0x09, 0x0A, 0x0B, 0x0C, 0x0D, 0x20, 0xA0, 0x1680, 0x2000, 0x2001, 0x2002, 0x2003,
    0x2004, 0x2005, 0x2006, 0x2007, 0x2008, 0x2009, 0x200A, 0x2028, 0x2029, 0x202F,
    0x205F, 0x3000, 0xFEFF].contains c.toNat

/-- The value of a character as a digit (`0`-`9`, then letters of either case for 10
to 35), or `none` for any other character. -/
def digitOf (c : Char) : Option ℕ :=
  if '0' ≤ c ∧ c ≤ '9' then some (c.toNat - 48)
  else if 'a' ≤ c ∧ c ≤ 'z' then some (c.toNat - 87)
  else if 'A' ≤ c ∧ c ≤ 'Z' then some (c.toNat - 55)
  else none

/-- Whether a character is a digit of the radix. -/
def isRadixDigit (radix : ℕ) (c : Char) : Bool :=
  match digitOf c with
  | some v => decide (v < radix)
  | none => false

/-- The integer a list of digits denotes in the radix. -/
def digitsValue (radix : ℕ) (ds : List Char) : ℕ :=
  ds.foldl (fun acc c => radix * acc + (digitOf c).getD 0) 0

/-- The sign that `parseInt` reads: whether the text starts with a minus, and the text
after a leading plus or minus. -/
def stripSign (cs : List Char) : Bool × List Char :=
  match cs with
  | [] => (false, [])
  | c :: t => if c = '-' then (true, t) else if c = '+' then (false, t) else (false, c :: t)

/-- The text after a leading `0x` or `0X`, if there is one. -/
def stripHexPrefix (cs : List Char) : Option (List Char) :=
  match cs with
  | c0 :: c1 :: t => if c0 = '0' ∧ (c1 = 'x' ∨ c1 = 'X') then some t else none
  | _ => none

/-- The function `parseInt(string, radix)` on the characters of the string; radix 0
stands for an omitted radix, and `none` for the result `NaN`.  Leading white space is
skipped, a sign is read, `0x` selects radix 16 when the radix is omitted or 16, and the
longest run of digits of the radix is converted to the nearest Number; a result of size
2^1024 or more stands for the infinity of its sign. -/
def parseIntChars (radix : ℕ) (cs : List Char) : Option ℚ :=
  if radix ≠ 0 ∧ (radix < 2 ∨ 36 < radix) then none
  else
    let s := stripSign (cs.dropWhile isStrWhiteSpace)
    let hex := if radix = 0 ∨ radix = 16 then stripHexPrefix s.2 else none
    let r := if hex.isSome then 16 else if radix = 0 then 10 else radix
    let z := (hex.getD s.2).takeWhile (isRadixDigit r)
    if z = [] then none
    else some (fl (if s.1 then -(digitsValue r z : ℚ) else (digitsValue r z : ℚ)))

/-- The call `parseInt(string)` with the radix omitted. -/
def parseInt (s : String) : Option ℚ := parseIntChars 0 s.toList

/-- The expression `x || d` for a Number `x` (`none` is `NaN`) and a Number `d`: zero
and `NaN` are falsy. -/
def numberOr (x : Option ℚ) (d : ℚ) : ℚ :=
  match x with
  | some v => if v = 0 then d else v
  | none => d

/-- JavaScript `a % b` on Numbers (`b` nonzero): the remainder with the sign of the
dividend, which is exact. -/
def numMod (a b : ℚ) : ℚ :=
  a - b * (if 0 ≤ a / b then (⌊a / b⌋ : ℚ) else (⌈a / b⌉ : ℚ))

/-- JavaScript `Math.round`: the nearest integer, a half going towards plus infinity. -/
def mathRound (x : ℚ) : ℤ := ⌊x + 1 / 2⌋

/-- The Number that the text of `x.toFixed(f)` converts back to when it is compared
with a Number: `x` itself from a size of 10^21 on, where the text is that of
`Number::toString`. -/
def toFixedNumber (f : ℕ) (x : ℚ) : ℚ :=
  if (10 : ℚ) ^ 21 ≤ |x| then x
  else if x < 0 then fl (-((fixedScaled f (-x) : ℕ) : ℚ) / 10 ^ f)
  else fl (((fixedScaled f x : ℕ) : ℚ) / 10 ^ f)

/-! ## The counter text and the application table of `showStatsTooltip` -/

/-- The text `textContent.replace(/[^0-9]/g, '')`: the decimal digits of the text, in
order. -/
def stripNonDigits (textContent : String) : String :=
  String.mk (textContent.toList.filter fun c => decide ('0' ≤ c ∧ c ≤ '9'))

/-- The `rawValue` of `showStatsTooltip`, read from the text of the counter; `none` is
`NaN`. -/
def rawValue (textContent : String) : Option ℚ :=
  let digits := stripNonDigits textContent
  parseInt (if digits = "" then "0" else digits)

/-- An entry of the `appDetails` table. -/
structure AppDetail where
  name : String
  color : String
  description : String
deriving DecidableEq, Repr

/-- The own properties of the object literal `appDetails` for a counter of the given
type. -/
def appDetails (type : String) : List (String × AppDetail) :=
  [("sonarr", ⟨"Sonarr", "#3498db",
      if type = "hunted" then "Episode searches triggered"
      else "Episodes upgraded to better quality"⟩),
   ("radarr", ⟨"Radarr", "#f39c12",
      if type = "hunted" then "Movie searches triggered"
      else "Movies upgraded to better quality"⟩),
   ("lidarr", ⟨"Lidarr", "#2ecc71",
      if type = "hunted" then "Album searches triggered"
      else "Albums upgraded to better quality"⟩),
   ("readarr", ⟨"Readarr", "#e74c3c",
      if type = "hunted" then "Book searches triggered"
      else "Books upgraded to better quality"⟩),
   ("whisparr", ⟨"Whisparr", "#9b59b6",
      if type = "hunted" then "Adult video searches triggered"
      else "Adult videos upgraded to better quality"⟩),
   ("eros", ⟨"Eros", "#1abc9c",
      if type = "hunted" then "Audio searches triggered"
      else "Audio files upgraded to better quality"⟩),
   ("swaparr", ⟨"Swaparr", "#e67e22",
      if type = "hunted" then "Content swap operations" else "Content swap upgrades"⟩)]

/-- The names of the properties that every object literal inherits from
`Object.prototype`; each holds a function or an object, which is truthy. -/
def objectPrototypeKeys : List String :=
  ["constructor", "__defineGetter__", "__defineSetter__", "hasOwnProperty",
   "__lookupGetter__", "__lookupSetter__", "isPrototypeOf", "propertyIsEnumerable",
   "toString", "valueOf", "__proto__", "toLocaleString"]

/-- What `showStatsTooltip` uses as `detail`: an entry with name, color and description,
or the value of an inherited property, which is not such an entry. -/
inductive Detail where
  | entry (d : AppDetail)
  | inherited (key : String)
deriving DecidableEq, Repr

/-- The generic entry `showStatsTooltip` falls back to. -/
def fallbackDetail (type app : String) : AppDetail :=
  ⟨app, "#95a5a6", if type = "hunted" then "Searches triggered" else "Content upgraded"⟩

/-- The `detail` of `showStatsTooltip`: `appDetails[app] || fallback`.  The property
lookup finds the own properties of the table first and then the inherited ones. -/
def detail (type app : String) : Detail :=
  match (appDetails type).lookup app with
  | some d => Detail.entry d
  | none =>
    if app ∈ objectPrototypeKeys then Detail.inherited app
    else Detail.entry (fallbackDetail type app)

/-! ## The duration displays -/

/-- The function `updateSleepDurationDisplay` of `main.js`: the text written to the span
`sleep_duration_hours` for the value of the input `sleep_duration`. -/
def updateSleepDurationDisplay (value : String) : String :=
  let seconds := numberOr (parseInt value) 900
  if seconds < 60 then
    numberToString seconds ++ " seconds"
  else if seconds < 3600 then
    let minutes := mathFloor (numDiv seconds 60)
    "≈ " ++ numberToString (minutes : ℚ) ++ " minute" ++ (if minutes ≠ 1 then "s" else "")
  else
    let hours := mathFloor (numDiv seconds 3600)
    let minutes := mathFloor (numDiv (numMod seconds 3600) 60)
    if minutes = 0 then
      "≈ " ++ numberToString (hours : ℚ) ++ " hour" ++ (if hours ≠ 1 then "s" else "")
    else
      "≈ " ++ numberToString (hours : ℚ) ++ " hour" ++ (if hours ≠ 1 then "s" else "") ++
        " " ++ numberToString (minutes : ℚ) ++ " minute" ++
        (if minutes ≠ 1 then "s" else "")

namespace Static

/-- The helper `updateSleepDisplay` of `SettingsForms.updateDurationDisplay` in
`static/js/settings_forms.js`: the text written to the span for the value of the input,
both elements being present. -/
def updateSleepDisplay (value : String) : String :=
  let seconds := numberOr (parseInt value) 900
  let hours := toFixed 2 (numDiv seconds 3600)
  hours ++ " hours"

/-- The function `SettingsForms.updateDurationDisplay` of `static/js/settings_forms.js`:
the texts written, as pairs of span id and text, given the value of each input that
exists and which spans exist. -/
def updateDurationDisplay (inputValue : String → Option String) (spanExists : String → Bool) :
    List (String × String) :=
  [("sleep_duration", "sleep_duration_hours"),
   ("radarr_sleep_duration", "radarr_sleep_duration_hours"),
   ("lidarr_sleep_duration", "lidarr_sleep_duration_hours")].filterMap fun p =>
    match inputValue p.1 with
    | some value => if spanExists p.2 then some (p.2, updateSleepDisplay value) else none
    | none => none

end Static

namespace Frontend

/-- The helper `updateSleepDisplay` of `SettingsForms.updateDurationDisplay` in
`frontend/static/js/settings_forms.js`: the text written to the span for the value of
the input, both elements being present; `none` when the helper returns without
writing. -/
def updateSleepDisplay (value : String) : Option String :=
  match parseInt value with
  | none => none
  | some seconds =>
    let hours := toFixed 1 (numDiv seconds 3600)
    if toFixedNumber 1 (numDiv seconds 3600) < 1 then
      let minutes := mathRound (numDiv seconds 60)
      some (numberToString (minutes : ℚ) ++ " minutes")
    else
      some (hours ++ " hours")

/-- The function `SettingsForms.updateDurationDisplay` of
`frontend/static/js/settings_forms.js`: the texts written, as pairs of span id and text,
given the value of each input that exists and which spans exist. -/
def updateDurationDisplay (inputValue : String → Option String) (spanExists : String → Bool) :
    List (String × String) :=
  [("sleep_duration", "sleep_duration_hours"),
   ("radarr_sleep_duration", "radarr_sleep_duration_hours"),
   ("lidarr_sleep_duration", "lidarr_sleep_duration_hours"),
   ("readarr_sleep_duration", "readarr_sleep_duration_hours")].filterMap fun p =>
    match inputValue p.1 with
    | some value =>
      if spanExists p.2 then (updateSleepDisplay value).map fun text => (p.2, text) else none
    | none => none

end Frontend

/-! ## Durations, as arithmetic states them -/

/-- A count with its unit word: the word is singular exactly when the count is 1. -/
def unitText (count : ℕ) (word : String) : String :=
  natToString count ++ " " ++ (if count = 1 then word else word ++ "s")

/-- The quotient `n / d` rounded to a whole number, a half going up. -/
def roundDivHalfUp (n d : ℕ) : ℕ := (2 * n + d) / (2 * d)

/-! ## The settings forms

A settings object is a JSON value as the settings endpoint delivers it.  Numbers in it
are integer-valued Numbers (counts, seconds, hours); arrays are not modelled. -/

/-- A JavaScript value of the settings object. -/
inductive JsValue where
  | undefined
  | null
  | bool (b : Bool)
  | number (n : ℤ)
  | string (s : String)
  | object (props : List (String × JsValue))

namespace JsValue

/-- Whether the value is truthy: `undefined`, `null`, `false`, 0 and the empty string
are falsy. -/
def truthy : JsValue → Bool
  | undefined => false
  | null => false
  | bool b => b
  | number n => decide (n ≠ 0)
  | string s => decide (s ≠ "")
  | object _ => true

/-- The expression `a || b`. -/
def orElse (a b : JsValue) : JsValue := if a.truthy then a else b

/-- The property read `v.key` for a key that no prototype defines, on a value `v` other
than `null` and `undefined`, where the read throws a TypeError: the own property of an
object, `undefined` when it is absent or `v` is a primitive. -/
def get (v : JsValue) (key : String) : JsValue :=
  match v with
  | object props => (props.lookup key).getD undefined
  | _ => undefined

/-- The text a template literal renders for the value. -/
def toStr : JsValue → String
  | undefined => "undefined"
  | null => "null"
  | bool b => if b then "true" else "false"
  | number n => numberToString (n : ℚ)
  | string s => s
  | object _ => "[object Object]"

/-- The test `v === false`. -/
def isFalse : JsValue → Bool
  | bool false => true
  | _ => false

/-- The test `v === true`. -/
def isTrue : JsValue → Bool
  | bool true => true
  | _ => false

end JsValue

/-- An `input` element of a generated form: its type, id, value attribute (empty for a
checkbox) and whether it carries the `checked` attribute. -/
structure Input where
  kind : String
  id : String
  value : String
  checked : Bool
deriving DecidableEq, Repr

/-- A line of a form template that renders an `input` element from the settings:
a text input `value="${settings.key || ''}"`, a number input
`value="${ns.key || dflt}"`, a checkbox `${ns.key !== false ? 'checked' : ''}` or a
checkbox `${ns.key === true ? 'checked' : ''}`, where `ns` is `settings.ns || {}`. -/
inductive Field where
  | text (id key : String)
  | number (id ns key : String) (dflt : ℤ)
  | toggleUnlessFalse (id ns key : String)
  | toggleIfTrue (id ns key : String)
deriving DecidableEq, Repr

/-- The sub-object `settings.ns || {}` that a generator reads its fields from. -/
def settingsGroup (settings : JsValue) (ns : String) : JsValue :=
  (settings.get ns).orElse (JsValue.object [])

/-- The value stored in the settings for a field. -/
def Field.stored (settings : JsValue) : Field → JsValue
  | Field.text _ key => settings.get key
  | Field.number _ ns key _ => (settingsGroup settings ns).get key
  | Field.toggleUnlessFalse _ ns key => (settingsGroup settings ns).get key
  | Field.toggleIfTrue _ ns key => (settingsGroup settings ns).get key

/-- The `input` element a template line writes for a settings object: the value it
interpolates, as the text of the `value` attribute, or the attribute `checked`.  These
are the elements that the document then holds when every interpolated value stands for
itself inside an attribute value (`inputElements_generateMarkup`); the templates do not
escape the values. -/
def Field.render (settings : JsValue) (f : Field) : Input :=
  match f with
  | Field.text id _ =>
    ⟨"text", id, ((f.stored settings).orElse (JsValue.string "")).toStr, false⟩
  | Field.number id _ _ dflt =>
    ⟨"number", id, ((f.stored settings).orElse (JsValue.number dflt)).toStr, false⟩
  | Field.toggleUnlessFalse id _ _ =>
    ⟨"checkbox", id, "", !(f.stored settings).isFalse⟩
  | Field.toggleIfTrue id _ _ =>
    ⟨"checkbox", id, "", (f.stored settings).isTrue⟩

/-- The value attribute of the input with the given id. -/
def valueOf (form : List Input) (id : String) : Option String :=
  (form.find? fun i => decide (i.id = id)).map fun i => i.value

/-- Whether the input with the given id is checked. -/
def checkedOf (form : List Input) (id : String) : Option Bool :=
  (form.find? fun i => decide (i.id = id)).map fun i => i.checked

namespace Frontend

/-- The template lines of `generateSonarrForm` in `frontend/static/js/settings_forms.js`,
in document order. -/
def sonarrFields : List Field :=
  [Field.text "sonarr_api_url" "api_url",
   Field.text "sonarr_api_key" "api_key",
   Field.number "hunt_missing_shows" "sonarr" "hunt_missing_shows" 1,
   Field.number "hunt_upgrade_episodes" "sonarr" "hunt_upgrade_episodes" 0,
   Field.number "sleep_duration" "sonarr" "sleep_duration" 900,
   Field.number "state_reset_interval_hours" "sonarr" "state_reset_interval_hours" 168,
   Field.toggleUnlessFalse "monitored_only" "sonarr" "monitored_only",
   Field.toggleUnlessFalse "skip_future_episodes" "sonarr" "skip_future_episodes",
   Field.toggleIfTrue "skip_series_refresh" "sonarr" "skip_series_refresh",
   Field.toggleUnlessFalse "random_missing" "sonarr" "random_missing",
   Field.toggleUnlessFalse "random_upgrades" "sonarr" "random_upgrades",
   Field.toggleIfTrue "debug_mode" "sonarr" "debug_mode",
   Field.number "api_timeout" "sonarr" "api_timeout" 60,
   Field.number "command_wait_delay" "sonarr" "command_wait_delay" 1,
   Field.number "command_wait_attempts" "sonarr" "command_wait_attempts" 600,
   Field.number "minimum_download_queue_size" "sonarr" "minimum_download_queue_size" (-1)]

/-- The template lines of `generateRadarrForm`, in document order. -/
def radarrFields : List Field :=
  [Field.text "radarr_api_url" "api_url",
   Field.text "radarr_api_key" "api_key",
   Field.number "hunt_missing_movies" "radarr" "hunt_missing_movies" 1,
   Field.number "hunt_upgrade_movies" "radarr" "hunt_upgrade_movies" 0,
   Field.number "radarr_sleep_duration" "radarr" "sleep_duration" 900,
   Field.number "radarr_state_reset_interval_hours" "radarr" "state_reset_interval_hours" 168,
   Field.toggleUnlessFalse "radarr_monitored_only" "radarr" "monitored_only",
   Field.toggleUnlessFalse "skip_future_releases" "radarr" "skip_future_releases",
   Field.toggleIfTrue "skip_movie_refresh" "radarr" "skip_movie_refresh",
   Field.toggleUnlessFalse "radarr_random_missing" "radarr" "random_missing",
   Field.toggleUnlessFalse "radarr_random_upgrades" "radarr" "random_upgrades",
   Field.toggleIfTrue "radarr_debug_mode" "radarr" "debug_mode"]

/-- The template lines of `generateLidarrForm`, in document order. -/
def lidarrFields : List Field :=
  [Field.text "lidarr_api_url" "api_url",
   Field.text "lidarr_api_key" "api_key",
   Field.number "hunt_missing_albums" "lidarr" "hunt_missing_albums" 1,
   Field.number "hunt_upgrade_tracks" "lidarr" "hunt_upgrade_tracks" 0,
   Field.number "lidarr_sleep_duration" "lidarr" "sleep_duration" 900,
   Field.number "lidarr_state_reset_interval_hours" "lidarr" "state_reset_interval_hours" 168,
   Field.toggleUnlessFalse "lidarr_monitored_only" "lidarr" "monitored_only",
   Field.toggleUnlessFalse "lidarr_skip_future_releases" "lidarr" "skip_future_releases",
   Field.toggleIfTrue "skip_artist_refresh" "lidarr" "skip_artist_refresh",
   Field.toggleUnlessFalse "lidarr_random_missing" "lidarr" "random_missing",
   Field.toggleUnlessFalse "lidarr_random_upgrades" "lidarr" "random_upgrades",
   Field.toggleIfTrue "lidarr_debug_mode" "lidarr" "debug_mode"]

/-- The template lines of `generateReadarrForm`, in document order. -/
def readarrFields : List Field :=
  [Field.text "readarr_api_url" "api_url",
   Field.text "readarr_api_key" "api_key",
   Field.number "hunt_missing_books" "readarr" "hunt_missing_books" 1,
   Field.number "hunt_upgrade_books" "readarr" "hunt_upgrade_books" 0,
   Field.number "readarr_sleep_duration" "readarr" "sleep_duration" 900,
   Field.number "readarr_state_reset_interval_hours" "readarr" "state_reset_interval_hours"
     168,
   Field.toggleUnlessFalse "readarr_monitored_only" "readarr" "monitored_only",
   Field.toggleUnlessFalse "readarr_skip_future_releases" "readarr" "skip_future_releases",
   Field.toggleIfTrue "skip_author_refresh" "readarr" "skip_author_refresh",
   Field.toggleUnlessFalse "readarr_random_missing" "readarr" "random_missing",
   Field.toggleUnlessFalse "readarr_random_upgrades" "readarr" "random_upgrades",
   Field.toggleIfTrue "readarr_debug_mode" "readarr" "debug_mode"]

/-- The template lines of `generateGlobalForm`, in document order. -/
def globalFields : List Field :=
  [Field.toggleIfTrue "debug_mode" "global" "debug_mode",
   Field.number "command_wait_delay" "global" "command_wait_delay" 1,
   Field.number "command_wait_attempts" "global" "command_wait_attempts" 600,
   Field.number "minimum_download_queue_size" "global" "minimum_download_queue_size" (-1)]

/-- The function `SettingsForms.generateSonarrForm(container, settings)`: the `input`
elements that the template lines write to the container, for a settings object (on
`null` the call throws).  The markup is `generateSonarrMarkup`. -/
def generateSonarrForm (settings : JsValue) : List Input :=
  sonarrFields.map (Field.render settings)

/-- The function `SettingsForms.generateRadarrForm(container, settings)`. -/
def generateRadarrForm (settings : JsValue) : List Input :=
  radarrFields.map (Field.render settings)

/-- The function `SettingsForms.generateLidarrForm(container, settings)`. -/
def generateLidarrForm (settings : JsValue) : List Input :=
  lidarrFields.map (Field.render settings)

/-- The function `SettingsForms.generateReadarrForm(container, settings)`. -/
def generateReadarrForm (settings : JsValue) : List Input :=
  readarrFields.map (Field.render settings)

/-- The function `SettingsForms.generateGlobalForm(container, settings)`. -/
def generateGlobalForm (settings : JsValue) : List Input :=
  globalFields.map (Field.render settings)

end Frontend

namespace Static

/-- The template lines of `generateSonarrForm` in `static/js/settings_forms.js`, in
document order. -/
def sonarrFields : List Field :=
  [Field.text "sonarr_api_url" "api_url",
   Field.text "sonarr_api_key" "api_key",
   Field.number "hunt_missing_shows" "huntarr" "hunt_missing_shows" 1,
   Field.number "hunt_upgrade_episodes" "huntarr" "hunt_upgrade_episodes" 0,
   Field.number "sleep_duration" "huntarr" "sleep_duration" 900,
   Field.number "state_reset_interval_hours" "huntarr" "state_reset_interval_hours" 168,
   Field.toggleUnlessFalse "monitored_only" "huntarr" "monitored_only",
   Field.toggleUnlessFalse "skip_future_episodes" "huntarr" "skip_future_episodes",
   Field.toggleIfTrue "skip_series_refresh" "huntarr" "skip_series_refresh",
   Field.toggleUnlessFalse "random_missing" "advanced" "random_missing",
   Field.toggleUnlessFalse "random_upgrades" "advanced" "random_upgrades",
   Field.toggleIfTrue "debug_mode" "advanced" "debug_mode"]

/-- The template lines of `generateRadarrForm`, in document order. -/
def radarrFields : List Field :=
  [Field.text "radarr_api_url" "api_url",
   Field.text "radarr_api_key" "api_key",
   Field.number "hunt_missing_movies" "huntarr" "hunt_missing_movies" 1,
   Field.number "hunt_upgrade_movies" "huntarr" "hunt_upgrade_movies" 0,
   Field.number "radarr_sleep_duration" "huntarr" "sleep_duration" 900,
   Field.number "radarr_state_reset_interval_hours" "huntarr" "state_reset_interval_hours"
     168,
   Field.toggleUnlessFalse "radarr_monitored_only" "huntarr" "monitored_only",
   Field.toggleUnlessFalse "skip_future_releases" "huntarr" "skip_future_releases",
   Field.toggleIfTrue "skip_movie_refresh" "huntarr" "skip_movie_refresh",
   Field.toggleUnlessFalse "radarr_random_missing" "advanced" "random_missing",
   Field.toggleUnlessFalse "radarr_random_upgrades" "advanced" "random_upgrades",
   Field.toggleIfTrue "radarr_debug_mode" "advanced" "debug_mode"]

/-- The template lines of `generateLidarrForm`, in document order. -/
def lidarrFields : List Field :=
  [Field.text "lidarr_api_url" "api_url",
   Field.text "lidarr_api_key" "api_key",
   Field.number "hunt_missing_albums" "huntarr" "hunt_missing_albums" 1,
   Field.number "hunt_upgrade_tracks" "huntarr" "hunt_upgrade_tracks" 0,
   Field.number "lidarr_sleep_duration" "huntarr" "sleep_duration" 900,
   Field.number "lidarr_state_reset_interval_hours" "huntarr" "state_reset_interval_hours"
     168,
   Field.toggleUnlessFalse "lidarr_monitored_only" "huntarr" "monitored_only",
   Field.toggleUnlessFalse "lidarr_skip_future_releases" "huntarr" "skip_future_releases",
   Field.toggleIfTrue "skip_artist_refresh" "huntarr" "skip_artist_refresh",
   Field.toggleUnlessFalse "lidarr_random_missing" "advanced" "random_missing",
   Field.toggleUnlessFalse "lidarr_random_upgrades" "advanced" "random_upgrades",
   Field.toggleIfTrue "lidarr_debug_mode" "advanced" "debug_mode"]

/-- The template lines of `generateGlobalForm`, in document order. -/
def globalFields : List Field :=
  [Field.toggleIfTrue "debug_mode" "advanced" "debug_mode",
   Field.number "command_wait_delay" "advanced" "command_wait_delay" 1,
   Field.number "command_wait_attempts" "advanced" "command_wait_attempts" 600,
   Field.number "minimum_download_queue_size" "advanced" "minimum_download_queue_size" (-1)]

/-- The function `SettingsForms.generateSonarrForm(container, settings)`: the `input`
elements that the template lines write to the container, for a settings object (on
`null` the call throws).  The markup is `generateSonarrMarkup`. -/
def generateSonarrForm (settings : JsValue) : List Input :=
  sonarrFields.map (Field.render settings)

/-- The function `SettingsForms.generateRadarrForm(container, settings)`. -/
def generateRadarrForm (settings : JsValue) : List Input :=
  radarrFields.map (Field.render settings)

/-- The function `SettingsForms.generateLidarrForm(container, settings)`. -/
def generateLidarrForm (settings : JsValue) : List Input :=
  lidarrFields.map (Field.render settings)

/-- The function `SettingsForms.generateGlobalForm(container, settings)`. -/
def generateGlobalForm (settings : JsValue) : List Input :=
  globalFields.map (Field.render settings)

end Static

/-- The id of the `input` element a template line renders. -/
def Field.id : Field → String
  | Field.text id _ => id
  | Field.number id _ _ _ => id
  | Field.toggleUnlessFalse id _ _ => id
  | Field.toggleIfTrue id _ _ => id

/-- The nine form generators of the two files, each with its template lines. -/
def allForms : List (List Field × (JsValue → List Input)) :=
  [(Frontend.sonarrFields, Frontend.generateSonarrForm),
   (Frontend.radarrFields, Frontend.generateRadarrForm),
   (Frontend.lidarrFields, Frontend.generateLidarrForm),
   (Frontend.readarrFields, Frontend.generateReadarrForm),
   (Frontend.globalFields, Frontend.generateGlobalForm),
   (Static.sonarrFields, Static.generateSonarrForm),
   (Static.radarrFields, Static.generateRadarrForm),
   (Static.lidarrFields, Static.generateLidarrForm),
   (Static.globalFields, Static.generateGlobalForm)]

/-- The setting key a template line reads. -/
def Field.key : Field → String
  | Field.text _ key => key
  | Field.number _ _ key _ => key
  | Field.toggleUnlessFalse _ _ key => key
  | Field.toggleIfTrue _ _ key => key

/-- Whether a template line renders a checkbox. -/
def Field.isToggle : Field → Bool
  | Field.toggleUnlessFalse _ _ _ => true
  | Field.toggleIfTrue _ _ _ => true
  | _ => false

/-- The setting keys of the toggles that are on by default. -/
def defaultTrueKeys : List String :=
  ["monitored_only", "skip_future_episodes", "skip_future_releases", "random_missing",
   "random_upgrades"]

/-- The setting keys of the toggles that are off by default. -/
def defaultFalseKeys : List String :=
  ["skip_series_refresh", "skip_movie_refresh", "skip_artist_refresh",
   "skip_author_refresh", "debug_mode"]

/-- Whether a checkbox line tests `!== false` on a default-true key, or `=== true` on a
default-false key. -/
def Field.testMatchesKey : Field → Bool
  | Field.toggleUnlessFalse _ _ key =>
    decide (key ∈ defaultTrueKeys) && !decide (key ∈ defaultFalseKeys)
  | Field.toggleIfTrue _ _ key =>
    decide (key ∈ defaultFalseKeys) && !decide (key ∈ defaultTrueKeys)
  | _ => true

/-! ## The markup of a form

The generators assign a template literal to `container.innerHTML`, and the document then
holds the elements that the HTML parser builds from that text.  The stored values are
interpolated as they are, so a value that holds a double quote ends the attribute it is
written into and the rest of it is read as markup.

The template literals are kept as their literal texts, with the lines of the field tables
as their interpolations.  The parser is the HTML tokenizer, state by state, for markup
without character references, carriage returns and null characters, and without the
elements whose content is raw text (`script`, `style`, `textarea`, `title`).  The
elements of the document in tree order are the start tags in the order of the text, for
markup that opens no table, `select` or `template`, as the templates do not; no element
of a template shares its id with an `input` element. -/

/-- A start tag of a markup text: its name and its attributes with their values, in the
order of the text.  An attribute name that occurs twice counts at its first
occurrence. -/
structure StartTag where
  name : List Char
  attrs : List (List Char × List Char)
deriving DecidableEq, Repr

/-- The states of the HTML tokenizer that are reached on markup without character
references, scripts and raw text elements. -/
inductive TokenizerMode where
  | data
  | tagOpen
  | endTagOpen
  | tagName
  | beforeAttributeName
  | attributeName
  | afterAttributeName
  | beforeAttributeValue
  | attributeValueDoubleQuoted
  | attributeValueSingleQuoted
  | attributeValueUnquoted
  | afterAttributeValueQuoted
  | selfClosingStartTag
  | bogusComment
  | markupDeclarationOpen
  | markupDeclarationDash
  | commentStart
  | commentStartDash
  | comment
  | commentEndDash
  | commentEnd
  | commentEndBang
deriving DecidableEq, Repr

/-- The tokenizer between two characters: its state and the tag it is reading (whether
it is an end tag, its name, its attributes with the latest first). -/
structure Tokenizer where
  mode : TokenizerMode
  isEndTag : Bool
  name : List Char
  attrs : List (List Char × List Char)
deriving DecidableEq, Repr

namespace Tokenizer

/-- The tokenizer before the first character. -/
def start : Tokenizer := ⟨TokenizerMode.data, false, [], []⟩

/-- Whether the character is white space inside a tag: tab, line feed, form feed,
carriage return or space. -/
def isTagWhiteSpace (c : Char) : Bool :=
  c = '\t' || c = '\n' || c = '\x0c' || c = '\r' || c = ' '

/-- The lower-case form of an ASCII letter, as tag and attribute names keep it. -/
def lower (c : Char) : Char :=
  if 'A' ≤ c ∧ c ≤ 'Z' then Char.ofNat (c.toNat + 32) else c

/-- Whether the character is an ASCII letter. -/
def isAsciiAlpha (c : Char) : Bool :=
  ('a' ≤ c ∧ c ≤ 'z') || ('A' ≤ c ∧ c ≤ 'Z')

/-- Switch to a state, emitting nothing. -/
def goto (t : Tokenizer) (mode : TokenizerMode) : Tokenizer × Option StartTag :=
  ({ t with mode := mode }, none)

/-- Emit the current tag and return to the data state; an end tag emits no start tag. -/
def emit (t : Tokenizer) : Tokenizer × Option StartTag :=
  (start, if t.isEndTag then none else some ⟨t.name, t.attrs.reverse⟩)

/-- Start a new tag with the given first character of its name. -/
def newTag (isEndTag : Bool) (c : Char) : Tokenizer × Option StartTag :=
  (⟨TokenizerMode.tagName, isEndTag, [lower c], []⟩, none)

/-- Start a new attribute with the given first character of its name. -/
def newAttribute (t : Tokenizer) (c : Char) : Tokenizer × Option StartTag :=
  ({ t with mode := TokenizerMode.attributeName, attrs := ([lower c], []) :: t.attrs }, none)

/-- Append a character to the name of the current attribute. -/
def pushName (t : Tokenizer) (c : Char) : Tokenizer × Option StartTag :=
  match t.attrs with
  | (n, v) :: rest => ({ t with attrs := (n ++ [lower c], v) :: rest }, none)
  | [] => (t, none)

/-- Append a character to the value of the current attribute, in the given state. -/
def pushValue (t : Tokenizer) (mode : TokenizerMode) (c : Char) :
    Tokenizer × Option StartTag :=
  match t.attrs with
  | (n, v) :: rest => ({ t with mode := mode, attrs := (n, v ++ [c]) :: rest }, none)
  | [] => ({ t with mode := mode }, none)

/-- The after attribute name state, which the attribute name state also ends in. -/
def afterAttributeName (t : Tokenizer) (c : Char) : Tokenizer × Option StartTag :=
  if isTagWhiteSpace c then t.goto TokenizerMode.afterAttributeName
  else if c = '/' then t.goto TokenizerMode.selfClosingStartTag
  else if c = '=' then t.goto TokenizerMode.beforeAttributeValue
  else if c = '>' then t.emit
  else t.newAttribute c

/-- The before attribute name state, which the states after a value also end in. -/
def beforeAttributeName (t : Tokenizer) (c : Char) : Tokenizer × Option StartTag :=
  if isTagWhiteSpace c then t.goto TokenizerMode.beforeAttributeName
  else if c = '/' then t.goto TokenizerMode.selfClosingStartTag
  else if c = '>' then t.emit
  else t.newAttribute c

/-- One step of the tokenizer: the state after reading the character `c`, and the start
tag that the character completes, if it completes one. -/
def step (t : Tokenizer) (c : Char) : Tokenizer × Option StartTag :=
  match t.mode with
  | TokenizerMode.data =>
    if c = '<' then t.goto TokenizerMode.tagOpen else (t, none)
  | TokenizerMode.tagOpen =>
    if c = '!' then t.goto TokenizerMode.markupDeclarationOpen
    else if c = '/' then t.goto TokenizerMode.endTagOpen
    else if isAsciiAlpha c then newTag false c
    else if c = '?' then t.goto TokenizerMode.bogusComment
    else if c = '<' then t.goto TokenizerMode.tagOpen
    else t.goto TokenizerMode.data
  | TokenizerMode.endTagOpen =>
    if isAsciiAlpha c then newTag true c
    else if c = '>' then t.goto TokenizerMode.data
    else t.goto TokenizerMode.bogusComment
  | TokenizerMode.tagName =>
    if isTagWhiteSpace c then t.goto TokenizerMode.beforeAttributeName
    else if c = '/' then t.goto TokenizerMode.selfClosingStartTag
    else if c = '>' then t.emit
    else ({ t with name := t.name ++ [lower c] }, none)
  | TokenizerMode.beforeAttributeName => t.beforeAttributeName c
  | TokenizerMode.attributeName =>
    if isTagWhiteSpace c || c = '/' || c = '>' || c = '=' then t.afterAttributeName c
    else t.pushName c
  | TokenizerMode.afterAttributeName => t.afterAttributeName c
  | TokenizerMode.beforeAttributeValue =>
    if isTagWhiteSpace c then (t, none)
    else if c = '"' then t.goto TokenizerMode.attributeValueDoubleQuoted
    else if c = '\'' then t.goto TokenizerMode.attributeValueSingleQuoted
    else if c = '>' then t.emit
    else t.pushValue TokenizerMode.attributeValueUnquoted c
  | TokenizerMode.attributeValueDoubleQuoted =>
    if c = '"' then t.goto TokenizerMode.afterAttributeValueQuoted
    else t.pushValue TokenizerMode.attributeValueDoubleQuoted c
  | TokenizerMode.attributeValueSingleQuoted =>
    if c = '\'' then t.goto TokenizerMode.afterAttributeValueQuoted
    else t.pushValue TokenizerMode.attributeValueSingleQuoted c
  | TokenizerMode.attributeValueUnquoted =>
    if isTagWhiteSpace c then t.goto TokenizerMode.beforeAttributeName
    else if c = '>' then t.emit
    else t.pushValue TokenizerMode.attributeValueUnquoted c
  | TokenizerMode.afterAttributeValueQuoted => t.beforeAttributeName c
  | TokenizerMode.selfClosingStartTag =>
    if c = '>' then t.emit else t.beforeAttributeName c
  | TokenizerMode.bogusComment =>
    if c = '>' then t.goto TokenizerMode.data else (t, none)
  | TokenizerMode.markupDeclarationOpen =>
    if c = '-' then t.goto TokenizerMode.markupDeclarationDash
    else if c = '>' then t.goto TokenizerMode.data
    else t.goto TokenizerMode.bogusComment
  | TokenizerMode.markupDeclarationDash =>
    if c = '-' then t.goto TokenizerMode.commentStart
    else if c = '>' then t.goto TokenizerMode.data
    else t.goto TokenizerMode.bogusComment
  | TokenizerMode.commentStart =>
    if c = '-' then t.goto TokenizerMode.commentStartDash
    else if c = '>' then t.goto TokenizerMode.data
    else t.goto TokenizerMode.comment
  | TokenizerMode.commentStartDash =>
    if c = '-' then t.goto TokenizerMode.commentEnd
    else if c = '>' then t.goto TokenizerMode.data
    else t.goto TokenizerMode.comment
  | TokenizerMode.comment =>
    if c = '-' then t.goto TokenizerMode.commentEndDash else (t, none)
  | TokenizerMode.commentEndDash =>
    if c = '-' then t.goto TokenizerMode.commentEnd else t.goto TokenizerMode.comment
  | TokenizerMode.commentEnd =>
    if c = '>' then t.goto TokenizerMode.data
    else if c = '!' then t.goto TokenizerMode.commentEndBang
    else if c = '-' then (t, none)
    else t.goto TokenizerMode.comment
  | TokenizerMode.commentEndBang =>
    if c = '-' then t.goto TokenizerMode.commentEndDash
    else if c = '>' then t.goto TokenizerMode.data
    else t.goto TokenizerMode.comment

/-- The start tags that the tokenizer emits on the rest of a text, in the order of the
text; a tag that the text does not close is dropped. -/
def run : Tokenizer → List Char → List StartTag
  | _, [] => []
  | t, c :: cs =>
    match t.step c with
    | (next, some tag) => tag :: run next cs
    | (next, none) => run next cs

/-- The state of the tokenizer after the text. -/
def runState : Tokenizer → List Char → Tokenizer
  | t, [] => t
  | t, c :: cs => runState (t.step c).1 cs

end Tokenizer

/-- The start tags of a markup text, in the order of the text. -/
def startTags (markup : String) : List StartTag :=
  Tokenizer.start.run markup.toList

/-- The value of an attribute of a start tag, `none` when the tag has no such
attribute. -/
def StartTag.attr (t : StartTag) (name : String) : Option String :=
  (t.attrs.lookup name.toList).map String.mk

/-- The `input` element that a start tag named `input` stands for: its type (`text` when
the attribute is missing), id and value attributes, and whether it has the attribute
`checked`. -/
def StartTag.toInput (t : StartTag) : Input :=
  ⟨(t.attr "type").getD "text", (t.attr "id").getD "", (t.attr "value").getD "",
    (t.attr "checked").isSome⟩

/-- The `input` elements among start tags. -/
def inputsOf (tags : List StartTag) : List Input :=
  (tags.filter fun t => t.name = "input".toList).map StartTag.toInput

/-- The `input` elements of the document that the HTML parser builds from a markup text,
in tree order: for markup that nests its elements as the form templates do, these are
the start tags named `input` in the order of the text. -/
def inputElements (markup : String) : List Input :=
  inputsOf (startTags markup)

/-- The value a settings object stores under the key `key` of its group `group`: the
property `key` of the object that the property `group` holds, `undefined` when one of
the two is absent. -/
def storedValue (props : List (String × JsValue)) (group key : String) : JsValue :=
  match props.lookup group with
  | some (JsValue.object values) => (values.lookup key).getD JsValue.undefined
  | _ => JsValue.undefined

/-- The text that the interpolation of a template line renders: the stored value or the
default for a text or number input, and `checked` or nothing for a checkbox. -/
def Field.interpolation (settings : JsValue) (f : Field) : String :=
  match f with
  | Field.text _ _ => ((f.stored settings).orElse (JsValue.string "")).toStr
  | Field.number _ _ _ dflt => ((f.stored settings).orElse (JsValue.number dflt)).toStr
  | Field.toggleUnlessFalse _ _ _ => if !(f.stored settings).isFalse then "checked" else ""
  | Field.toggleIfTrue _ _ _ => if (f.stored settings).isTrue then "checked" else ""

/-- The text of a template literal: its literal texts with the rendered substitutions
between them. -/
def templateLiteral : List String → List String → String
  | text :: texts, substitution :: substitutions =>
    text ++ (substitution ++ templateLiteral texts substitutions)
  | text :: _, [] => text
  | [], _ => ""

/-- Whether a text stands for itself inside a double-quoted attribute value: it holds no
double quote, which ends the value, no ampersand, which starts a character reference,
and no carriage return or null character, which the parser replaces. -/
def isPlainValue (s : String) : Bool :=
  s.toList.all fun c => c ≠ '"' && c ≠ '&' && c ≠ '\r' && c ≠ '\x00'

/-- The text that follows the interpolation of a template line and closes its tag: the
quote that ends the `value` attribute and `>`, or `>` alone for a checkbox. -/
def Field.closing : Field → List Char
  | Field.text _ _ => ['"', '>']
  | Field.number _ _ _ _ => ['"', '>']
  | Field.toggleUnlessFalse _ _ _ => ['>']
  | Field.toggleIfTrue _ _ _ => ['>']

/-- Whether the attributes read so far are those of the `input` element of a template
line before its interpolation: the type and the id of the line, and neither a value nor
`checked`. -/
def attrsFit (attrs : List (List Char × List Char)) (kind id : String) : Bool :=
  attrs.lookup "type".toList = some kind.toList && attrs.lookup "id".toList = some id.toList &&
    attrs.lookup "value".toList = none && attrs.lookup "checked".toList = none

/-- Whether the tokenizer stands where the interpolation of the template line belongs:
in the tag of its `input` element, inside the double-quoted `value` attribute for a text
or number input and before an attribute name for a checkbox. -/
def Field.fits (f : Field) (t : Tokenizer) : Bool :=
  !t.isEndTag && t.name = "input".toList &&
  match f with
  | Field.text id _ =>
    t.mode = TokenizerMode.attributeValueDoubleQuoted &&
      match t.attrs with
      | (n, v) :: rest => n = "value".toList && v = [] && attrsFit rest.reverse "text" id
      | [] => false
  | Field.number id _ _ _ =>
    t.mode = TokenizerMode.attributeValueDoubleQuoted &&
      match t.attrs with
      | (n, v) :: rest => n = "value".toList && v = [] && attrsFit rest.reverse "number" id
      | [] => false
  | Field.toggleUnlessFalse id _ _ =>
    t.mode = TokenizerMode.beforeAttributeName && attrsFit t.attrs.reverse "checkbox" id
  | Field.toggleIfTrue id _ _ =>
    t.mode = TokenizerMode.beforeAttributeName && attrsFit t.attrs.reverse "checkbox" id

/-- Whether the literal texts of a template fit its lines: the text before each
interpolation holds no `input` element of its own and leaves the tokenizer where the
interpolation belongs, the text after it starts with the closing of the tag, and there
is one text after the last interpolation.  `body` is the current text after the closing
of the tag before it. -/
def segmentsFit : List Char → List String → List Field → Bool
  | body, texts, [] => texts.isEmpty && (inputsOf (Tokenizer.start.run body)).isEmpty
  | body, texts, f :: fields =>
    (inputsOf (Tokenizer.start.run body)).isEmpty && f.fits (Tokenizer.start.runState body) &&
      match texts with
      | next :: texts =>
        f.closing.isPrefixOf next.toList &&
          segmentsFit (next.toList.drop f.closing.length) texts fields
      | [] => false

/-- Whether the literal texts of a template fit its lines. -/
def templateFits (texts : List String) (fields : List Field) : Bool :=
  match texts with
  | first :: texts => segmentsFit first.toList texts fields
  | [] => false

namespace Frontend

/-- The literal texts of the template literal of `generateSonarrForm` in
`frontend/static/js/settings_forms.js`, between its interpolations; the interpolations are
the lines of `sonarrFields`, in the same order. -/
def sonarrTexts : List String :=
  [r#"
            <div class="settings-group">
                <h3>Sonarr Connection</h3>
                <div class="setting-item">
                    <label for="sonarr_api_url">URL:</label>
                    <input type="text" id="sonarr_api_url" value=""#,
   r#"">
                    <p class="setting-help">Base URL for Sonarr (e.g., http://localhost:8989)</p>
                </div>
                <div class="setting-item">
                    <label for="sonarr_api_key">API Key:</label>
                    <input type="text" id="sonarr_api_key" value=""#,
   r#"">
                    <p class="setting-help">API key for Sonarr</p>
                </div>
                <!-- Removed the connection status indicator -->
            </div>
            
            <div class="settings-group">
                <h3>Search Settings</h3>
                <div class="setting-item">
                    <label for="hunt_missing_shows">Missing Shows to Search:</label>
                    <input type="number" id="hunt_missing_shows" min="0" value=""#,
   r#"">
                    <p class="setting-help">Number of missing shows to search per cycle (0 to disable)</p>
                </div>
                <div class="setting-item">
                    <label for="hunt_upgrade_episodes">Episodes to Upgrade:</label>
                    <input type="number" id="hunt_upgrade_episodes" min="0" value=""#,
   r#"">
                    <p class="setting-help">Number of episodes to search for quality upgrades per cycle (0 to disable)</p>
                </div>
                <div class="setting-item">
                    <label for="sleep_duration">Search Interval:</label>
                    <input type="number" id="sleep_duration" min="60" value=""#,
   r#"">
                    <p class="setting-help">Time between searches in seconds (<span id="sleep_duration_hours"></span>)</p>
                </div>
                <div class="setting-item">
                    <label for="state_reset_interval_hours">Reset Interval:</label>
                    <input type="number" id="state_reset_interval_hours" min="1" value=""#,
   r#"">
                    <p class="setting-help">Hours between state resets (default: 168 = 7 days)</p>
                </div>
            </div>
            
            <div class="settings-group">
                <h3>Additional Options</h3>
                <div class="setting-item">
                    <label for="monitored_only">Monitored Only:</label>
                    <label class="toggle-switch">
                        <input type="checkbox" id="monitored_only" "#,
   r#">
                        <span class="toggle-slider"></span>
                    </label>
                    <p class="setting-help">Only search for monitored items</p>
                </div>
                <div class="setting-item">
                    <label for="skip_future_episodes">Skip Future Releases:</label>
                    <label class="toggle-switch">
                        <input type="checkbox" id="skip_future_episodes" "#,
   r#">
                        <span class="toggle-slider"></span>
                    </label>
                    <p class="setting-help">Skip searching for episodes with future air dates</p>
                </div>
                <div class="setting-item">
                    <label for="skip_series_refresh">Skip Series Refresh:</label>
                    <label class="toggle-switch">
                        <input type="checkbox" id="skip_series_refresh" "#,
   r#">
                        <span class="toggle-slider"></span>
                    </label>
                    <p class="setting-help">Skip refreshing series metadata before searching</p>
                </div>
            </div>
            
            <div class="settings-group">
                <h3>Advanced Settings</h3>
                <div class="setting-item">
                    <label for="random_missing">Random Missing:</label>
                    <label class="toggle-switch">
                        <input type="checkbox" id="random_missing" "#,
   r#">
                        <span class="toggle-slider"></span>
                    </label>
                    <p class="setting-help">Select random missing items instead of sequential order</p>
                </div>
                <div class="setting-item">
                    <label for="random_upgrades">Random Upgrades:</label>
                    <label class="toggle-switch">
                        <input type="checkbox" id="random_upgrades" "#,
   r#">
                        <span class="toggle-slider"></span>
                    </label>
                    <p class="setting-help">Select random items for quality upgrades</p>
                </div>
                <div class="setting-item">
                    <label for="debug_mode">Debug Mode:</label>
                    <label class="toggle-switch">
                        <input type="checkbox" id="debug_mode" "#,
   r#">
                        <span class="toggle-slider"></span>
                    </label>
                    <p class="setting-help">Enable verbose logging for troubleshooting</p>
                </div>
                <div class="setting-item">
                    <label for="api_timeout">API Timeout:</label>
                    <input type="number" id="api_timeout" min="10" max="300" value=""#,
   r#"">
                    <p class="setting-help">Timeout for API requests in seconds</p>
                </div>
                <div class="setting-item">
                    <label for="command_wait_delay">Command Wait Delay:</label>
                    <input type="number" id="command_wait_delay" min="1" value=""#,
   r#"">
                    <p class="setting-help">Delay between checking command status in seconds</p>
                </div>
                <div class="setting-item">
                    <label for="command_wait_attempts">Command Wait Attempts:</label>
                    <input type="number" id="command_wait_attempts" min="1" value=""#,
   r#"">
                    <p class="setting-help">Maximum number of status check attempts</p>
                </div>
                <div class="setting-item">
                    <label for="minimum_download_queue_size">Min Download Queue Size:</label>
                    <input type="number" id="minimum_download_queue_size" min="-1" value=""#,
   r#"">
                    <p class="setting-help">Minimum download queue size to pause searching (-1 to disable)</p>
                </div>
            </div>
        "#]

/-- The literal texts of the template literal of `generateRadarrForm`. -/
def radarrTexts : List String :=
  [r#"
            <div class="settings-group">
                <h3>Radarr Connection</h3>
                <div class="setting-item">
                    <label for="radarr_api_url">URL:</label>
                    <input type="text" id="radarr_api_url" value=""#,
   r#"">
                    <p class="setting-help">Base URL for Radarr (e.g., http://localhost:7878)</p>
                </div>
                <div class="setting-item">
                    <label for="radarr_api_key">API Key:</label>
                    <input type="text" id="radarr_api_key" value=""#,
   r#"">
                    <p class="setting-help">API key for Radarr</p>
                </div>
                <!-- Removed the connection status indicator -->
            </div>
            
            <div class="settings-group">
                <h3>Search Settings</h3>
                <div class="setting-item">
                    <label for="hunt_missing_movies">Missing Movies to Search:</label>
                    <input type="number" id="hunt_missing_movies" min="0" value=""#,
   r#"">
                    <p class="setting-help">Number of missing movies to search per cycle (0 to disable)</p>
                </div>
                <div class="setting-item">
                    <label for="hunt_upgrade_movies">Movies to Upgrade:</label>
                    <input type="number" id="hunt_upgrade_movies" min="0" value=""#,
   r#"">
                    <p class="setting-help">Number of movies to search for quality upgrades per cycle (0 to disable)</p>
                </div>
                <div class="setting-item">
                    <label for="radarr_sleep_duration">Search Interval:</label>
                    <input type="number" id="radarr_sleep_duration" min="60" value=""#,
   r#"">
                    <p class="setting-help">Time between searches in seconds (<span id="radarr_sleep_duration_hours"></span>)</p>
                </div>
                <div class="setting-item">
                    <label for="radarr_state_reset_interval_hours">Reset Interval:</label>
                    <input type="number" id="radarr_state_reset_interval_hours" min="1" value=""#,
   r#"">
                    <p class="setting-help">Hours between state resets (default: 168 = 7 days)</p>
                </div>
            </div>
            
            <div class="settings-group">
                <h3>Additional Options</h3>
                <div class="setting-item">
                    <label for="radarr_monitored_only">Monitored Only:</label>
                    <label class="toggle-switch">
                        <input type="checkbox" id="radarr_monitored_only" "#,
   r#">
                        <span class="toggle-slider"></span>
                    </label>
                    <p class="setting-help">Only search for monitored items</p>
                </div>
                <div class="setting-item">
                    <label for="skip_future_releases">Skip Future Releases:</label>
                    <label class="toggle-switch">
                        <input type="checkbox" id="skip_future_releases" "#,
   r#">
                        <span class="toggle-slider"></span>
                    </label>
                    <p class="setting-help">Skip searching for movies with future release dates</p>
                </div>
                <div class="setting-item">
                    <label for="skip_movie_refresh">Skip Movie Refresh:</label>
                    <label class="toggle-switch">
                        <input type="checkbox" id="skip_movie_refresh" "#,
   r#">
                        <span class="toggle-slider"></span>
                    </label>
                    <p class="setting-help">Skip refreshing movie metadata before searching</p>
                </div>
            </div>
            
            <div class="settings-group">
                <h3>Advanced Settings</h3>
                <div class="setting-item">
                    <label for="radarr_random_missing">Random Missing:</label>
                    <label class="toggle-switch">
                        <input type="checkbox" id="radarr_random_missing" "#,
   r#">
                        <span class="toggle-slider"></span>
                    </label>
                    <p class="setting-help">Select random missing items instead of sequential order</p>
                </div>
                <div class="setting-item">
                    <label for="radarr_random_upgrades">Random Upgrades:</label>
                    <label class="toggle-switch">
                        <input type="checkbox" id="radarr_random_upgrades" "#,
   r#">
                        <span class="toggle-slider"></span>
                    </label>
                    <p class="setting-help">Select random items for quality upgrades</p>
                </div>
                <div class="setting-item">
                    <label for="radarr_debug_mode">Debug Mode:</label>
                    <label class="toggle-switch">
                        <input type="checkbox" id="radarr_debug_mode" "#,
   r#">
                        <span class="toggle-slider"></span>
                    </label>
                    <p class="setting-help">Enable verbose logging for troubleshooting</p>
                </div>
            </div>
        "#]

/-- The literal texts of the template literal of `generateLidarrForm`. -/
def lidarrTexts : List String :=
  [r#"
            <div class="settings-group">
                <h3>Lidarr Connection</h3>
                <div class="setting-item">
                    <label for="lidarr_api_url">URL:</label>
                    <input type="text" id="lidarr_api_url" value=""#,
   r#"">
                    <p class="setting-help">Base URL for Lidarr (e.g., http://localhost:8686)</p>
                </div>
                <div class="setting-item">
                    <label for="lidarr_api_key">API Key:</label>
                    <input type="text" id="lidarr_api_key" value=""#,
   r#"">
                    <p class="setting-help">API key for Lidarr</p>
                </div>
                <!-- Removed the connection status indicator -->
            </div>
            
            <div class="settings-group">
                <h3>Search Settings</h3>
                <div class="setting-item">
                    <label for="hunt_missing_albums">Missing Albums to Search:</label>
                    <input type="number" id="hunt_missing_albums" min="0" value=""#,
   r#"">
                    <p class="setting-help">Number of missing albums to search per cycle (0 to disable)</p>
                </div>
                <div class="setting-item">
                    <label for="hunt_upgrade_tracks">Tracks to Upgrade:</label>
                    <input type="number" id="hunt_upgrade_tracks" min="0" value=""#,
   r#"">
                    <p class="setting-help">Number of tracks to search for quality upgrades per cycle (0 to disable)</p>
                </div>
                <div class="setting-item">
                    <label for="lidarr_sleep_duration">Search Interval:</label>
                    <input type="number" id="lidarr_sleep_duration" min="60" value=""#,
   r#"">
                    <p class="setting-help">Time between searches in seconds (<span id="lidarr_sleep_duration_hours"></span>)</p>
                </div>
                <div class="setting-item">
                    <label for="lidarr_state_reset_interval_hours">Reset Interval:</label>
                    <input type="number" id="lidarr_state_reset_interval_hours" min="1" value=""#,
   r#"">
                    <p class="setting-help">Hours between state resets (default: 168 = 7 days)</p>
                </div>
            </div>
            
            <div class="settings-group">
                <h3>Additional Options</h3>
                <div class="setting-item">
                    <label for="lidarr_monitored_only">Monitored Only:</label>
                    <label class="toggle-switch">
                        <input type="checkbox" id="lidarr_monitored_only" "#,
   r#">
                        <span class="toggle-slider"></span>
                    </label>
                    <p class="setting-help">Only search for monitored items</p>
                </div>
                <div class="setting-item">
                    <label for="lidarr_skip_future_releases">Skip Future Releases:</label>
                    <label class="toggle-switch">
                        <input type="checkbox" id="lidarr_skip_future_releases" "#,
   r#">
                        <span class="toggle-slider"></span>
                    </label>
                    <p class="setting-help">Skip searching for albums with future release dates</p>
                </div>
                <div class="setting-item">
                    <label for="skip_artist_refresh">Skip Artist Refresh:</label>
                    <label class="toggle-switch">
                        <input type="checkbox" id="skip_artist_refresh" "#,
   r#">
                        <span class="toggle-slider"></span>
                    </label>
                    <p class="setting-help">Skip refreshing artist metadata before searching</p>
                </div>
            </div>
            
            <div class="settings-group">
                <h3>Advanced Settings</h3>
                <div class="setting-item">
                    <label for="lidarr_random_missing">Random Missing:</label>
                    <label class="toggle-switch">
                        <input type="checkbox" id="lidarr_random_missing" "#,
   r#">
                        <span class="toggle-slider"></span>
                    </label>
                    <p class="setting-help">Select random missing items instead of sequential order</p>
                </div>
                <div class="setting-item">
                    <label for="lidarr_random_upgrades">Random Upgrades:</label>
                    <label class="toggle-switch">
                        <input type="checkbox" id="lidarr_random_upgrades" "#,
   r#">
                        <span class="toggle-slider"></span>
                    </label>
                    <p class="setting-help">Select random items for quality upgrades</p>
                </div>
                <div class="setting-item">
                    <label for="lidarr_debug_mode">Debug Mode:</label>
                    <label class="toggle-switch">
                        <input type="checkbox" id="lidarr_debug_mode" "#,
   r#">
                        <span class="toggle-slider"></span>
                    </label>
                    <p class="setting-help">Enable verbose logging for troubleshooting</p>
                </div>
            </div>
        "#]

/-- The literal texts of the template literal of `generateReadarrForm`. -/
def readarrTexts : List String :=
  [r#"
            <div class="settings-group">
                <h3>Readarr Connection</h3>
                <div class="setting-item">
                    <label for="readarr_api_url">URL:</label>
                    <input type="text" id="readarr_api_url" value=""#,
   r#"">
                    <p class="setting-help">Base URL for Readarr (e.g., http://localhost:8787)</p>
                </div>
                <div class="setting-item">
                    <label for="readarr_api_key">API Key:</label>
                    <input type="text" id="readarr_api_key" value=""#,
   r#"">
                    <p class="setting-help">API key for Readarr</p>
                </div>
                <!-- Removed the connection status indicator -->
            </div>
            
            <div class="settings-group">
                <h3>Search Settings</h3>
                <div class="setting-item">
                    <label for="hunt_missing_books">Missing Books to Search:</label>
                    <input type="number" id="hunt_missing_books" min="0" value=""#,
   r#"">
                    <p class="setting-help">Number of missing books to search per cycle (0 to disable)</p>
                </div>
                <div class="setting-item">
                    <label for="hunt_upgrade_books">Books to Upgrade:</label>
                    <input type="number" id="hunt_upgrade_books" min="0" value=""#,
   r#"">
                    <p class="setting-help">Number of books to search for quality upgrades per cycle (0 to disable)</p>
                </div>
                <div class="setting-item">
                    <label for="readarr_sleep_duration">Search Interval:</label>
                    <input type="number" id="readarr_sleep_duration" min="60" value=""#,
   r#"">
                    <p class="setting-help">Time between searches in seconds (<span id="readarr_sleep_duration_hours"></span>)</p>
                </div>
                <div class="setting-item">
                    <label for="readarr_state_reset_interval_hours">Reset Interval:</label>
                    <input type="number" id="readarr_state_reset_interval_hours" min="1" value=""#,
   r#"">
                    <p class="setting-help">Hours between state resets (default: 168 = 7 days)</p>
                </div>
            </div>
            
            <div class="settings-group">
                <h3>Additional Options</h3>
                <div class="setting-item">
                    <label for="readarr_monitored_only">Monitored Only:</label>
                    <label class="toggle-switch">
                        <input type="checkbox" id="readarr_monitored_only" "#,
   r#">
                        <span class="toggle-slider"></span>
                    </label>
                    <p class="setting-help">Only search for monitored items</p>
                </div>
                <div class="setting-item">
                    <label for="readarr_skip_future_releases">Skip Future Releases:</label>
                    <label class="toggle-switch">
                        <input type="checkbox" id="readarr_skip_future_releases" "#,
   r#">
                        <span class="toggle-slider"></span>
                    </label>
                    <p class="setting-help">Skip searching for books with future release dates</p>
                </div>
                <div class="setting-item">
                    <label for="skip_author_refresh">Skip Author Refresh:</label>
                    <label class="toggle-switch">
                        <input type="checkbox" id="skip_author_refresh" "#,
   r#">
                        <span class="toggle-slider"></span>
                    </label>
                    <p class="setting-help">Skip refreshing author metadata before searching</p>
                </div>
            </div>
            
            <div class="settings-group">
                <h3>Advanced Settings</h3>
                <div class="setting-item">
                    <label for="readarr_random_missing">Random Missing:</label>
                    <label class="toggle-switch">
                        <input type="checkbox" id="readarr_random_missing" "#,
   r#">
                        <span class="toggle-slider"></span>
                    </label>
                    <p class="setting-help">Select random missing items instead of sequential order</p>
                </div>
                <div class="setting-item">
                    <label for="readarr_random_upgrades">Random Upgrades:</label>
                    <label class="toggle-switch">
                        <input type="checkbox" id="readarr_random_upgrades" "#,
   r#">
                        <span class="toggle-slider"></span>
                    </label>
                    <p class="setting-help">Select random items for quality upgrades</p>
                </div>
                <div class="setting-item">
                    <label for="readarr_debug_mode">Debug Mode:</label>
                    <label class="toggle-switch">
                        <input type="checkbox" id="readarr_debug_mode" "#,
   r#">
                        <span class="toggle-slider"></span>
                    </label>
                    <p class="setting-help">Enable verbose logging for troubleshooting</p>
                </div>
            </div>
        "#]

/-- The literal texts of the template literal of `generateGlobalForm`. -/
def globalTexts : List String :=
  [r#"
            <div class="settings-group">
                <h3>General Settings</h3>
                <div class="setting-item">
                    <label for="debug_mode">Debug Mode:</label>
                    <label class="toggle-switch">
                        <input type="checkbox" id="debug_mode" "#,
   r#">
                        <span class="toggle-slider"></span>
                    </label>
                    <p class="setting-help">Enable detailed debug logging</p>
                </div>
                <div class="setting-item">
                    <label for="command_wait_delay">Command Wait Delay:</label>
                    <input type="number" id="command_wait_delay" min="1" step="1" value=""#,
   r#"">
                    <p class="setting-help">Delay in seconds between checking for command status</p>
                </div>
                <div class="setting-item">
                    <label for="command_wait_attempts">Command Wait Attempts:</label>
                    <input type="number" id="command_wait_attempts" min="1" value=""#,
   r#"">
                    <p class="setting-help">Maximum number of status check attempts</p>
                </div>
                <div class="setting-item">
                    <label for="minimum_download_queue_size">Min Download Queue Size:</label>
                    <input type="number" id="minimum_download_queue_size" min="-1" value=""#,
   r#"">
                    <p class="setting-help">Minimum download queue size to pause searching (-1 to disable)</p>
                </div>
            </div>
        "#]

end Frontend

namespace Static

/-- The literal texts of the template literal of `generateSonarrForm` in
`static/js/settings_forms.js`, between its interpolations; the interpolations are
the lines of `sonarrFields`, in the same order. -/
def sonarrTexts : List String :=
  [r#"
            <div class="settings-group">
                <h3>Sonarr Connection</h3>
                <div class="setting-item">
                    <label for="sonarr_api_url">URL:</label>
                    <input type="text" id="sonarr_api_url" value=""#,
   r#"">
                    <p class="setting-help">Base URL for Sonarr (e.g., http://localhost:8989)</p>
                </div>
                <div class="setting-item">
                    <label for="sonarr_api_key">API Key:</label>
                    <input type="text" id="sonarr_api_key" value=""#,
   r#"">
                    <p class="setting-help">API key for Sonarr</p>
                </div>
                <div class="setting-item">
                    <button id="testSonarrConnection" class="test-button">
                        <i class="fas fa-plug"></i> Test Connection
                    </button>
                    <span id="sonarrConnectionStatus" class="connection-badge not-connected">Not Configured</span>
                </div>
            </div>
            
            <div class="settings-group">
                <h3>Search Settings</h3>
                <div class="setting-item">
                    <label for="hunt_missing_shows">Missing Shows to Search:</label>
                    <input type="number" id="hunt_missing_shows" min="0" value=""#,
   r#"">
                    <p class="setting-help">Number of missing shows to search per cycle (0 to disable)</p>
                </div>
                <div class="setting-item">
                    <label for="hunt_upgrade_episodes">Episodes to Upgrade:</label>
                    <input type="number" id="hunt_upgrade_episodes" min="0" value=""#,
   r#"">
                    <p class="setting-help">Number of episodes to search for quality upgrades per cycle (0 to disable)</p>
                </div>
                <div class="setting-item">
                    <label for="sleep_duration">Search Interval:</label>
                    <input type="number" id="sleep_duration" min="60" value=""#,
   r#"">
                    <p class="setting-help">Time between searches in seconds (<span id="sleep_duration_hours"></span>)</p>
                </div>
                <div class="setting-item">
                    <label for="state_reset_interval_hours">Reset Interval:</label>
                    <input type="number" id="state_reset_interval_hours" min="1" value=""#,
   r#"">
                    <p class="setting-help">Hours between state resets (default: 168 = 7 days)</p>
                </div>
            </div>
            
            <div class="settings-group">
                <h3>Additional Options</h3>
                <div class="setting-item">
                    <label for="monitored_only">Monitored Only:</label>
                    <label class="toggle-switch">
                        <input type="checkbox" id="monitored_only" "#,
   r#">
                        <span class="toggle-slider"></span>
                    </label>
                    <p class="setting-help">Only search for monitored items</p>
                </div>
                <div class="setting-item">
                    <label for="skip_future_episodes">Skip Future Releases:</label>
                    <label class="toggle-switch">
                        <input type="checkbox" id="skip_future_episodes" "#,
   r#">
                        <span class="toggle-slider"></span>
                    </label>
                    <p class="setting-help">Skip searching for episodes with future air dates</p>
                </div>
                <div class="setting-item">
                    <label for="skip_series_refresh">Skip Series Refresh:</label>
                    <label class="toggle-switch">
                        <input type="checkbox" id="skip_series_refresh" "#,
   r#">
                        <span class="toggle-slider"></span>
                    </label>
                    <p class="setting-help">Skip refreshing series metadata before searching</p>
                </div>
            </div>
            
            <div class="settings-group">
                <h3>Advanced Settings</h3>
                <div class="setting-item">
                    <label for="random_missing">Random Missing:</label>
                    <label class="toggle-switch">
                        <input type="checkbox" id="random_missing" "#,
   r#">
                        <span class="toggle-slider"></span>
                    </label>
                    <p class="setting-help">Select random missing items instead of sequential order</p>
                </div>
                <div class="setting-item">
                    <label for="random_upgrades">Random Upgrades:</label>
                    <label class="toggle-switch">
                        <input type="checkbox" id="random_upgrades" "#,
   r#">
                        <span class="toggle-slider"></span>
                    </label>
                    <p class="setting-help">Select random items for quality upgrades</p>
                </div>
                <div class="setting-item">
                    <label for="debug_mode">Debug Mode:</label>
                    <label class="toggle-switch">
                        <input type="checkbox" id="debug_mode" "#,
   r#">
                        <span class="toggle-slider"></span>
                    </label>
                    <p class="setting-help">Enable verbose logging for troubleshooting</p>
                </div>
            </div>
        "#]

/-- The literal texts of the template literal of `generateRadarrForm`. -/
def radarrTexts : List String :=
  [r#"
            <div class="settings-group">
                <h3>Radarr Connection</h3>
                <div class="setting-item">
                    <label for="radarr_api_url">URL:</label>
                    <input type="text" id="radarr_api_url" value=""#,
   r#"">
                    <p class="setting-help">Base URL for Radarr (e.g., http://localhost:7878)</p>
                </div>
                <div class="setting-item">
                    <label for="radarr_api_key">API Key:</label>
                    <input type="text" id="radarr_api_key" value=""#,
   r#"">
                    <p class="setting-help">API key for Radarr</p>
                </div>
                <div class="setting-item">
                    <button id="testRadarrConnection" class="test-button">
                        <i class="fas fa-plug"></i> Test Connection
                    </button>
                    <span id="radarrConnectionStatus" class="connection-badge not-connected">Not Configured</span>
                </div>
            </div>
            
            <div class="settings-group">
                <h3>Search Settings</h3>
                <div class="setting-item">
                    <label for="hunt_missing_movies">Missing Movies to Search:</label>
                    <input type="number" id="hunt_missing_movies" min="0" value=""#,
   r#"">
                    <p class="setting-help">Number of missing movies to search per cycle (0 to disable)</p>
                </div>
                <div class="setting-item">
                    <label for="hunt_upgrade_movies">Movies to Upgrade:</label>
                    <input type="number" id="hunt_upgrade_movies" min="0" value=""#,
   r#"">
                    <p class="setting-help">Number of movies to search for quality upgrades per cycle (0 to disable)</p>
                </div>
                <div class="setting-item">
                    <label for="radarr_sleep_duration">Search Interval:</label>
                    <input type="number" id="radarr_sleep_duration" min="60" value=""#,
   r#"">
                    <p class="setting-help">Time between searches in seconds (<span id="radarr_sleep_duration_hours"></span>)</p>
                </div>
                <div class="setting-item">
                    <label for="radarr_state_reset_interval_hours">Reset Interval:</label>
                    <input type="number" id="radarr_state_reset_interval_hours" min="1" value=""#,
   r#"">
                    <p class="setting-help">Hours between state resets (default: 168 = 7 days)</p>
                </div>
            </div>
            
            <div class="settings-group">
                <h3>Additional Options</h3>
                <div class="setting-item">
                    <label for="radarr_monitored_only">Monitored Only:</label>
                    <label class="toggle-switch">
                        <input type="checkbox" id="radarr_monitored_only" "#,
   r#">
                        <span class="toggle-slider"></span>
                    </label>
                    <p class="setting-help">Only search for monitored items</p>
                </div>
                <div class="setting-item">
                    <label for="skip_future_releases">Skip Future Releases:</label>
                    <label class="toggle-switch">
                        <input type="checkbox" id="skip_future_releases" "#,
   r#">
                        <span class="toggle-slider"></span>
                    </label>
                    <p class="setting-help">Skip searching for movies with future release dates</p>
                </div>
                <div class="setting-item">
                    <label for="skip_movie_refresh">Skip Movie Refresh:</label>
                    <label class="toggle-switch">
                        <input type="checkbox" id="skip_movie_refresh" "#,
   r#">
                        <span class="toggle-slider"></span>
                    </label>
                    <p class="setting-help">Skip refreshing movie metadata before searching</p>
                </div>
            </div>
            
            <div class="settings-group">
                <h3>Advanced Settings</h3>
                <div class="setting-item">
                    <label for="radarr_random_missing">Random Missing:</label>
                    <label class="toggle-switch">
                        <input type="checkbox" id="radarr_random_missing" "#,
   r#">
                        <span class="toggle-slider"></span>
                    </label>
                    <p class="setting-help">Select random missing items instead of sequential order</p>
                </div>
                <div class="setting-item">
                    <label for="radarr_random_upgrades">Random Upgrades:</label>
                    <label class="toggle-switch">
                        <input type="checkbox" id="radarr_random_upgrades" "#,
   r#">
                        <span class="toggle-slider"></span>
                    </label>
                    <p class="setting-help">Select random items for quality upgrades</p>
                </div>
                <div class="setting-item">
                    <label for="radarr_debug_mode">Debug Mode:</label>
                    <label class="toggle-switch">
                        <input type="checkbox" id="radarr_debug_mode" "#,
   r#">
                        <span class="toggle-slider"></span>
                    </label>
                    <p class="setting-help">Enable verbose logging for troubleshooting</p>
                </div>
            </div>
        "#]

/-- The literal texts of the template literal of `generateLidarrForm`. -/
def lidarrTexts : List String :=
  [r#"
            <div class="settings-group">
                <h3>Lidarr Connection</h3>
                <div class="setting-item">
                    <label for="lidarr_api_url">URL:</label>
                    <input type="text" id="lidarr_api_url" value=""#,
   r#"">
                    <p class="setting-help">Base URL for Lidarr (e.g., http://localhost:8686)</p>
                </div>
                <div class="setting-item">
                    <label for="lidarr_api_key">API Key:</label>
                    <input type="text" id="lidarr_api_key" value=""#,
   r#"">
                    <p class="setting-help">API key for Lidarr</p>
                </div>
                <div class="setting-item">
                    <button id="testLidarrConnection" class="test-button">
                        <i class="fas fa-plug"></i> Test Connection
                    </button>
                    <span id="lidarrConnectionStatus" class="connection-badge not-connected">Not Configured</span>
                </div>
            </div>
            
            <div class="settings-group">
                <h3>Search Settings</h3>
                <div class="setting-item">
                    <label for="hunt_missing_albums">Missing Albums to Search:</label>
                    <input type="number" id="hunt_missing_albums" min="0" value=""#,
   r#"">
                    <p class="setting-help">Number of missing albums to search per cycle (0 to disable)</p>
                </div>
                <div class="setting-item">
                    <label for="hunt_upgrade_tracks">Tracks to Upgrade:</label>
                    <input type="number" id="hunt_upgrade_tracks" min="0" value=""#,
   r#"">
                    <p class="setting-help">Number of tracks to search for quality upgrades per cycle (0 to disable)</p>
                </div>
                <div class="setting-item">
                    <label for="lidarr_sleep_duration">Search Interval:</label>
                    <input type="number" id="lidarr_sleep_duration" min="60" value=""#,
   r#"">
                    <p class="setting-help">Time between searches in seconds (<span id="lidarr_sleep_duration_hours"></span>)</p>
                </div>
                <div class="setting-item">
                    <label for="lidarr_state_reset_interval_hours">Reset Interval:</label>
                    <input type="number" id="lidarr_state_reset_interval_hours" min="1" value=""#,
   r#"">
                    <p class="setting-help">Hours between state resets (default: 168 = 7 days)</p>
                </div>
            </div>
            
            <div class="settings-group">
                <h3>Additional Options</h3>
                <div class="setting-item">
                    <label for="lidarr_monitored_only">Monitored Only:</label>
                    <label class="toggle-switch">
                        <input type="checkbox" id="lidarr_monitored_only" "#,
   r#">
                        <span class="toggle-slider"></span>
                    </label>
                    <p class="setting-help">Only search for monitored items</p>
                </div>
                <div class="setting-item">
                    <label for="lidarr_skip_future_releases">Skip Future Releases:</label>
                    <label class="toggle-switch">
                        <input type="checkbox" id="lidarr_skip_future_releases" "#,
   r#">
                        <span class="toggle-slider"></span>
                    </label>
                    <p class="setting-help">Skip searching for albums with future release dates</p>
                </div>
                <div class="setting-item">
                    <label for="skip_artist_refresh">Skip Artist Refresh:</label>
                    <label class="toggle-switch">
                        <input type="checkbox" id="skip_artist_refresh" "#,
   r#">
                        <span class="toggle-slider"></span>
                    </label>
                    <p class="setting-help">Skip refreshing artist metadata before searching</p>
                </div>
            </div>
            
            <div class="settings-group">
                <h3>Advanced Settings</h3>
                <div class="setting-item">
                    <label for="lidarr_random_missing">Random Missing:</label>
                    <label class="toggle-switch">
                        <input type="checkbox" id="lidarr_random_missing" "#,
   r#">
                        <span class="toggle-slider"></span>
                    </label>
                    <p class="setting-help">Select random missing items instead of sequential order</p>
                </div>
                <div class="setting-item">
                    <label for="lidarr_random_upgrades">Random Upgrades:</label>
                    <label class="toggle-switch">
                        <input type="checkbox" id="lidarr_random_upgrades" "#,
   r#">
                        <span class="toggle-slider"></span>
                    </label>
                    <p class="setting-help">Select random items for quality upgrades</p>
                </div>
                <div class="setting-item">
                    <label for="lidarr_debug_mode">Debug Mode:</label>
                    <label class="toggle-switch">
                        <input type="checkbox" id="lidarr_debug_mode" "#,
   r#">
                        <span class="toggle-slider"></span>
                    </label>
                    <p class="setting-help">Enable verbose logging for troubleshooting</p>
                </div>
            </div>
        "#]

/-- The literal texts of the template literal of `generateGlobalForm`. -/
def globalTexts : List String :=
  [r#"
            <div class="settings-group">
                <h3>General Settings</h3>
                <div class="setting-item">
                    <label for="debug_mode">Debug Mode:</label>
                    <label class="toggle-switch">
                        <input type="checkbox" id="debug_mode" "#,
   r#">
                        <span class="toggle-slider"></span>
                    </label>
                    <p class="setting-help">Enable detailed debug logging</p>
                </div>
                <div class="setting-item">
                    <label for="command_wait_delay">Command Wait Delay:</label>
                    <input type="number" id="command_wait_delay" min="1" step="1" value=""#,
   r#"">
                    <p class="setting-help">Delay in seconds between checking for command status</p>
                </div>
                <div class="setting-item">
                    <label for="command_wait_attempts">Command Wait Attempts:</label>
                    <input type="number" id="command_wait_attempts" min="10" step="1" value=""#,
   r#"">
                    <p class="setting-help">Number of attempts to check for command completion</p>
                </div>
                <div class="setting-item">
                    <label for="minimum_download_queue_size">Minimum Queue Size:</label>
                    <input type="number" id="minimum_download_queue_size" min="-1" step="1" value=""#,
   r#"">
                    <p class="setting-help">Minimum download queue size before stopping searches</p>
                </div>
            </div>
        "#]

end Static

/-- The markup that a generator `generate...Form(container, settings = {})` assigns to
`container.innerHTML`, from the literal texts and the lines of its template: the default
`{}` replaces an argument that is omitted or `undefined`, and on `null` the call throws a
TypeError at its first property read and assigns nothing (`none`). -/
def generateMarkup (texts : List String) (fields : List Field) (settings : JsValue) :
    Option String :=
  match settings with
  | JsValue.undefined =>
    some (templateLiteral texts (fields.map (Field.interpolation (JsValue.object []))))
  | JsValue.null => none
  | settings => some (templateLiteral texts (fields.map (Field.interpolation settings)))

/-- The markup of `SettingsForms.generateSonarrForm` in
`frontend/static/js/settings_forms.js`. -/
def Frontend.generateSonarrMarkup (settings : JsValue) : Option String :=
  generateMarkup Frontend.sonarrTexts Frontend.sonarrFields settings

/-- The markup of `SettingsForms.generateSonarrForm` in `static/js/settings_forms.js`. -/
def Static.generateSonarrMarkup (settings : JsValue) : Option String :=
  generateMarkup Static.sonarrTexts Static.sonarrFields settings

/-- The nine templates of the two files: the literal texts and the lines of each, with
the elements that the lines write. -/
def allTemplates : List (List String × List Field × (JsValue → List Input)) :=
  [(Frontend.sonarrTexts, Frontend.sonarrFields, Frontend.generateSonarrForm),
   (Frontend.radarrTexts, Frontend.radarrFields, Frontend.generateRadarrForm),
   (Frontend.lidarrTexts, Frontend.lidarrFields, Frontend.generateLidarrForm),
   (Frontend.readarrTexts, Frontend.readarrFields, Frontend.generateReadarrForm),
   (Frontend.globalTexts, Frontend.globalFields, Frontend.generateGlobalForm),
   (Static.sonarrTexts, Static.sonarrFields, Static.generateSonarrForm),
   (Static.radarrTexts, Static.radarrFields, Static.generateRadarrForm),
   (Static.lidarrTexts, Static.lidarrFields, Static.generateLidarrForm),
   (Static.globalTexts, Static.globalFields, Static.generateGlobalForm)]

/-- The text of two tags after a double quote and `>`, ending inside a `value`
attribute. -/
def quotedUrl : String :=
  r#""><input type="checkbox" id="monitored_only" checked><input type="hidden" value=""#

/-- A double quote and `>`, and the opening of a comment. -/
def commentOpening : String :=
  r#""><!--"#

/-- Settings for the frontend file that store `true` for `monitored_only` of Sonarr and,
for `hunt_missing_shows`, a text that holds a double quote and opens a comment. -/
def commentSettings : List (String × JsValue) :=
  [("sonarr", JsValue.object
      [("hunt_missing_shows", JsValue.string commentOpening),
       ("monitored_only", JsValue.bool true)])]

/-- Settings for the static file that store `true` for `monitored_only` and, as URL, a
text that holds a double quote and opens a comment. -/
def commentStaticSettings : List (String × JsValue) :=
  [("api_url", JsValue.string commentOpening),
   ("huntarr", JsValue.object [("monitored_only", JsValue.bool true)])]

/-- Settings for the frontend file that store `false` for `monitored_only` of Sonarr and
a URL without a double quote. -/
def plainUrlSettings : List (String × JsValue) :=
  [("api_url", JsValue.string "http://localhost:8989"),
   ("sonarr", JsValue.object [("monitored_only", JsValue.bool false)])]

/-- Settings for the frontend file that store `false` for `monitored_only` of Sonarr
and, as URL, a text that holds double quotes and the text of two tags. -/
def quotedUrlSettings : List (String × JsValue) :=
  [("api_url", JsValue.string quotedUrl),
   ("sonarr", JsValue.object [("monitored_only", JsValue.bool false)])]

/-- Settings for the static file that store `false` for `monitored_only` and, as URL,
the same text. -/
def quotedUrlStaticSettings : List (String × JsValue) :=
  [("api_url", JsValue.string quotedUrl),
   ("huntarr", JsValue.object [("monitored_only", JsValue.bool false)])]

/-! ## The log stream of `main.js`

A log line is a string; the level markers are ASCII, so searching for them among the
characters of the line is searching among its UTF-16 code units. -/

/-- Whether the characters `sub` occur in `cs` as a contiguous run. -/
def includesChars : List Char → List Char → Bool
  | [], sub => sub.isEmpty
  | c :: cs, sub => sub.isPrefixOf (c :: cs) || includesChars cs sub

/-- The method `String.prototype.includes(searchString)`. -/
def includes (s searchString : String) : Bool :=
  includesChars s.toList searchString.toList

/-- The `div` element that the `onmessage` handler appends to the log: its class list
and its text. -/
structure LogEntry where
  classList : List String
  textContent : String
deriving DecidableEq, Repr

/-- The handler `eventSource.onmessage` for an event whose `data` is the given line:
the entry appended to the log. -/
def onmessage (data : String) : LogEntry :=
  let classList := ["log-entry"]
  let classList :=
    if includes data " - INFO - " then classList ++ ["log-info"]
    else if includes data " - WARNING - " then classList ++ ["log-warning"]
    else if includes data " - ERROR - " then classList ++ ["log-error"]
    else if includes data " - DEBUG - " then classList ++ ["log-debug"]
    else classList
  ⟨classList, data⟩

/-! ## `parseNumericSetting` -/

/-- A value handed to `parseNumericSetting`: `undefined`, `null`, a Number (`none` is
`NaN`), one of the Numbers `Infinity` and `-Infinity`, a string or a boolean. -/
inductive SettingValue where
  | undefined
  | null
  | number (x : Option ℚ)
  | infinity (negative : Bool)
  | string (s : String)
  | bool (b : Bool)
deriving DecidableEq

/-- The abstract operation `ToString` on a value. -/
def SettingValue.toStr : SettingValue → String
  | SettingValue.undefined => "undefined"
  | SettingValue.null => "null"
  | SettingValue.number none => "NaN"
  | SettingValue.number (some x) => numberToString x
  | SettingValue.infinity negative => if negative then "-Infinity" else "Infinity"
  | SettingValue.string s => s
  | SettingValue.bool b => if b then "true" else "false"

/-- The value of a parameter declared with a default: the default replaces an argument
that is omitted or `undefined`. -/
def defaultParameter (arg dflt : SettingValue) : SettingValue :=
  if arg = SettingValue.undefined then dflt else arg

/-- The function `parseNumericSetting(value, defaultValue = 0)`.  The integer that
`parseInt` reads is rounded to a Number; a result of size 2^1024 or more in the unbounded
rounding `fl` is out of the binary64 range and stands for an infinity. -/
def parseNumericSetting (value defaultValue : SettingValue) : SettingValue :=
  let defaultValue := defaultParameter defaultValue (SettingValue.number (some 0))
  match value with
  | SettingValue.undefined => defaultValue
  | SettingValue.null => defaultValue
  | SettingValue.number x => SettingValue.number x
  | SettingValue.infinity negative => SettingValue.infinity negative
  | value =>
    match parseIntChars 10 value.toStr.toList with
    | none => defaultValue
    | some parsed =>
      if (2 : ℚ) ^ 1024 ≤ |parsed| then SettingValue.infinity (decide (parsed < 0))
      else SettingValue.number (some parsed)

/-! ## The settings form of `main.js` -/

/-- The settings form of `main.js`: the `value` of its four number inputs and the
`checked` state of its four checkboxes. -/
structure SettingsForm where
  huntMissingShowsInput : String
  huntUpgradeEpisodesInput : String
  sleepDurationInput : String
  stateResetIntervalInput : String
  monitoredOnlyInput : Bool
  randomSelectionInput : Bool
  skipFutureEpisodesInput : Bool
  skipSeriesRefreshInput : Bool
deriving DecidableEq, Repr

/-- The test `v !== undefined`. -/
def JsValue.isDefined : JsValue → Bool
  | JsValue.undefined => false
  | _ => true

/-- The string that the assignment `input.value = v` stores: the text of `v`, and the
empty string for `null`.  (An input of type `number` keeps only a text that is a number;
the text of a finite Number is one.) -/
def inputValue (v : JsValue) : String :=
  match v with
  | JsValue.null => ""
  | v => v.toStr

/-- The function `loadSettings` of `main.js` once the settings `data` have arrived: the
state it gives the form. -/
def loadSettings (data : JsValue) : SettingsForm :=
  let huntarr := (data.get "huntarr").orElse (JsValue.object [])
  { huntMissingShowsInput :=
      inputValue (if (huntarr.get "hunt_missing_shows").isDefined
        then huntarr.get "hunt_missing_shows" else JsValue.number 1)
    huntUpgradeEpisodesInput :=
      inputValue (if (huntarr.get "hunt_upgrade_episodes").isDefined
        then huntarr.get "hunt_upgrade_episodes" else JsValue.number 5)
    sleepDurationInput := inputValue ((huntarr.get "sleep_duration").orElse (JsValue.number 900))
    stateResetIntervalInput :=
      inputValue ((huntarr.get "state_reset_interval_hours").orElse (JsValue.number 168))
    monitoredOnlyInput := !(huntarr.get "monitored_only").isFalse
    randomSelectionInput := !(huntarr.get "random_selection").isFalse
    skipFutureEpisodesInput := !(huntarr.get "skip_future_episodes").isFalse
    skipSeriesRefreshInput := (huntarr.get "skip_series_refresh").isTrue }

/-- The object `settings.huntarr` that `saveSettings` sends as the request body. -/
structure HuntarrSettings where
  hunt_missing_shows : ℚ
  hunt_upgrade_episodes : ℚ
  sleep_duration : ℚ
  state_reset_interval_hours : ℚ
  monitored_only : Bool
  random_selection : Bool
  skip_future_episodes : Bool
  skip_series_refresh : Bool
deriving DecidableEq

/-- The function `saveSettings` of `main.js`: the `huntarr` object of the request body
built from the state of the form. -/
def saveSettings (form : SettingsForm) : HuntarrSettings :=
  { hunt_missing_shows := numberOr (parseInt form.huntMissingShowsInput) 0
    hunt_upgrade_episodes := numberOr (parseInt form.huntUpgradeEpisodesInput) 0
    sleep_duration := numberOr (parseInt form.sleepDurationInput) 900
    state_reset_interval_hours := numberOr (parseInt form.stateResetIntervalInput) 168
    monitored_only := form.monitoredOnlyInput
    random_selection := form.randomSelectionInput
    skip_future_episodes := form.skipFutureEpisodesInput
    skip_series_refresh := form.skipSeriesRefreshInput }

/-! ## Log levels, parsed integers and two-decimal rounding, as the claims state them -/

/-- The level markers with the class each gives, in the order they are tested. -/
def levelMarkers : List (String × String) :=
  [(" - INFO - ", "log-info"), (" - WARNING - ", "log-warning"),
   (" - ERROR - ", "log-error"), (" - DEBUG - ", "log-debug")]

/-- The text `cs` holds the base-10 integer `z`: after white space and at most one sign
comes a non-empty run of decimal digits that denotes `|z|`, and the character after the
run, if there is one, is not a decimal digit. -/
def HoldsInteger (cs : List Char) (z : ℤ) : Prop :=
  ∃ ws sign ds rest : List Char, cs = ws ++ sign ++ ds ++ rest ∧
    (∀ c ∈ ws, isStrWhiteSpace c = true) ∧
    (sign = [] ∨ sign = ['+'] ∨ sign = ['-']) ∧
    ds ≠ [] ∧ (∀ c ∈ ds, '0' ≤ c ∧ c ≤ '9') ∧
    (∀ c ∈ rest.head?, ¬ ('0' ≤ c ∧ c ≤ '9')) ∧
    z = if sign = ['-'] then -(digitsValue 10 ds : ℤ) else (digitsValue 10 ds : ℤ)

/-- No base-10 integer can be parsed from the text `cs`: after white space and at most
one sign the text ends or goes on with a character that is not a decimal digit. -/
def HoldsNoInteger (cs : List Char) : Prop :=
  ∃ ws sign rest : List Char, cs = ws ++ sign ++ rest ∧
    (∀ c ∈ ws, isStrWhiteSpace c = true) ∧
    (∀ c ∈ rest.head?, ¬ ('0' ≤ c ∧ c ≤ '9')) ∧
    ((sign = [] ∧ ∀ c ∈ rest.head?, isStrWhiteSpace c = false ∧ c ≠ '+' ∧ c ≠ '-') ∨
      sign = ['+'] ∨ sign = ['-'])

/-- The quotient `n / d` rounded to two decimal places, a half going up; the result
counts hundredths. -/
def roundHundredthsHalfUp (n d : ℕ) : ℕ := (200 * n + d) / (2 * d)

/-- The text `s` shows the quotient `n / d` with two decimal places and the unit `u`:
it is the `toFixed(2)` numeral of a count `k` of hundredths followed by `u`, where
`k / 100` is a two-decimal value nearest to the quotient, and the half-up rounding of the
quotient whenever the quotient is not exactly halfway between two two-decimal values. -/
def ShowsHundredths (s : String) (n d : ℕ) (u : String) : Prop :=
  ∃ k : ℕ, s = fixedDigits 2 k ++ u ∧ |(k : ℚ) / 100 - (n : ℚ) / d| ≤ 1 / 200 ∧
    ((200 * n + d) % (2 * d) ≠ 0 → k = roundHundredthsHalfUp n d)

/-- The quotient `n / d` rounded to two decimal places with a half going to the even
digit; the result counts hundredths. -/
def roundHundredthsHalfEven (n d : ℕ) : ℕ :=
  let k := (100 * n) / d
  let r := (100 * n) % d
  if 2 * r < d then k else if d < 2 * r then k + 1 else if k % 2 = 0 then k else k + 1

/-- A stored `huntarr` object that disables both hunts, sleeps 600 seconds and resets
the state every 24 hours. -/
def sampleHuntarr : JsValue :=
  JsValue.object
    [("hunt_missing_shows", JsValue.number 0),
     ("hunt_upgrade_episodes", JsValue.number 0),
     ("sleep_duration", JsValue.number 600),
     ("state_reset_interval_hours", JsValue.number 24),
     ("monitored_only", JsValue.bool false),
     ("random_selection", JsValue.bool true),
     ("skip_future_episodes", JsValue.bool false),
     ("skip_series_refresh", JsValue.bool true)]

/-! # Theorems -/

/-! ## The binary64 rounding -/

theorem log2Nat_spec (fuel : ℕ) : ∀ n : ℕ, 0 < n → n ≤ fuel →
    2 ^ log2Nat fuel n ≤ n ∧ n < 2 ^ (log2Nat fuel n + 1) := by
  induction fuel with
  | zero => intro n h0 h1; omega
  | succ fuel ih =>
    intro n h0 h1
    unfold log2Nat
    split_ifs with h
    · constructor
      · simpa using h0
      · simpa using h
    · have h2 : 0 < n / 2 := Nat.div_pos (by omega) (by norm_num)
      have h3 : n / 2 ≤ fuel := by omega
      obtain ⟨ih1, ih2⟩ := ih (n / 2) h2 h3
      constructor
      · rw [pow_succ]; omega
      · rw [pow_succ]; omega

theorem rat_mul_den_eq_natAbs {q : ℚ} (hq : 0 < q) :
    q * (q.den : ℚ) = (q.num.natAbs : ℚ) := by
  have hnum : 0 < q.num := Rat.num_pos.mpr hq
  have h2 : (q.num.natAbs : ℚ) = (q.num : ℚ) := by
    rw [Nat.cast_natAbs, abs_of_pos hnum]
  rw [h2]
  exact Rat.mul_den_eq_num q

theorem natAbs_num_pos {q : ℚ} (hq : 0 < q) : 0 < q.num.natAbs := by
  have hnum : 0 < q.num := Rat.num_pos.mpr hq
  omega

theorem two_zpow_log2Floor_le {q : ℚ} (hq : 0 < q) : (2 : ℚ) ^ log2Floor q ≤ q := by
  unfold log2Floor
  simp only
  split_ifs with h
  · exact h
  · have h1 := (log2Nat_spec _ _ (natAbs_num_pos hq) le_rfl).1
    have h2 := (log2Nat_spec _ _ q.den_pos le_rfl).2
    have h1q : (2 : ℚ) ^ log2Nat q.num.natAbs q.num.natAbs ≤ (q.num.natAbs : ℚ) := by
      exact_mod_cast h1
    have h2q : (q.den : ℚ) < 2 ^ (log2Nat q.den q.den + 1) := by exact_mod_cast h2
    have hq3 := rat_mul_den_eq_natAbs hq
    rw [zpow_sub₀ (by norm_num), zpow_sub₀ (by norm_num), zpow_natCast, zpow_natCast, zpow_one]
    rw [div_div]
    have hpos : (0 : ℚ) < 2 ^ log2Nat q.den q.den * 2 := by positivity
    rw [div_le_iff₀ hpos]
    calc (2 : ℚ) ^ log2Nat q.num.natAbs q.num.natAbs ≤ q.num.natAbs := h1q
      _ = q * q.den := hq3.symm
      _ ≤ q * (2 ^ log2Nat q.den q.den * 2) := by
        apply mul_le_mul_of_nonneg_left _ hq.le
        rw [pow_succ] at h2q
        exact h2q.le

theorem lt_two_zpow_log2Floor {q : ℚ} (hq : 0 < q) : q < (2 : ℚ) ^ (log2Floor q + 1) := by
  unfold log2Floor
  simp only
  have h1 := (log2Nat_spec _ _ (natAbs_num_pos hq) le_rfl).2
  have h2 := (log2Nat_spec _ _ q.den_pos le_rfl).1
  have h1q : (q.num.natAbs : ℚ) < 2 ^ (log2Nat q.num.natAbs q.num.natAbs + 1) := by
    exact_mod_cast h1
  have h2q : (2 : ℚ) ^ log2Nat q.den q.den ≤ (q.den : ℚ) := by exact_mod_cast h2
  have hq3 := rat_mul_den_eq_natAbs hq
  split_ifs with h
  · rw [show ((log2Nat q.num.natAbs q.num.natAbs : ℤ) - (log2Nat q.den q.den : ℤ) + 1) =
      ((log2Nat q.num.natAbs q.num.natAbs + 1 : ℕ) : ℤ) - (log2Nat q.den q.den : ℤ) by
        push_cast; ring]
    rw [zpow_sub₀ (by norm_num), zpow_natCast, zpow_natCast]
    have hpos : (0 : ℚ) < 2 ^ log2Nat q.den q.den := by positivity
    rw [lt_div_iff₀ hpos]
    calc q * 2 ^ log2Nat q.den q.den ≤ q * q.den := by
          apply mul_le_mul_of_nonneg_left h2q hq.le
      _ = q.num.natAbs := hq3
      _ < _ := h1q
  · rw [sub_add_cancel]
    exact lt_of_not_ge h

theorem floor_le_roundHalfEven (y : ℚ) : ⌊y⌋ ≤ roundHalfEven y := by
  unfold roundHalfEven
  split_ifs <;> omega

theorem roundHalfEven_le_floor_add_one (y : ℚ) : roundHalfEven y ≤ ⌊y⌋ + 1 := by
  unfold roundHalfEven
  split_ifs <;> omega

theorem roundHalfEven_le (y : ℚ) : (roundHalfEven y : ℚ) ≤ y + 1 / 2 := by
  have h0 := Int.self_sub_floor y
  have h1 := Int.fract_nonneg y
  unfold roundHalfEven
  split_ifs with ha hb hc
  · linarith
  · push_cast; linarith
  · linarith
  · push_cast; linarith

theorem le_roundHalfEven (y : ℚ) : y - 1 / 2 ≤ (roundHalfEven y : ℚ) := by
  have h0 := Int.self_sub_floor y
  have h1 := Int.fract_lt_one y
  unfold roundHalfEven
  split_ifs with ha hb hc
  · linarith
  · push_cast; linarith
  · linarith
  · push_cast; linarith

theorem roundHalfEven_intCast (k : ℤ) : roundHalfEven (k : ℚ) = k := by
  unfold roundHalfEven
  simp

theorem ulp_pos (q : ℚ) : 0 < ulp q := by
  unfold ulp
  positivity

theorem ulp_le {q : ℚ} (hq : q ≠ 0) : ulp q * 2 ^ 52 ≤ |q| := by
  have h := two_zpow_log2Floor_le (abs_pos.mpr hq)
  unfold ulp
  rw [zpow_sub₀ (by norm_num)]
  have : ((2 : ℚ) ^ (52 : ℤ)) = 2 ^ 52 := by norm_num
  rw [this, div_mul_cancel₀ _ (by norm_num)]
  exact h

theorem lt_ulp {q : ℚ} (hq : q ≠ 0) : |q| < ulp q * 2 ^ 53 := by
  have h := lt_two_zpow_log2Floor (abs_pos.mpr hq)
  unfold ulp
  rw [zpow_sub₀ (by norm_num)]
  have h52 : ((2 : ℚ) ^ (52 : ℤ)) = 2 ^ 52 := by norm_num
  rw [h52]
  rw [zpow_add₀ (by norm_num), zpow_one] at h
  calc |q| < 2 ^ log2Floor |q| * 2 := h
    _ = 2 ^ log2Floor |q| / 2 ^ 52 * 2 ^ 53 := by
      field_simp
      ring

theorem fl_zero : fl 0 = 0 := by
  unfold fl
  simp

/-- Rounding moves an exact result by at most half a unit in the last place. -/
theorem abs_fl_sub_le (q : ℚ) : |fl q - q| ≤ ulp q / 2 := by
  unfold fl
  split_ifs with h
  · subst h
    simp only [sub_zero, abs_zero]
    have := ulp_pos 0
    linarith
  · have hu := ulp_pos q
    have h1 := roundHalfEven_le (q / ulp q)
    have h2 := le_roundHalfEven (q / ulp q)
    have h3 : q / ulp q * ulp q = q := div_mul_cancel₀ _ hu.ne.symm
    rw [abs_le]
    constructor
    · have := mul_le_mul_of_nonneg_right h2 hu.le
      rw [sub_mul, h3] at this
      linarith
    · have := mul_le_mul_of_nonneg_right h1 hu.le
      rw [add_mul, h3] at this
      linarith

/-- Rounding moves an exact result by at most the fraction 2^-53 of its size. -/
theorem abs_fl_sub_le_rel (q : ℚ) : |fl q - q| * 2 ^ 53 ≤ |q| := by
  by_cases h : q = 0
  · subst h
    simp [fl_zero]
  · have h1 := abs_fl_sub_le q
    have h2 := ulp_le h
    calc |fl q - q| * 2 ^ 53 ≤ ulp q / 2 * 2 ^ 53 := by
          apply mul_le_mul_of_nonneg_right h1 (by positivity)
      _ = ulp q * 2 ^ 52 := by ring
      _ ≤ |q| := h2

/-- A nonzero rational that is an integer multiple of its own unit in the last place is
a binary64 value: rounding leaves it alone. -/
theorem fl_eq_self_of_mul {q : ℚ} (k : ℤ) (h : q = k * ulp q) : fl q = q := by
  unfold fl
  split_ifs with h0
  · exact h0.symm
  · have hu := ulp_pos q
    have : q / ulp q = k := by
      rw [div_eq_iff hu.ne.symm]
      exact h
    rw [this, roundHalfEven_intCast]
    exact h.symm

theorem fl_nonneg {q : ℚ} (hq : 0 ≤ q) : 0 ≤ fl q := by
  unfold fl
  split_ifs with h0
  · exact le_rfl
  · have hu := ulp_pos q
    have h1 : (0 : ℚ) ≤ q / ulp q := div_nonneg hq hu.le
    have h2 : (0 : ℤ) ≤ ⌊q / ulp q⌋ := Int.floor_nonneg.mpr h1
    have h3 := floor_le_roundHalfEven (q / ulp q)
    have h4 : (0 : ℚ) ≤ (roundHalfEven (q / ulp q) : ℚ) := by exact_mod_cast h2.trans h3
    positivity

theorem fl_nonpos {q : ℚ} (hq : q ≤ 0) : fl q ≤ 0 := by
  unfold fl
  split_ifs with h0
  · exact le_rfl
  · have hu := ulp_pos q
    have hq0 : q < 0 := lt_of_le_of_ne hq h0
    have h1 : q / ulp q < 0 := div_neg_of_neg_of_pos hq0 hu
    have h2 : ⌊q / ulp q⌋ < 0 := by
      rw [Int.floor_lt]
      exact_mod_cast h1
    have h3 := roundHalfEven_le_floor_add_one (q / ulp q)
    have h4 : (roundHalfEven (q / ulp q) : ℚ) ≤ 0 := by
      have : roundHalfEven (q / ulp q) ≤ 0 := by omega
      exact_mod_cast this
    exact mul_nonpos_of_nonpos_of_nonneg h4 hu.le

/-- Below 2 the unit in the last place is one over a power of two. -/
theorem ulp_mul_two_pow {q : ℚ} (h : ulp q < 2) : ∃ p : ℕ, ulp q * 2 ^ p = 1 := by
  unfold ulp at h ⊢
  have h1 : log2Floor |q| - 52 < 1 := by
    have := (zpow_right_strictMono₀ (by norm_num : (1 : ℚ) < 2)).lt_iff_lt
      (a := log2Floor |q| - 52) (b := 1)
    simp only [zpow_one] at this
    exact this.mp h
  refine ⟨(52 - log2Floor |q|).toNat, ?_⟩
  rw [← zpow_natCast, ← zpow_add₀ (by norm_num)]
  have : log2Floor |q| - 52 + ((52 - log2Floor |q|).toNat : ℤ) = 0 := by omega
  rw [this, zpow_zero]

/-- Rationals of size below 2^53 have a unit in the last place below 2. -/
theorem ulp_lt_two {q : ℚ} (h0 : q ≠ 0) (h : |q| < 2 ^ 53) : ulp q < 2 := by
  have h1 := ulp_le h0
  have : ulp q * 2 ^ 52 < 2 ^ 53 := lt_of_le_of_lt h1 h
  linarith

/-- Integers of size below 2^53 are binary64 values. -/
theorem fl_intCast (z : ℤ) (h : |z| < 2 ^ 53) : fl (z : ℚ) = z := by
  by_cases h0 : z = 0
  · subst h0
    simp [fl_zero]
  · have hq0 : (z : ℚ) ≠ 0 := by exact_mod_cast h0
    have hq : |(z : ℚ)| < 2 ^ 53 := by exact_mod_cast h
    obtain ⟨p, hp⟩ := ulp_mul_two_pow (ulp_lt_two hq0 hq)
    apply fl_eq_self_of_mul (z * 2 ^ p)
    push_cast
    rw [mul_assoc, mul_comm _ (ulp (z : ℚ)), hp, mul_one]

theorem fl_natCast (n : ℕ) (h : n < 2 ^ 53) : fl (n : ℚ) = n := by
  have := fl_intCast (n : ℤ) (by
    rw [abs_of_nonneg (by positivity)]
    exact_mod_cast h)
  exact_mod_cast this

/-- The rounding error of a quotient of naturals, the dividend below 2^53, is below
one part in the divisor. -/
theorem abs_fl_div_sub_lt (a d : ℕ) (hd : 0 < d) (ha : a < 2 ^ 53) :
    |fl ((a : ℚ) / d) - (a : ℚ) / d| < 1 / d := by
  have hdq : (0 : ℚ) < d := by exact_mod_cast hd
  have haq : (a : ℚ) < 2 ^ 53 := by exact_mod_cast ha
  have h1 := abs_fl_sub_le_rel ((a : ℚ) / d)
  rw [abs_of_nonneg (by positivity : (0 : ℚ) ≤ (a : ℚ) / d)] at h1
  have h2 : (a : ℚ) / d < 2 ^ 53 / d := by
    apply div_lt_div_of_pos_right haq hdq
  have h3 : |fl ((a : ℚ) / d) - (a : ℚ) / d| * 2 ^ 53 < 1 / d * 2 ^ 53 := by
    calc _ ≤ (a : ℚ) / d := h1
      _ < 2 ^ 53 / d := h2
      _ = 1 / d * 2 ^ 53 := by ring
  exact lt_of_mul_lt_mul_right h3 (by positivity)

/-- The `Math.floor` of a JavaScript quotient of naturals, the dividend below 2^53, is the
integer quotient: rounding the quotient never reaches the next integer. -/
theorem floor_fl_div (a d : ℕ) (hd : 0 < d) (ha : a < 2 ^ 53) :
    ⌊fl ((a : ℚ) / d)⌋ = ((a / d : ℕ) : ℤ) := by
  have hdq : (0 : ℚ) < d := by exact_mod_cast hd
  have hF1 : (a / d) * d ≤ a := Nat.div_mul_le_self a d
  have hF2 : a < (a / d + 1) * d := by
    have := Nat.lt_succ_iff.mpr (le_refl (a / d))
    exact (Nat.div_lt_iff_lt_mul hd).mp this
  have hF1q : ((a / d : ℕ) : ℚ) ≤ (a : ℚ) / d := by
    rw [le_div_iff₀ hdq]
    exact_mod_cast hF1
  have hF2q : (a : ℚ) / d + 1 / d ≤ ((a / d : ℕ) : ℚ) + 1 := by
    rw [← add_div, div_le_iff₀ hdq]
    have : a + 1 ≤ (a / d + 1) * d := hF2
    exact_mod_cast this
  have herr := abs_fl_div_sub_lt a d hd ha
  rw [abs_lt] at herr
  rw [Int.floor_eq_iff]
  constructor
  · -- lower bound: the integer quotient is itself a multiple of the unit
    by_cases h0 : (a : ℚ) / d = 0
    · rw [h0, fl_zero]
      rw [h0] at hF1q
      exact_mod_cast hF1q
    · have hqpos : (0 : ℚ) < (a : ℚ) / d := lt_of_le_of_ne (by positivity) (Ne.symm h0)
      have hlt : |(a : ℚ) / d| < 2 ^ 53 := by
        rw [abs_of_pos hqpos]
        have : (a : ℚ) / d ≤ a := div_le_self (by positivity) (by exact_mod_cast hd)
        have haq : (a : ℚ) < 2 ^ 53 := by exact_mod_cast ha
        linarith
      obtain ⟨p, hp⟩ := ulp_mul_two_pow (ulp_lt_two h0 hlt)
      have hu := ulp_pos ((a : ℚ) / d)
      unfold fl
      rw [if_neg h0]
      have hy : (((a / d : ℕ) * 2 ^ p : ℤ) : ℚ) ≤ (a : ℚ) / d / ulp ((a : ℚ) / d) := by
        rw [le_div_iff₀ hu]
        push_cast
        rw [mul_assoc, mul_comm _ (ulp _), hp, mul_one]
        exact hF1q
      have h1 : ((a / d : ℕ) * 2 ^ p : ℤ) ≤ ⌊(a : ℚ) / d / ulp ((a : ℚ) / d)⌋ :=
        Int.le_floor.mpr hy
      have h2 := floor_le_roundHalfEven ((a : ℚ) / d / ulp ((a : ℚ) / d))
      have h3 : (((a / d : ℕ) * 2 ^ p : ℤ) : ℚ) ≤
          (roundHalfEven ((a : ℚ) / d / ulp ((a : ℚ) / d)) : ℚ) := by
        exact_mod_cast h1.trans h2
      have h4 := mul_le_mul_of_nonneg_right h3 hu.le
      push_cast at h4
      rw [mul_assoc, mul_comm _ (ulp _), hp, mul_one] at h4
      push_cast
      exact h4
  · rw [Int.cast_natCast]
    linarith [herr.2]

/-- Rounding half up lands on a nearest integer of `S` when the rounded value `y` is
closer to `S` than the grid `1/B` on which `S + 1/2` lies. -/
theorem abs_floor_add_half_sub_le (y S : ℚ) (A : ℤ) (B : ℕ) (hB : 0 < B)
    (hS : S + 1 / 2 = (A : ℚ) / B) (h : |y - S| < 1 / B) :
    |((⌊y + 1 / 2⌋ : ℤ) : ℚ) - S| ≤ 1 / 2 := by
  have hBq : (0 : ℚ) < B := by exact_mod_cast hB
  rw [abs_lt] at h
  have hk1 : ((⌊y + 1 / 2⌋ : ℤ) : ℚ) ≤ y + 1 / 2 := Int.floor_le _
  have hk2 : y + 1 / 2 < ((⌊y + 1 / 2⌋ : ℤ) : ℚ) + 1 := Int.lt_floor_add_one _
  have hA : (A : ℚ) = (S + 1 / 2) * B := by
    rw [hS, div_mul_cancel₀ _ hBq.ne.symm]
  have hone : (1 : ℚ) / B * B = 1 := div_mul_cancel₀ _ hBq.ne.symm
  rw [abs_le]
  constructor
  · -- (k + 1) * B > A - 1, so (k + 1) * B ≥ A
    have h1 : (A : ℚ) - 1 < (((⌊y + 1 / 2⌋ : ℤ) : ℚ) + 1) * B := by
      have : S + 1 / 2 - 1 / B < ((⌊y + 1 / 2⌋ : ℤ) : ℚ) + 1 := by linarith [h.1]
      have := mul_lt_mul_of_pos_right this hBq
      rw [sub_mul, hone, ← hA] at this
      exact this
    have h2 : A - 1 < (⌊y + 1 / 2⌋ + 1) * (B : ℤ) := by exact_mod_cast h1
    have h3 : A ≤ (⌊y + 1 / 2⌋ + 1) * (B : ℤ) := by omega
    have h4 : (A : ℚ) ≤ (((⌊y + 1 / 2⌋ : ℤ) : ℚ) + 1) * B := by exact_mod_cast h3
    rw [hA] at h4
    have := le_of_mul_le_mul_right h4 hBq
    linarith
  · have h1 : ((⌊y + 1 / 2⌋ : ℤ) : ℚ) * B < (A : ℚ) + 1 := by
      have : ((⌊y + 1 / 2⌋ : ℤ) : ℚ) < S + 1 / 2 + 1 / B := by linarith [h.2]
      have := mul_lt_mul_of_pos_right this hBq
      rw [add_mul, hone, ← hA] at this
      exact this
    have h2 : ⌊y + 1 / 2⌋ * (B : ℤ) < A + 1 := by exact_mod_cast h1
    have h3 : ⌊y + 1 / 2⌋ * (B : ℤ) ≤ A := by omega
    have h4 : ((⌊y + 1 / 2⌋ : ℤ) : ℚ) * B ≤ (A : ℚ) := by exact_mod_cast h3
    rw [hA] at h4
    have := le_of_mul_le_mul_right h4 hBq
    linarith

/-! ## The rounding is the binary64 rounding -/

theorem roundHalfEven_nearest (y : ℚ) (k : ℤ) :
    |(roundHalfEven y : ℚ) - y| ≤ |(k : ℚ) - y| := by
  have h0 := Int.self_sub_floor y
  have h1 := Int.fract_nonneg y
  have h2 := Int.fract_lt_one y
  have hk : Int.fract y ≤ |(k : ℚ) - y| ∨ 1 - Int.fract y ≤ |(k : ℚ) - y| := by
    rcases le_or_lt k ⌊y⌋ with h | h
    · left
      have : (k : ℚ) ≤ (⌊y⌋ : ℚ) := by exact_mod_cast h
      have := neg_abs_le ((k : ℚ) - y)
      linarith
    · right
      have : ((⌊y⌋ : ℚ)) + 1 ≤ (k : ℚ) := by exact_mod_cast h
      have := le_abs_self ((k : ℚ) - y)
      linarith
  unfold roundHalfEven
  split_ifs with ha hb hc
  · rw [abs_le]
    rcases hk with hk | hk <;> constructor <;> linarith
  · rw [abs_le]
    push_cast
    rcases hk with hk | hk <;> constructor <;> linarith
  · have : Int.fract y = 1 / 2 := le_antisymm (not_lt.mp hb) (not_lt.mp ha)
    rw [abs_le]
    rcases hk with hk | hk <;> constructor <;> linarith
  · have : Int.fract y = 1 / 2 := le_antisymm (not_lt.mp hb) (not_lt.mp ha)
    rw [abs_le]
    push_cast
    rcases hk with hk | hk <;> constructor <;> linarith

/-- No integer multiple of the unit in the last place is closer to `q` than `fl q`. -/
theorem abs_fl_sub_le_mul {q : ℚ} (hq : q ≠ 0) (k : ℤ) :
    |fl q - q| ≤ |(k : ℚ) * ulp q - q| := by
  have hu := ulp_pos q
  have h := roundHalfEven_nearest (q / ulp q) k
  have e1 : fl q - q = ((roundHalfEven (q / ulp q) : ℚ) - q / ulp q) * ulp q := by
    unfold fl
    rw [if_neg hq, sub_mul, div_mul_cancel₀ _ hu.ne.symm]
  have e2 : (k : ℚ) * ulp q - q = ((k : ℚ) - q / ulp q) * ulp q := by
    rw [sub_mul, div_mul_cancel₀ _ hu.ne.symm]
  rw [e1, e2, abs_mul, abs_mul, abs_of_pos hu]
  exact mul_le_mul_of_nonneg_right h hu.le

/-- A binary64 value of size at least `2^E` is an integer multiple of `2^(E-52)`. -/
theorem isBinary64_mul_of_le {z : ℚ} (hz : IsBinary64 z) (E : ℤ) (h : (2 : ℚ) ^ E ≤ |z|) :
    ∃ k : ℤ, z = (k : ℚ) * (2 : ℚ) ^ (E - 52) := by
  obtain ⟨m, e, hm, rfl⟩ := hz
  have h2 : (0 : ℚ) < (2 : ℚ) ^ e := by positivity
  have hmq : |(m : ℚ)| ≤ 2 ^ 53 := by exact_mod_cast hm
  rw [abs_mul, abs_of_pos h2] at h
  have h3 : (2 : ℚ) ^ E ≤ 2 ^ (53 + e) := by
    rw [zpow_add₀ (by norm_num)]
    calc (2 : ℚ) ^ E ≤ |(m : ℚ)| * 2 ^ e := h
      _ ≤ 2 ^ 53 * 2 ^ e := mul_le_mul_of_nonneg_right hmq h2.le
      _ = 2 ^ (53 : ℤ) * 2 ^ e := by norm_num
  have h4 : E ≤ 53 + e :=
    ((zpow_right_strictMono₀ (by norm_num : (1 : ℚ) < 2)).le_iff_le).mp h3
  rcases lt_or_eq_of_le h4 with h5 | h5
  · refine ⟨m * 2 ^ (e - E + 52).toNat, ?_⟩
    push_cast
    rw [mul_assoc, ← zpow_natCast, ← zpow_add₀ (by norm_num)]
    congr 2
    omega
  · have h6 : (2 : ℚ) ^ 53 ≤ |(m : ℚ)| := by
      rw [h5, zpow_add₀ (by norm_num)] at h
      have := le_of_mul_le_mul_right h h2
      norm_num at this
      exact this
    have h7 : |(m : ℚ)| = 2 ^ 53 := le_antisymm hmq h6
    have h8 : (2 : ℚ) ^ (E - 52) = 2 ^ e * 2 := by
      rw [h5]
      have : (53 + e - 52 : ℤ) = e + 1 := by ring
      rw [this, zpow_add₀ (by norm_num), zpow_one]
    rcases abs_eq (by positivity : (0 : ℚ) ≤ 2 ^ 53) |>.mp h7 with h9 | h9
    · refine ⟨2 ^ 52, ?_⟩
      rw [h9, h8]
      push_cast
      ring
    · refine ⟨-2 ^ 52, ?_⟩
      rw [h9, h8]
      push_cast
      ring

/-- The result of the rounding is a binary64 value. -/
theorem fl_isBinary64 (q : ℚ) : IsBinary64 (fl q) := by
  by_cases hq : q = 0
  · refine ⟨0, 0, by norm_num, ?_⟩
    rw [hq, fl_zero]
    simp
  · refine ⟨roundHalfEven (q / ulp q), log2Floor |q| - 52, ?_, ?_⟩
    · have hu := ulp_pos q
      have hlt := lt_ulp hq
      have hy : |q / ulp q| < 2 ^ 53 := by
        rw [abs_div, abs_of_pos hu, div_lt_iff₀ hu]
        linarith
      rw [abs_lt] at hy
      have h1 := floor_le_roundHalfEven (q / ulp q)
      have h2 := roundHalfEven_le_floor_add_one (q / ulp q)
      have h3 : ⌊q / ulp q⌋ < 2 ^ 53 := by
        rw [Int.floor_lt]
        exact_mod_cast hy.2
      have h4 : -(2 : ℤ) ^ 53 ≤ ⌊q / ulp q⌋ := by
        rw [Int.le_floor]
        push_cast
        exact hy.1.le
      rw [abs_le]
      constructor <;> omega
    · unfold fl
      rw [if_neg hq]
      rfl

/-- The rounding is to nearest: no binary64 value is closer to `q` than `fl q`. -/
theorem fl_nearest (q z : ℚ) (hz : IsBinary64 z) : |fl q - q| ≤ |z - q| := by
  by_cases hq : q = 0
  · rw [hq, fl_zero]
    simp
  · have hu := ulp_pos q
    have hle := ulp_le hq
    have hE : (2 : ℚ) ^ log2Floor |q| = ulp q * 2 ^ 52 := by
      unfold ulp
      rw [zpow_sub₀ (by norm_num)]
      have : ((2 : ℚ) ^ (52 : ℤ)) = 2 ^ 52 := by norm_num
      rw [this, div_mul_cancel₀ _ (by norm_num)]
    rcases le_or_lt ((2 : ℚ) ^ log2Floor |q|) |z| with h | h
    · obtain ⟨k, hk⟩ := isBinary64_mul_of_le hz (log2Floor |q|) h
      have := abs_fl_sub_le_mul hq k
      rw [hk]
      exact this
    · rw [hE] at h
      rcases lt_or_gt_of_ne hq with hneg | hpos
      · have h1 := abs_fl_sub_le_mul hq (-2 ^ 52)
        rw [abs_of_neg hneg] at hle
        have h2 : |((-2 ^ 52 : ℤ) : ℚ) * ulp q - q| = -(ulp q * 2 ^ 52) - q := by
          push_cast
          rw [abs_of_nonneg (by linarith)]
          ring
        rw [h2] at h1
        have h3 := le_abs_self (z - q)
        have h4 := neg_abs_le z
        linarith
      · have h1 := abs_fl_sub_le_mul hq (2 ^ 52)
        rw [abs_of_pos hpos] at hle
        have h2 : |((2 ^ 52 : ℤ) : ℚ) * ulp q - q| = q - ulp q * 2 ^ 52 := by
          push_cast
          rw [abs_of_nonpos (by linarith)]
          ring
        rw [h2] at h1
        have h3 := neg_abs_le (z - q)
        have h4 := le_abs_self z
        linarith

/-! ## Rendering -/

theorem intToString_natCast (m : ℕ) : intToString (m : ℤ) = natToString m := by
  unfold intToString
  have : ¬ ((m : ℤ) < 0) := by omega
  rw [if_neg this, Int.natAbs_ofNat]

theorem mathFloor_numDiv (a d : ℕ) (hd : 0 < d) (ha : a < 2 ^ 53) :
    mathFloor (numDiv a d) = ((a / d : ℕ) : ℤ) :=
  floor_fl_div a d hd ha

theorem numDiv_nonneg (a d : ℕ) : 0 ≤ numDiv a d :=
  fl_nonneg (by positivity)

theorem toFixed_of_nonneg (f : ℕ) {x : ℚ} (hx : 0 ≤ x) (h21 : x < 10 ^ 21) :
    toFixed f x = fixedDigits f (fixedScaled f x) := by
  unfold toFixed
  rw [if_neg (by rw [abs_of_nonneg hx]; exact not_le.mpr h21), if_neg (not_lt.mpr hx)]

/-- Rounding at most doubles a non-negative exact result. -/
theorem fl_le_two_mul {q : ℚ} (hq : 0 ≤ q) : fl q ≤ 2 * q := by
  have h1 := abs_fl_sub_le_rel q
  rw [abs_of_nonneg hq] at h1
  have h2 := le_abs_self (fl q - q)
  have h3 := abs_nonneg (fl q - q)
  have h53 : (1 : ℚ) ≤ 2 ^ 53 := by norm_num
  nlinarith

theorem numDiv_le_two_mul (a d : ℕ) (hd : 0 < d) : numDiv a d ≤ 2 * (a : ℚ) := by
  have h := fl_le_two_mul (by positivity : (0 : ℚ) ≤ (a : ℚ) / d)
  have hdq : (1 : ℚ) ≤ d := by exact_mod_cast hd
  have h2 : (a : ℚ) / d ≤ a := div_le_self (by positivity) hdq
  unfold numDiv
  linarith

theorem numDiv_lt_of_lt (a d : ℕ) (hd : 0 < d) (ha : a < 2 ^ 53) : numDiv a d < 10 ^ 21 := by
  have h := numDiv_le_two_mul a d hd
  have haq : (a : ℚ) < 2 ^ 53 := by exact_mod_cast ha
  have : (2 : ℚ) * 2 ^ 53 < 10 ^ 21 := by norm_num
  linarith

theorem fixedScaled_cast (f : ℕ) {x : ℚ} (hx : 0 ≤ x) :
    ((fixedScaled f x : ℕ) : ℚ) = ((⌊x * 10 ^ f + 1 / 2⌋ : ℤ) : ℚ) := by
  unfold fixedScaled
  have h : (0 : ℤ) ≤ ⌊x * 10 ^ f + 1 / 2⌋ := Int.floor_nonneg.mpr (by positivity)
  have := Int.toNat_of_nonneg h
  exact_mod_cast congrArg (fun z : ℤ => (z : ℚ)) this

/-- The tenths `toFixed(1)` prints for a non-negative Number are a nearest count of tenths
of that Number. -/
theorem abs_fixedScaled_one_sub_le {x : ℚ} (hx : 0 ≤ x) :
    |((fixedScaled 1 x : ℕ) : ℚ) / 10 - x| ≤ 1 / 20 := by
  rw [fixedScaled_cast 1 hx]
  have h1 := Int.floor_le (x * 10 ^ 1 + 1 / 2)
  have h2 := Int.lt_floor_add_one (x * 10 ^ 1 + 1 / 2)
  rw [abs_le]
  constructor <;> linarith

/-- The tenths `toFixed(1)` prints for the JavaScript quotient `n / d`, with `d` a
multiple of 20 and `n` below 2^53, are a nearest count of tenths of the exact
quotient. -/
theorem abs_fixedScaled_numDiv_sub_le (n e : ℕ) (he : 0 < e) (hn : n < 2 ^ 53) :
    |((fixedScaled 1 (numDiv n (20 * e : ℕ)) : ℕ) : ℚ) / 10 - (n : ℚ) / (20 * e : ℕ)|
      ≤ 1 / 20 := by
  have heq : (0 : ℚ) < e := by exact_mod_cast he
  have hx := numDiv_nonneg n (20 * e)
  rw [fixedScaled_cast 1 hx]
  have herr := abs_fl_div_sub_lt n (20 * e) (by omega) hn
  have key := abs_floor_add_half_sub_le (numDiv n (20 * e : ℕ) * 10 ^ 1)
    ((n : ℚ) / (2 * e)) ((n + e : ℕ) : ℤ) (2 * e) (by omega)
    (by push_cast; field_simp; ring)
    (by
      unfold numDiv
      push_cast at herr ⊢
      have h10 : fl ((n : ℚ) / (20 * e)) * 10 ^ 1 - (n : ℚ) / (2 * e) =
          10 * (fl ((n : ℚ) / (20 * e)) - (n : ℚ) / (20 * e)) := by
        field_simp
        ring
      rw [h10, abs_mul, abs_of_pos (by norm_num : (0 : ℚ) < 10)]
      have : (1 : ℚ) / (2 * e) = 10 * (1 / (20 * e)) := by
        field_simp
        ring
      rw [this]
      exact mul_lt_mul_of_pos_left herr (by norm_num))
  have h2 : (n : ℚ) / ((20 * e : ℕ) : ℚ) = (n : ℚ) / (2 * e) / 10 := by
    rw [div_div]
    congr 1
    push_cast
    ring
  rw [h2, ← sub_div, abs_div, abs_of_pos (by norm_num : (0 : ℚ) < 10)]
  rw [div_le_iff₀ (by norm_num)]
  calc _ ≤ (1 : ℚ) / 2 := key
    _ = 1 / 20 * 10 := by norm_num

/-- A nearest count of tenths of `n / d` is the half-up rounding unless the quotient
lies exactly halfway between two tenths. -/
theorem eq_roundTenthsHalfUp_of_near (k n d : ℕ) (hd : 0 < d)
    (h : |(k : ℚ) / 10 - (n : ℚ) / d| ≤ 1 / 20) (hne : (20 * n + d) % (2 * d) ≠ 0) :
    k = roundTenthsHalfUp n d := by
  have hdq : (0 : ℚ) < d := by exact_mod_cast hd
  rw [abs_le] at h
  obtain ⟨h1, h2⟩ := h
  have hq : (n : ℚ) / d * d = n := div_mul_cancel₀ _ hdq.ne.symm
  have e1 : (20 : ℚ) * n ≤ 2 * k * d + d := by
    have := mul_le_mul_of_nonneg_right h1 hdq.le
    rw [sub_mul, hq] at this
    linarith
  have e2 : (2 : ℚ) * k * d ≤ 20 * n + d := by
    have := mul_le_mul_of_nonneg_right h2 hdq.le
    rw [sub_mul, hq] at this
    linarith
  have e1n : 20 * n ≤ 2 * k * d + d := by exact_mod_cast e1
  have e2n : 2 * k * d ≤ 20 * n + d := by exact_mod_cast e2
  unfold roundTenthsHalfUp
  apply le_antisymm
  · rw [Nat.le_div_iff_mul_le (by omega)]
    calc k * (2 * d) = 2 * k * d := by ring
      _ ≤ 20 * n + d := e2n
  · have hlt : 20 * n + d < (k + 1) * (2 * d) := by
      rcases Nat.lt_or_ge (20 * n + d) ((k + 1) * (2 * d)) with hlt | hge
      · exact hlt
      · exfalso
        have heq : 20 * n + d = (k + 1) * (2 * d) := by
          have : (k + 1) * (2 * d) = 2 * k * d + 2 * d := by ring
          omega
        apply hne
        rw [heq]
        exact Nat.mul_mod_left _ _
    have := (Nat.div_lt_iff_lt_mul (by omega : 0 < 2 * d)).mpr hlt
    omega

theorem showsTenths_numDiv (n e : ℕ) (he : 0 < e) (hn : n < 2 ^ 53) (u : String) :
    ShowsTenths (toFixed 1 (numDiv n (20 * e : ℕ)) ++ u) n (20 * e) u := by
  refine ⟨fixedScaled 1 (numDiv n (20 * e : ℕ)), ?_, ?_, ?_⟩
  · rw [toFixed_of_nonneg 1 (numDiv_nonneg n (20 * e)) (numDiv_lt_of_lt n (20 * e) (by omega) hn)]
  · exact abs_fixedScaled_numDiv_sub_le n e he hn
  · intro hne
    exact eq_roundTenthsHalfUp_of_near _ n (20 * e) (by omega)
      (abs_fixedScaled_numDiv_sub_le n e he hn) hne

/-! ## `formatLargeNumber` -/

/-- C1: in the bands rendered without a decimal place `formatLargeNumber(n)` is exactly
the plain decimal numeral of `n` when `0 ≤ n < 1000`, the numeral of `floor(n/1000)`
followed by "K" when `100000 ≤ n < 1000000`, and the numeral of `floor(n/1000000)`
followed by " MIL" when `10000000 ≤ n < 1000000000`. -/
theorem formatLargeNumber_whole (n : ℕ) :
    (n < 1000 → formatLargeNumber n = natToString n) ∧
    (100000 ≤ n → n < 1000000 →
      formatLargeNumber n = natToString (n / 1000) ++ "K") ∧
    (10000000 ≤ n → n < 1000000000 →
      formatLargeNumber n = natToString (n / 1000000) ++ " MIL") := by
  have h53 : (2 : ℕ) ^ 53 = 9007199254740992 := by norm_num
  refine ⟨?_, ?_, ?_⟩
  · intro h
    unfold formatLargeNumber
    rw [if_pos h]
  · intro h1 h2
    have hf := mathFloor_numDiv n 1000 (by norm_num) (by omega)
    simp only [Nat.cast_ofNat] at hf
    unfold formatLargeNumber
    rw [if_neg (by omega), if_neg (by omega), if_neg (by omega), if_pos h2, hf,
      intToString_natCast]
  · intro h1 h2
    have hf := mathFloor_numDiv n 1000000 (by norm_num) (by omega)
    simp only [Nat.cast_ofNat] at hf
    unfold formatLargeNumber
    rw [if_neg (by omega), if_neg (by omega), if_neg (by omega), if_neg (by omega),
      if_neg (by omega), if_pos h2, hf, intToString_natCast]

/-- Witness for C1: one input in each of the three bands. -/
theorem formatLargeNumber_whole_witness :
    ((7 : ℕ) < 1000 ∧ formatLargeNumber 7 = natToString 7) ∧
    ((100000 : ℕ) ≤ 982431 ∧ (982431 : ℕ) < 1000000 ∧
      formatLargeNumber 982431 = natToString (982431 / 1000) ++ "K") ∧
    ((10000000 : ℕ) ≤ 234567890 ∧ (234567890 : ℕ) < 1000000000 ∧
      formatLargeNumber 234567890 = natToString (234567890 / 1000000) ++ " MIL") :=
  ⟨⟨by decide, (formatLargeNumber_whole 7).1 (by decide)⟩,
   ⟨by decide, by decide, (formatLargeNumber_whole 982431).2.1 (by decide) (by decide)⟩,
   ⟨by decide, by decide,
    (formatLargeNumber_whole 234567890).2.2 (by decide) (by decide)⟩⟩

/-- C2 (as stated, refuted): 2550 lies in the band rendered as n/1000 with one decimal
and "K", and 2550/1000 = 2.55 rounded to one decimal place is 2.6 (a half going up, and
equally a half going to the even digit); `formatLargeNumber(2550)` is "2.5K", because
the Number nearest to 2.55 is slightly smaller than 2.55.  The half of 2450/1000 = 2.45
goes up instead, to "2.5K".  Beyond 2^53 the text can miss the nearest one-decimal value
altogether: 16777216049999998976 is a Number in the " TRI" band whose quotient
16777216.049999998976 is shown as "16777216.1 TRI". -/
theorem formatLargeNumber_decimal_counterexample :
    (1000 ≤ 2550 ∧ 2550 < 100000) ∧
    formatLargeNumber 2550 = "2.5K" ∧
    roundTenthsHalfUp 2550 1000 = 26 ∧ roundTenthsHalfEven 2550 1000 = 26 ∧
    fixedDigits 1 26 ++ "K" = "2.6K" ∧
    formatLargeNumber 2550 ≠ fixedDigits 1 (roundTenthsHalfUp 2550 1000) ++ "K" ∧
    formatLargeNumber 2450 = "2.5K" ∧ roundTenthsHalfEven 2450 1000 = 24 ∧
    fl 16777216049999998976 = 16777216049999998976 ∧
    formatLargeNumber 16777216049999998976 = fixedDigits 1 167772161 ++ " TRI" ∧
    fixedDigits 1 167772161 ++ " TRI" = "16777216.1 TRI" ∧
    roundTenthsHalfUp 16777216049999998976 1000000000000 = 167772160 ∧
    ¬ |(167772161 : ℚ) / 10 - (16777216049999998976 : ℚ) / 1000000000000| ≤ 1 / 20 := by
  decide!

/-- C2 (amended): for every integer `n` below 2^53 in the bands rendered with one
decimal place, `formatLargeNumber(n)` shows the quotient with one decimal place and the
unit of the band (n/1000 and "K" for `1000 ≤ n < 100000`, n/1000000 and " MIL" for
`1000000 ≤ n < 10000000`, n/10^9 and " BIL" for `10^9 ≤ n < 10^12`, n/10^12 and " TRI"
for `n ≥ 10^12`): the value shown is a one-decimal value nearest to the quotient, and it
is the quotient rounded half up whenever the quotient is not exactly halfway between two
one-decimal values. -/
theorem formatLargeNumber_decimal (n : ℕ) (hn : n < 2 ^ 53) :
    (1000 ≤ n → n < 100000 → ShowsTenths (formatLargeNumber n) n 1000 "K") ∧
    (1000000 ≤ n → n < 10000000 → ShowsTenths (formatLargeNumber n) n 1000000 " MIL") ∧
    (1000000000 ≤ n → n < 1000000000000 →
      ShowsTenths (formatLargeNumber n) n 1000000000 " BIL") ∧
    (1000000000000 ≤ n → ShowsTenths (formatLargeNumber n) n 1000000000000 " TRI") := by
  refine ⟨?_, ?_, ?_, ?_⟩
  · intro h1 h2
    have h := showsTenths_numDiv n 50 (by norm_num) hn "K"
    norm_num at h
    unfold formatLargeNumber
    rw [if_neg (by omega)]
    split_ifs <;> exact h
  · intro h1 h2
    have h := showsTenths_numDiv n 50000 (by norm_num) hn " MIL"
    norm_num at h
    unfold formatLargeNumber
    rw [if_neg (by omega), if_neg (by omega), if_neg (by omega), if_neg (by omega),
      if_pos h2]
    exact h
  · intro h1 h2
    have h := showsTenths_numDiv n 50000000 (by norm_num) hn " BIL"
    norm_num at h
    unfold formatLargeNumber
    rw [if_neg (by omega), if_neg (by omega), if_neg (by omega), if_neg (by omega),
      if_neg (by omega), if_neg (by omega), if_pos h2]
    exact h
  · intro h1
    have h := showsTenths_numDiv n 50000000000 (by norm_num) hn " TRI"
    norm_num at h
    unfold formatLargeNumber
    rw [if_neg (by omega), if_neg (by omega), if_neg (by omega), if_neg (by omega),
      if_neg (by omega), if_neg (by omega), if_neg (by omega)]
    exact h

/-- Witness for C2 (amended): the input 2550 of the "K" band. -/
theorem formatLargeNumber_decimal_witness :
    ((2550 : ℕ) < 2 ^ 53 ∧ (1000 : ℕ) ≤ 2550 ∧ (2550 : ℕ) < 100000) ∧
      ShowsTenths (formatLargeNumber 2550) 2550 1000 "K" :=
  ⟨by decide, (formatLargeNumber_decimal 2550 (by decide)).1 (by decide) (by decide)⟩

/-- C3: `formatLargeNumber` returns "999" for 999, "1.5K" for 1500, "150K" for 150000,
"2.5 MIL" for 2500000, "25 MIL" for 25000000 and "4.5 BIL" for 4500000000. -/
theorem formatLargeNumber_examples :
    formatLargeNumber 999 = "999" ∧ formatLargeNumber 1500 = "1.5K" ∧
    formatLargeNumber 150000 = "150K" ∧ formatLargeNumber 2500000 = "2.5 MIL" ∧
    formatLargeNumber 25000000 = "25 MIL" ∧ formatLargeNumber 4500000000 = "4.5 BIL" := by
  decide!

/-! ## `moveStatsTooltip` -/

/-- C4: for every pointer `(px, py)`, tooltip size `(w, h)` and viewport `(vw, vh)` the
position written is `x = px - w - 15` if `px + 15 + w > vw - 10` and `x = px + 15`
otherwise, and `y = py - h - 10` if `py + 10 + h > vh - 10` and `y = py + 10` otherwise;
the horizontal test reads only `px`, `w`, `vw` and the vertical one only `py`, `h`,
`vh`, and a position that exactly touches the margin is not flipped. -/
theorem moveStatsTooltip_position (px py w h vw vh : ℤ) :
    moveStatsTooltip (some ⟨w, h⟩) ⟨vw, vh⟩ ⟨px, py⟩ =
      some (if px + 15 + w > vw - 10 then px - w - 15 else px + 15,
            if py + 10 + h > vh - 10 then py - h - 10 else py + 10) ∧
    (px + 15 + w = vw - 10 →
      (moveStatsTooltip (some ⟨w, h⟩) ⟨vw, vh⟩ ⟨px, py⟩).map Prod.fst = some (px + 15)) ∧
    (py + 10 + h = vh - 10 →
      (moveStatsTooltip (some ⟨w, h⟩) ⟨vw, vh⟩ ⟨px, py⟩).map Prod.snd = some (py + 10)) := by
  refine ⟨rfl, ?_, ?_⟩
  · intro hx
    simp only [moveStatsTooltip, Option.map_some']
    rw [if_neg (by omega)]
  · intro hy
    simp only [moveStatsTooltip, Option.map_some']
    rw [if_neg (by omega)]

/-- Witness for C4: a tooltip that touches the margin on both axes. -/
theorem moveStatsTooltip_position_witness :
    ((10 : ℤ) + 15 + 100 = 135 - 10 ∧
      (moveStatsTooltip (some ⟨100, 50⟩) ⟨135, 80⟩ ⟨10, 10⟩).map Prod.fst = some (10 + 15)) ∧
    ((10 : ℤ) + 10 + 50 = 80 - 10 ∧
      (moveStatsTooltip (some ⟨100, 50⟩) ⟨135, 80⟩ ⟨10, 10⟩).map Prod.snd = some (10 + 10)) :=
  ⟨⟨by decide, (moveStatsTooltip_position 10 10 100 50 135 80).2.1 (by decide)⟩,
   ⟨by decide, (moveStatsTooltip_position 10 10 100 50 135 80).2.2 (by decide)⟩⟩

/-- C5: for every pointer inside the viewport (`0 ≤ px ≤ vw`, `0 ≤ py ≤ vh`), every
tooltip size and every viewport size, the position `(x, y)` that `moveStatsTooltip`
computes keeps the far edges of the tooltip inside the 10px margin: `x + w ≤ vw - 10`
and `y + h ≤ vh - 10`. -/
theorem moveStatsTooltip_far_edges (px py w h vw vh : ℤ)
    (_hx0 : 0 ≤ px) (hx1 : px ≤ vw) (_hy0 : 0 ≤ py) (hy1 : py ≤ vh) :
    ∃ x y : ℤ, moveStatsTooltip (some ⟨w, h⟩) ⟨vw, vh⟩ ⟨px, py⟩ = some (x, y) ∧
      x + w ≤ vw - 10 ∧ y + h ≤ vh - 10 := by
  refine ⟨_, _, rfl, ?_, ?_⟩
  · dsimp only
    split_ifs <;> omega
  · dsimp only
    split_ifs <;> omega

/-- Witness for C5: pointer (10,10), tooltip (100,50), viewport (120,100). -/
theorem moveStatsTooltip_far_edges_witness :
    ((0 : ℤ) ≤ 10 ∧ (10 : ℤ) ≤ 120 ∧ (0 : ℤ) ≤ 10 ∧ (10 : ℤ) ≤ 100) ∧
    ∃ x y : ℤ, moveStatsTooltip (some ⟨100, 50⟩) ⟨120, 100⟩ ⟨10, 10⟩ = some (x, y) ∧
      x + 100 ≤ 120 - 10 ∧ y + 50 ≤ 100 - 10 :=
  ⟨by decide, moveStatsTooltip_far_edges 10 10 100 50 120 100
    (by decide) (by decide) (by decide) (by decide)⟩

/-- C6 (as stated, refuted): for pointer (10,10), tooltip size (100,50) and viewport
(120,100) the position written is not the pair of flipped values
`(10 - 100 - 15, 10 - 50 - 10)`. -/
theorem moveStatsTooltip_example_counterexample :
    moveStatsTooltip (some ⟨100, 50⟩) ⟨120, 100⟩ ⟨10, 10⟩ ≠
      some (10 - 100 - 15, 10 - 50 - 10) := by
  decide

/-- C6 (amended): for pointer (10,10), tooltip size (100,50) and viewport (120,100)
`moveStatsTooltip` flips on the horizontal axis only: `10 + 15 + 100` exceeds
`120 - 10`, so the horizontal position is the flipped value `10 - 100 - 15`; `10 + 10 + 50`
does not exceed `100 - 10`, so the vertical position is the unflipped `10 + 10`. -/
theorem moveStatsTooltip_example :
    moveStatsTooltip (some ⟨100, 50⟩) ⟨120, 100⟩ ⟨10, 10⟩ =
      some (10 - 100 - 15, 10 + 10) ∧
    (10 : ℤ) + 15 + 100 > 120 - 10 ∧ ¬ ((10 : ℤ) + 10 + 50 > 100 - 10) := by
  decide

/-! ## The statistics window -/

theorem numSub_intCast (a b : ℤ) (h : |a - b| < 2 ^ 53) :
    numSub (a : ℚ) (b : ℚ) = ((a - b : ℤ) : ℚ) := by
  unfold numSub
  rw [← Int.cast_sub]
  exact fl_intCast (a - b) h

theorem msPerDay_eq : ((1000 : ℚ) * 60 * 60 * 24) = ((86400000 : ℕ) : ℚ) := by norm_num

/-- For time values less than 2^53 ms apart `daysDiff` is the number of whole days from
`startTime` to `now`, raised to 1 when that is smaller. -/
theorem daysDiff_eq (now startTime : ℤ) (h : |now - startTime| < 2 ^ 53) :
    daysDiff now startTime = max 1 ⌊((now : ℚ) - startTime) / 86400000⌋ := by
  unfold daysDiff mathMax mathFloor
  rw [numSub_intCast now startTime h, msPerDay_eq]
  rcases le_or_lt 0 (now - startTime) with hD | hD
  · obtain ⟨a, ha⟩ := Int.eq_ofNat_of_zero_le hD
    have ha53 : a < 2 ^ 53 := by
      rw [ha, abs_of_nonneg (by positivity)] at h
      exact_mod_cast h
    have hcast : ((now : ℚ) - startTime) = (a : ℚ) := by
      have := congrArg (fun z : ℤ => (z : ℚ)) ha
      simpa using this
    rw [ha]
    have e1 : numDiv (((a : ℕ) : ℤ) : ℚ) ((86400000 : ℕ) : ℚ) = fl ((a : ℚ) / (86400000 : ℕ)) := by
      unfold numDiv
      rw [Int.cast_natCast]
    rw [e1, floor_fl_div a 86400000 (by norm_num) ha53, hcast]
    have e2 : ⌊(a : ℚ) / 86400000⌋ = ((a / 86400000 : ℕ) : ℤ) := by
      have := Rat.floor_natCast_div_natCast a 86400000
      simpa using this
    rw [e2]
  · have hq : ((now - startTime : ℤ) : ℚ) < 0 := by exact_mod_cast hD
    have h1 : numDiv ((now - startTime : ℤ) : ℚ) ((86400000 : ℕ) : ℚ) ≤ 0 := by
      unfold numDiv
      apply fl_nonpos
      apply div_nonpos_of_nonpos_of_nonneg hq.le (by positivity)
    have h2 : ⌊numDiv ((now - startTime : ℤ) : ℚ) ((86400000 : ℕ) : ℚ)⌋ ≤ 0 := by
      have := Int.floor_le (numDiv ((now - startTime : ℤ) : ℚ) ((86400000 : ℕ) : ℚ))
      have h3 : ((⌊numDiv ((now - startTime : ℤ) : ℚ) ((86400000 : ℕ) : ℚ)⌋ : ℤ) : ℚ) ≤ 0 :=
        this.trans h1
      exact_mod_cast h3
    have h4 : ⌊((now : ℚ) - startTime) / 86400000⌋ ≤ 0 := by
      have h5 : ((now : ℚ) - startTime) / 86400000 ≤ 0 := by
        apply div_nonpos_of_nonpos_of_nonneg _ (by norm_num)
        have := hq.le
        push_cast at this
        exact this
      have := Int.floor_le (((now : ℚ) - startTime) / 86400000)
      have h6 : ((⌊((now : ℚ) - startTime) / 86400000⌋ : ℤ) : ℚ) ≤ 0 := this.trans h5
      exact_mod_cast h6
    rw [max_eq_left (by omega), max_eq_left (by omega)]

theorem abs_sub_lt_of_le_maxTimeValue (a b : ℕ) (ha : a ≤ maxTimeValue)
    (hb : b ≤ maxTimeValue) : |(a : ℤ) - (b : ℤ)| < 2 ^ 53 := by
  unfold maxTimeValue at ha hb
  rw [abs_lt]
  constructor <;> omega

/-- C7: for every stored start timestamp and every current time (clock readings, at most
the largest time value), also for a start date in the future of the current time, the
`daysElapsed` that `showStatsTooltip` computes is an integer at least 1, and it equals
`floor((now - start) / 86400000)` whenever that floor is at least 1; so the divisor of
the averages is never zero. -/
theorem daysElapsed_pos (now start : ℕ) (hn : now ≤ maxTimeValue)
    (hs : start ≤ maxTimeValue) :
    ∃ k : ℤ, daysElapsed (some ⟨start⟩) now = some k ∧ 1 ≤ k ∧ k ≠ 0 ∧
      (1 ≤ ⌊((now : ℚ) - start) / 86400000⌋ →
        k = ⌊((now : ℚ) - start) / 86400000⌋) := by
  have h := daysDiff_eq now start (abs_sub_lt_of_le_maxTimeValue now start hn hs)
  simp only [Int.cast_natCast] at h
  refine ⟨daysDiff now start, rfl, ?_, ?_, ?_⟩
  · rw [h]
    exact le_max_left _ _
  · have : 1 ≤ daysDiff now start := by
      rw [h]
      exact le_max_left _ _
    omega
  · intro hge
    rw [h]
    exact max_eq_right hge

/-- Witness for C7: a start date one day in the future of the current time. -/
theorem daysElapsed_pos_witness :
    ((1700000000000 : ℕ) ≤ maxTimeValue ∧ (1700086400000 : ℕ) ≤ maxTimeValue) ∧
    ∃ k : ℤ, daysElapsed (some ⟨(1700086400000 : ℕ)⟩) 1700000000000 = some k ∧ 1 ≤ k ∧
      k ≠ 0 ∧
      (1 ≤ ⌊(((1700000000000 : ℕ) : ℚ) - (1700086400000 : ℕ)) / 86400000⌋ →
        k = ⌊(((1700000000000 : ℕ) : ℚ) - (1700086400000 : ℕ)) / 86400000⌋) :=
  ⟨by decide, daysElapsed_pos 1700000000000 1700086400000 (by decide) (by decide)⟩

/-- C8: after the reset-stats click handler stores the start date at time `t`, a hover at
any time `t'` with `t ≤ t' < t + 2 days`, in particular at the same instant `t' = t`,
computes `daysElapsed = 1`. -/
theorem daysElapsed_after_reset (t t' : ℕ) (item : Option IsoString)
    (ht : t' ≤ maxTimeValue) (h1 : t ≤ t') (h2 : t' < t + 2 * 86400000) :
    daysElapsed (resetStatsClick "reset-stats" t item) t' = some 1 ∧
    (t ≤ maxTimeValue → daysElapsed (resetStatsClick "reset-stats" t item) t = some 1) := by
  have key : ∀ s : ℕ, s ≤ maxTimeValue → t ≤ s → s < t + 2 * 86400000 →
      daysElapsed (resetStatsClick "reset-stats" t item) s = some 1 := by
    intro s hs hs1 hs2
    have htm : t ≤ maxTimeValue := le_trans hs1 hs
    have h := daysDiff_eq s t (abs_sub_lt_of_le_maxTimeValue s t hs htm)
    simp only [Int.cast_natCast] at h
    have hstore : resetStatsClick "reset-stats" t item = some ⟨(t : ℤ)⟩ := by
      unfold resetStatsClick
      rw [if_pos rfl]
    rw [hstore]
    show some (daysDiff s t) = some 1
    rw [h]
    congr 1
    apply max_eq_left
    have hlt : ((s : ℚ) - t) / 86400000 < 2 := by
      rw [div_lt_iff₀ (by norm_num)]
      have : (s : ℚ) < t + 2 * 86400000 := by exact_mod_cast hs2
      linarith
    have : ⌊((s : ℚ) - t) / 86400000⌋ < 2 := by
      rw [Int.floor_lt]
      exact_mod_cast hlt
    omega
  exact ⟨key t' ht h1 h2, fun htm => key t htm le_rfl (by omega)⟩

/-- Witness for C8: a hover 100000 seconds after the reset. -/
theorem daysElapsed_after_reset_witness :
    ((1700100000000 : ℕ) ≤ maxTimeValue ∧ (1700000000000 : ℕ) ≤ 1700100000000 ∧
      (1700100000000 : ℕ) < 1700000000000 + 2 * 86400000) ∧
    daysElapsed (resetStatsClick "reset-stats" 1700000000000 none) 1700100000000 = some 1 :=
  ⟨by decide, (daysElapsed_after_reset 1700000000000 1700100000000 none
    (by decide) (by decide) (by decide)).1⟩

/-- C9: when the storage key `huntarr-stats-start-date` is absent, for every current time
`showStatsTooltip` uses a start date exactly 30 days before now, so `daysElapsed = 30`. -/
theorem daysElapsed_default (now : ℕ) (hn : now ≤ maxTimeValue) :
    startDate none now = some ⟨(now : ℤ) - 30 * 86400000⟩ ∧
    daysElapsed none now = some 30 := by
  have hsub : numSub (now : ℚ) (30 * 24 * 60 * 60 * 1000) =
      (((now : ℤ) - 2592000000 : ℤ) : ℚ) := by
    have := numSub_intCast (now : ℤ) 2592000000 (by
      unfold maxTimeValue at hn
      rw [abs_lt]
      constructor <;> omega)
    have e : ((30 : ℚ) * 24 * 60 * 60 * 1000) = ((2592000000 : ℤ) : ℚ) := by norm_num
    rw [e]
    exact_mod_cast this
  have hstart : startDate none now = some ⟨(now : ℤ) - 2592000000⟩ := by
    unfold startDate
    simp only
    rw [hsub]
    unfold newDate
    have hv : |(((now : ℤ) - 2592000000 : ℤ) : ℚ)| ≤ (maxTimeValue : ℚ) := by
      have : |((now : ℤ) - 2592000000 : ℤ)| ≤ (maxTimeValue : ℤ) := by
        unfold maxTimeValue at hn ⊢
        rw [abs_le]
        constructor <;> omega
      exact_mod_cast this
    rw [if_pos hv, Int.floor_intCast]
    rfl
  refine ⟨by rw [hstart]; norm_num, ?_⟩
  unfold daysElapsed
  rw [hstart]
  show some (daysDiff now ((now : ℤ) - 2592000000)) = some 30
  have h := daysDiff_eq now ((now : ℤ) - 2592000000) (by
    rw [abs_lt]
    constructor <;> omega)
  rw [h]
  congr 1
  have : (((now : ℤ) : ℚ) - (((now : ℤ) - 2592000000 : ℤ) : ℚ)) / 86400000 = ((30 : ℤ) : ℚ) := by
    push_cast
    ring
  rw [this, Int.floor_intCast]
  rfl

/-- Witness for C9: a current time in November 2023. -/
theorem daysElapsed_default_witness :
    (1700000000000 : ℕ) ≤ maxTimeValue ∧
    startDate none 1700000000000 = some ⟨((1700000000000 : ℕ) : ℤ) - 30 * 86400000⟩ ∧
    daysElapsed none 1700000000000 = some 30 :=
  ⟨by decide, daysElapsed_default 1700000000000 (by decide)⟩

/-! ## The averages -/

/-- The text `toFixed(1)` prints for a non-negative Number `x` shows the quotient `n / d`
with one decimal place when `x` is closer to the quotient than `1 / (20 d)`. -/
theorem showsTenths_of_close {x : ℚ} (hx : 0 ≤ x) (h21 : x < 10 ^ 21) (n d : ℕ) (hd : 0 < d)
    (h : |x - (n : ℚ) / d| < 1 / (20 * d)) : ShowsTenths (toFixed 1 x) n d "" := by
  have hdq : (0 : ℚ) < d := by exact_mod_cast hd
  have key := abs_floor_add_half_sub_le (x * 10 ^ 1) (10 * ((n : ℚ) / d))
    ((20 * n + d : ℕ) : ℤ) (2 * d) (by omega)
    (by push_cast; field_simp; ring)
    (by
      have h10 : x * 10 ^ 1 - 10 * ((n : ℚ) / d) = 10 * (x - (n : ℚ) / d) := by ring
      rw [h10, abs_mul, abs_of_pos (by norm_num : (0 : ℚ) < 10)]
      have : (1 : ℚ) / ((2 * d : ℕ) : ℚ) = 10 * (1 / (20 * d)) := by
        push_cast
        field_simp
        ring
      rw [this]
      exact mul_lt_mul_of_pos_left h (by norm_num))
  have near : |((fixedScaled 1 x : ℕ) : ℚ) / 10 - (n : ℚ) / d| ≤ 1 / 20 := by
    rw [fixedScaled_cast 1 hx]
    have e : ((⌊x * 10 ^ 1 + 1 / 2⌋ : ℤ) : ℚ) / 10 - (n : ℚ) / d =
        (((⌊x * 10 ^ 1 + 1 / 2⌋ : ℤ) : ℚ) - 10 * ((n : ℚ) / d)) / 10 := by ring
    rw [e, abs_div, abs_of_pos (by norm_num : (0 : ℚ) < 10), div_le_iff₀ (by norm_num)]
    calc _ ≤ (1 : ℚ) / 2 := key
      _ = 1 / 20 * 10 := by norm_num
  refine ⟨fixedScaled 1 x, ?_, near, ?_⟩
  · rw [toFixed_of_nonneg 1 hx h21, String.append_empty]
  · intro hne
    exact eq_roundTenthsHalfUp_of_near _ n d hd near hne

theorem dailyValue_nonneg (r d : ℕ) : 0 ≤ dailyValue r d := numDiv_nonneg r d

theorem weeklyValue_nonneg (r d : ℕ) : 0 ≤ weeklyValue r d :=
  fl_nonneg (mul_nonneg (numDiv_nonneg r d) (by norm_num))

theorem monthlyValue_nonneg (r d : ℕ) : 0 ≤ monthlyValue r d :=
  fl_nonneg (mul_nonneg (numDiv_nonneg r d) (by norm_num))

theorem abs_dailyValue_sub_le (r d : ℕ) :
    |dailyValue r d - (r : ℚ) / d| * 2 ^ 53 ≤ (r : ℚ) / d := by
  have h := abs_fl_sub_le_rel ((r : ℚ) / d)
  rw [abs_of_nonneg (by positivity : (0 : ℚ) ≤ (r : ℚ) / d)] at h
  exact h

/-- A product of the daily average with a positive constant stays within the relative
error 2^-51 of the exact multiple of the quotient. -/
theorem abs_numMul_dailyValue_sub_le (r d : ℕ) (c : ℚ) (hc : 0 < c) :
    |numMul (numDiv r d) c - c * ((r : ℚ) / d)| * 2 ^ 51 ≤ c * ((r : ℚ) / d) := by
  have hq : (0 : ℚ) ≤ (r : ℚ) / d := by positivity
  have hx : 0 ≤ numDiv r d := numDiv_nonneg r d
  have h1 := abs_dailyValue_sub_le r d
  unfold dailyValue at h1
  have h2 := abs_fl_sub_le_rel (numDiv r d * c)
  rw [abs_of_nonneg (mul_nonneg hx hc.le)] at h2
  have h3 : numDiv r d ≤ 2 * ((r : ℚ) / d) := by
    have := le_abs_self (numDiv r d - (r : ℚ) / d)
    have h53 : (1 : ℚ) ≤ 2 ^ 53 := by norm_num
    nlinarith [abs_nonneg (numDiv (r : ℚ) (d : ℚ) - (r : ℚ) / d)]
  have tri : |numMul (numDiv r d) c - c * ((r : ℚ) / d)| ≤
      |fl (numDiv r d * c) - numDiv r d * c| + c * |numDiv r d - (r : ℚ) / d| := by
    unfold numMul
    have e : fl (numDiv r d * c) - c * ((r : ℚ) / d) =
        (fl (numDiv r d * c) - numDiv r d * c) + c * (numDiv r d - (r : ℚ) / d) := by ring
    rw [e]
    calc _ ≤ |fl (numDiv r d * c) - numDiv r d * c| + |c * (numDiv r d - (r : ℚ) / d)| :=
          abs_add _ _
      _ = _ := by rw [abs_mul, abs_of_pos hc]
  have h4 : |fl (numDiv r d * c) - numDiv r d * c| * 2 ^ 53 ≤ 2 * (c * ((r : ℚ) / d)) := by
    calc _ ≤ numDiv r d * c := h2
      _ ≤ 2 * ((r : ℚ) / d) * c := mul_le_mul_of_nonneg_right h3 hc.le
      _ = 2 * (c * ((r : ℚ) / d)) := by ring
  have h5 : c * |numDiv r d - (r : ℚ) / d| * 2 ^ 53 ≤ c * ((r : ℚ) / d) := by
    calc c * |numDiv r d - (r : ℚ) / d| * 2 ^ 53
        = c * (|numDiv r d - (r : ℚ) / d| * 2 ^ 53) := by ring
      _ ≤ c * ((r : ℚ) / d) := mul_le_mul_of_nonneg_left h1 hc.le
  have h6 : |numMul (numDiv r d) c - c * ((r : ℚ) / d)| * 2 ^ 53 ≤
      3 * (c * ((r : ℚ) / d)) := by
    calc _ ≤ (|fl (numDiv r d * c) - numDiv r d * c| + c * |numDiv r d - (r : ℚ) / d|) * 2 ^ 53 :=
          mul_le_mul_of_nonneg_right tri (by positivity)
      _ = |fl (numDiv r d * c) - numDiv r d * c| * 2 ^ 53 +
          c * |numDiv r d - (r : ℚ) / d| * 2 ^ 53 := by ring
      _ ≤ 2 * (c * ((r : ℚ) / d)) + c * ((r : ℚ) / d) := add_le_add h4 h5
      _ = 3 * (c * ((r : ℚ) / d)) := by ring
  have hnn : 0 ≤ c * ((r : ℚ) / d) := mul_nonneg hc.le hq
  have habs := abs_nonneg (numMul (numDiv (r : ℚ) (d : ℚ)) c - c * ((r : ℚ) / d))
  have e53 : (2 : ℚ) ^ 53 = 4 * 2 ^ 51 := by norm_num
  rw [e53] at h6
  nlinarith

/-- The tenths shown for a non-negative Number are its `toFixed(1)` numeral, a nearest
count of tenths. -/
theorem toFixed_one_near {x : ℚ} (hx : 0 ≤ x) (h21 : x < 10 ^ 21) :
    ∃ k : ℕ, toFixed 1 x = fixedDigits 1 k ∧ |(k : ℚ) / 10 - x| ≤ 1 / 20 :=
  ⟨fixedScaled 1 x, toFixed_of_nonneg 1 hx h21, abs_fixedScaled_one_sub_le hx⟩

/-- The three averages of a rawValue below 10^18 are below 10^21. -/
theorem averages_lt (r d : ℕ) (hd : 1 ≤ d) (hr : r < 10 ^ 18) :
    dailyValue r d < 10 ^ 21 ∧ weeklyValue r d < 10 ^ 21 ∧ monthlyValue r d < 10 ^ 21 := by
  have h := numDiv_le_two_mul r d hd
  have h0 := numDiv_nonneg r d
  have hrq : (r : ℚ) < 10 ^ 18 := by exact_mod_cast hr
  have h7 := fl_le_two_mul (mul_nonneg h0 (by norm_num : (0 : ℚ) ≤ 7))
  have h30 := fl_le_two_mul (mul_nonneg h0 (by norm_num : (0 : ℚ) ≤ 30))
  refine ⟨?_, ?_, ?_⟩
  · unfold dailyValue
    linarith
  · unfold weeklyValue numMul
    linarith
  · unfold monthlyValue numMul
    linarith

theorem close_of_rel {x : ℚ} (n d p : ℕ) (hd : 0 < d) (hp : 0 < p)
    (h : |x - (n : ℚ) / d| * p ≤ (n : ℚ) / d) (hn : 20 * n < p) :
    |x - (n : ℚ) / d| < 1 / (20 * d) := by
  have hdq : (0 : ℚ) < d := by exact_mod_cast hd
  have hpq : (0 : ℚ) < p := by exact_mod_cast hp
  have hnq : (20 : ℚ) * n < p := by exact_mod_cast hn
  have h1 : (n : ℚ) / d < 1 / (20 * d) * p := by
    rw [div_lt_iff₀ hdq]
    have : 1 / (20 * (d : ℚ)) * p * d = p / 20 := by
      field_simp
      ring
    rw [this]
    linarith
  exact lt_of_mul_lt_mul_right (lt_of_le_of_lt h h1) hpq.le

theorem half_le_fl {q : ℚ} (hq : 0 ≤ q) : q / 2 ≤ fl q := by
  have h1 := abs_fl_sub_le_rel q
  rw [abs_of_nonneg hq] at h1
  have h2 := neg_abs_le (fl q - q)
  have h3 := abs_nonneg (fl q - q)
  have h53 : (2 : ℚ) ≤ 2 ^ 53 := by norm_num
  nlinarith

theorem averages_range (r d : ℕ) (p : ℚ) (hp : 0 < p) (hd : 1 ≤ d) (hr : (r : ℚ) < p)
    (hdp : (d : ℚ) < p) :
    (dailyValue r d < 16777216 * p ∧ weeklyValue r d < 16777216 * p ∧
      monthlyValue r d < 16777216 * p) ∧
    (r = 0 ∨ (1 / (4194304 * p) ≤ dailyValue r d ∧ 1 / (4194304 * p) ≤ weeklyValue r d ∧
      1 / (4194304 * p) ≤ monthlyValue r d)) := by
  have h := numDiv_le_two_mul r d hd
  have h0 := numDiv_nonneg r d
  have hd0 : (0 : ℚ) < d := by exact_mod_cast hd
  have h7 := fl_le_two_mul (mul_nonneg h0 (by norm_num : (0 : ℚ) ≤ 7))
  have h30 := fl_le_two_mul (mul_nonneg h0 (by norm_num : (0 : ℚ) ≤ 30))
  refine ⟨⟨?_, ?_, ?_⟩, ?_⟩
  · unfold dailyValue
    linarith
  · unfold weeklyValue numMul
    linarith
  · unfold monthlyValue numMul
    linarith
  · rcases Nat.eq_zero_or_pos r with hr0 | hr0
    · exact Or.inl hr0
    · right
      have hr1 : (1 : ℚ) ≤ r := by exact_mod_cast hr0
      have hq : (1 : ℚ) / p ≤ (r : ℚ) / d := by
        rw [div_le_div_iff₀ hp hd0]
        nlinarith
      have g := half_le_fl (by positivity : (0 : ℚ) ≤ (r : ℚ) / d)
      have g7 := half_le_fl (mul_nonneg h0 (by norm_num : (0 : ℚ) ≤ 7))
      have g30 := half_le_fl (mul_nonneg h0 (by norm_num : (0 : ℚ) ≤ 30))
      have e2 : (1 : ℚ) / (4194304 * p) = 1 / p / 4194304 := by
        field_simp
        ring
      have hpos : (0 : ℚ) < 1 / p := by positivity
      unfold numDiv at h0 g7 g30
      refine ⟨?_, ?_, ?_⟩
      · unfold dailyValue numDiv
        rw [e2]
        linarith
      · unfold weeklyValue numMul numDiv
        rw [e2]
        linarith
      · unfold monthlyValue numMul numDiv
        rw [e2]
        linarith

/-- Below 2^1000 the three averages stay in the range of the finite Numbers: each is
below 2^1024, and at least 2^-1022, the least normal Number, unless the rawValue is 0. -/
theorem averages_finite (r d : ℕ) (hd : 1 ≤ d) (hr : (r : ℚ) < 2 ^ 1000)
    (hd1000 : (d : ℚ) < 2 ^ 1000) :
    (dailyValue r d < 2 ^ 1024 ∧ weeklyValue r d < 2 ^ 1024 ∧ monthlyValue r d < 2 ^ 1024) ∧
    (r = 0 ∨ (1 / 2 ^ 1022 ≤ dailyValue r d ∧ 1 / 2 ^ 1022 ≤ weeklyValue r d ∧
      1 / 2 ^ 1022 ≤ monthlyValue r d)) := by
  have e1 : (2 : ℚ) ^ 1024 = 16777216 * 2 ^ 1000 := by
    rw [show (1024 : ℕ) = 24 + 1000 from rfl, pow_add]
    norm_num
  have e2 : (2 : ℚ) ^ 1022 = 4194304 * 2 ^ 1000 := by
    rw [show (1022 : ℕ) = 22 + 1000 from rfl, pow_add]
    norm_num
  rw [e1, e2]
  exact averages_range r d (2 ^ 1000) (by positivity) hd hr hd1000

/-- C10 (as stated, refuted): with rawValue 51 and daysElapsed 20 the daily quantity
is 51/20 = 2.55, which rounded to one decimal place is 2.6 (a half going up, and equally
a half going to the even digit), but the value displayed is "2.5"; with rawValue 1 and
daysElapsed 3 the daily average before rounding is not 1/3, nor are the weekly and
monthly averages exactly 7 and 30 times the daily one; and with rawValue
6000000000000002 and daysElapsed 3 the value displayed, 2000000000000000.8, is not a
one-decimal value nearest to the quotient 2000000000000000.66...; and with rawValue 10^21
and daysElapsed 1 the value displayed is "1e+21", not a one-decimal numeral. -/
theorem averages_rounding_counterexample :
    dailyAvg 51 20 = "2.5" ∧
    roundTenthsHalfUp 51 20 = 26 ∧ roundTenthsHalfEven 51 20 = 26 ∧
    fixedDigits 1 26 = "2.6" ∧
    dailyAvg 51 20 ≠ fixedDigits 1 (roundTenthsHalfUp 51 20) ∧
    dailyValue 1 3 ≠ 1 / 3 ∧
    weeklyValue 1 3 ≠ 7 * dailyValue 1 3 ∧
    monthlyValue 1 3 ≠ 30 * dailyValue 1 3 ∧
    fl 6000000000000002 = 6000000000000002 ∧
    dailyAvg 6000000000000002 3 = fixedDigits 1 20000000000000008 ∧
    fixedDigits 1 20000000000000008 = "2000000000000000.8" ∧
    ¬ |(20000000000000008 : ℚ) / 10 - (6000000000000002 : ℚ) / 3| ≤ 1 / 20 ∧
    dailyAvg (10 ^ 21) 1 = "1e+21" := by
  decide!

/-- C10 (amended): for every rawValue `r ≥ 0` and daysElapsed `d ≥ 1`, both below
2^1000, the three averages before decimal rounding are finite Numbers in the normal range
(below 2^1024, and 0 or at least 2^-1022), the binary64 results of `r / d`, of that times
7 and of that times 30, equal to `r/d`, `7 r/d` and `30 r/d` up to a relative error of at
most 2^-51 (so weekly = 7 * daily and monthly = 30 * daily hold up to that rounding); each
displayed value whose average is below 10^21 is the one-decimal numeral nearest to that
average; and for `r < 10^12` each displayed value is a one-decimal value nearest to the
exact `r/d`, `7 r/d`, `30 r/d`, the half-up rounding of it unless it lies exactly halfway
between two one-decimal values. -/
theorem averages_rounding (r d : ℕ) (hd : 1 ≤ d) (hr : (r : ℚ) < 2 ^ 1000)
    (hd1000 : (d : ℚ) < 2 ^ 1000) :
    ((dailyValue r d < 2 ^ 1024 ∧ weeklyValue r d < 2 ^ 1024 ∧
        monthlyValue r d < 2 ^ 1024) ∧
      (r = 0 ∨ (1 / 2 ^ 1022 ≤ dailyValue r d ∧ 1 / 2 ^ 1022 ≤ weeklyValue r d ∧
        1 / 2 ^ 1022 ≤ monthlyValue r d))) ∧
    (|dailyValue r d - (r : ℚ) / d| * 2 ^ 51 ≤ (r : ℚ) / d ∧
      |weeklyValue r d - 7 * ((r : ℚ) / d)| * 2 ^ 51 ≤ 7 * ((r : ℚ) / d) ∧
      |monthlyValue r d - 30 * ((r : ℚ) / d)| * 2 ^ 51 ≤ 30 * ((r : ℚ) / d)) ∧
    ((dailyValue r d < 10 ^ 21 → ∃ k : ℕ, dailyAvg r d = fixedDigits 1 k ∧
        |(k : ℚ) / 10 - dailyValue r d| ≤ 1 / 20) ∧
      (weeklyValue r d < 10 ^ 21 → ∃ k : ℕ, weeklyAvg r d = fixedDigits 1 k ∧
        |(k : ℚ) / 10 - weeklyValue r d| ≤ 1 / 20) ∧
      (monthlyValue r d < 10 ^ 21 → ∃ k : ℕ, monthlyAvg r d = fixedDigits 1 k ∧
        |(k : ℚ) / 10 - monthlyValue r d| ≤ 1 / 20)) ∧
    (r < 10 ^ 12 →
      ShowsTenths (dailyAvg r d) r d "" ∧ ShowsTenths (weeklyAvg r d) (7 * r) d "" ∧
      ShowsTenths (monthlyAvg r d) (30 * r) d "") := by
  refine ⟨averages_finite r d hd hr hd1000, ?_⟩
  clear hr hd1000
  have hd0 : 0 < d := hd
  have hq : (0 : ℚ) ≤ (r : ℚ) / d := by positivity
  have e1 := abs_dailyValue_sub_le r d
  have e7 : |weeklyValue r d - 7 * ((r : ℚ) / d)| * 2 ^ 51 ≤ 7 * ((r : ℚ) / d) :=
    abs_numMul_dailyValue_sub_le r d 7 (by norm_num)
  have e30 : |monthlyValue r d - 30 * ((r : ℚ) / d)| * 2 ^ 51 ≤ 30 * ((r : ℚ) / d) :=
    abs_numMul_dailyValue_sub_le r d 30 (by norm_num)
  refine ⟨⟨?_, e7, e30⟩, ⟨?_, ?_, ?_⟩, ?_⟩
  · have h := abs_nonneg (dailyValue r d - (r : ℚ) / d)
    have e53 : (2 : ℚ) ^ 53 = 4 * 2 ^ 51 := by norm_num
    rw [e53] at e1
    nlinarith
  · exact fun h21 => toFixed_one_near (dailyValue_nonneg r d) h21
  · exact fun h21 => toFixed_one_near (weeklyValue_nonneg r d) h21
  · exact fun h21 => toFixed_one_near (monthlyValue_nonneg r d) h21
  · intro hr
    have hr18 : r < 10 ^ 18 := lt_trans hr (by norm_num)
    have hr1 : 20 * r < 2 ^ 53 := by
      have : (10 : ℕ) ^ 12 = 1000000000000 := by norm_num
      have : (2 : ℕ) ^ 53 = 9007199254740992 := by norm_num
      omega
    have hr7 : 20 * (7 * r) < 2 ^ 51 := by
      have : (10 : ℕ) ^ 12 = 1000000000000 := by norm_num
      have : (2 : ℕ) ^ 51 = 2251799813685248 := by norm_num
      omega
    have hr30 : 20 * (30 * r) < 2 ^ 51 := by
      have : (10 : ℕ) ^ 12 = 1000000000000 := by norm_num
      have : (2 : ℕ) ^ 51 = 2251799813685248 := by norm_num
      omega
    refine ⟨?_, ?_, ?_⟩
    · apply showsTenths_of_close (dailyValue_nonneg r d) (averages_lt r d hd hr18).1 r d hd0
      apply close_of_rel r d (2 ^ 53) hd0 (by positivity) _ hr1
      exact_mod_cast e1
    · apply showsTenths_of_close (weeklyValue_nonneg r d) (averages_lt r d hd hr18).2.1
        (7 * r) d hd0
      apply close_of_rel (7 * r) d (2 ^ 51) hd0 (by positivity) _ hr7
      have : (((7 * r : ℕ) : ℚ)) / d = 7 * ((r : ℚ) / d) := by
        push_cast
        ring
      rw [this]
      exact_mod_cast e7
    · apply showsTenths_of_close (monthlyValue_nonneg r d) (averages_lt r d hd hr18).2.2
        (30 * r) d hd0
      apply close_of_rel (30 * r) d (2 ^ 51) hd0 (by positivity) _ hr30
      have : (((30 * r : ℕ) : ℚ)) / d = 30 * ((r : ℚ) / d) := by
        push_cast
        ring
      rw [this]
      exact_mod_cast e30

/-- Witness for C10 (amended): rawValue 51 over 20 days. -/
theorem averages_rounding_witness :
    ((1 : ℕ) ≤ 20 ∧ ((51 : ℕ) : ℚ) < 2 ^ 1000 ∧ ((20 : ℕ) : ℚ) < 2 ^ 1000 ∧
      dailyValue 51 20 < 10 ^ 21 ∧ (51 : ℕ) < 10 ^ 12) ∧
    (∃ k : ℕ, dailyAvg 51 20 = fixedDigits 1 k ∧
      |(k : ℚ) / 10 - dailyValue 51 20| ≤ 1 / 20) ∧
    ShowsTenths (dailyAvg 51 20) 51 20 "" ∧ ShowsTenths (weeklyAvg 51 20) (7 * 51) 20 "" ∧
    ShowsTenths (monthlyAvg 51 20) (30 * 51) 20 "" :=
  ⟨⟨by decide, by norm_num, by norm_num, by decide!, by decide⟩,
    (averages_rounding 51 20 (by decide) (by norm_num) (by norm_num)).2.2.1.1 (by decide!),
    (averages_rounding 51 20 (by decide) (by norm_num) (by norm_num)).2.2.2 (by decide)⟩


/-! ## Reading decimal numerals -/

theorem toNat_of_decDigit {c : Char} (h : '0' ≤ c ∧ c ≤ '9') :
    48 ≤ c.toNat ∧ c.toNat ≤ 57 := by
  obtain ⟨h1, h2⟩ := h
  have e1 : ('0' : Char).toNat = 48 := rfl
  have e2 : ('9' : Char).toNat = 57 := rfl
  have h1' : ('0' : Char).toNat ≤ c.toNat := h1
  have h2' : c.toNat ≤ ('9' : Char).toNat := h2
  omega

theorem decDigit_of_toNat {c : Char} (h : 48 ≤ c.toNat ∧ c.toNat ≤ 57) :
    '0' ≤ c ∧ c ≤ '9' := by
  obtain ⟨h1, h2⟩ := h
  have e1 : ('0' : Char).toNat = 48 := rfl
  have e2 : ('9' : Char).toNat = 57 := rfl
  constructor
  · show ('0' : Char).toNat ≤ c.toNat
    omega
  · show c.toNat ≤ ('9' : Char).toNat
    omega

theorem digitOf_of_decDigit {c : Char} (h : '0' ≤ c ∧ c ≤ '9') :
    digitOf c = some (c.toNat - 48) := by
  unfold digitOf
  rw [if_pos h]

theorem isRadixDigit_ten_of_decDigit {c : Char} (h : '0' ≤ c ∧ c ≤ '9') :
    isRadixDigit 10 c = true := by
  have := toNat_of_decDigit h
  unfold isRadixDigit
  rw [digitOf_of_decDigit h]
  simp only [decide_eq_true_eq]
  omega

theorem not_isStrWhiteSpace_of_decDigit {c : Char} (h : '0' ≤ c ∧ c ≤ '9') :
    isStrWhiteSpace c = false := by
  have := toNat_of_decDigit h
  unfold isStrWhiteSpace
  simp
  omega

/-- On a nonempty run of decimal digits `parseInt` returns the Number nearest to the
integer the digits denote. -/
theorem parseIntChars_decDigits (ds : List Char) (hne : ds ≠ [])
    (hall : ∀ c ∈ ds, '0' ≤ c ∧ c ≤ '9') :
    parseIntChars 0 ds = some (fl (digitsValue 10 ds)) := by
  obtain ⟨c, t, rfl⟩ := List.exists_cons_of_ne_nil hne
  have hc := hall c (List.mem_cons_self c t)
  have hcn := toNat_of_decDigit hc
  have hdrop : (c :: t).dropWhile isStrWhiteSpace = c :: t := by
    rw [List.dropWhile_cons, not_isStrWhiteSpace_of_decDigit hc]
    rfl
  have hminus : c ≠ '-' := by
    intro h
    rw [h] at hcn
    have : ('-' : Char).toNat = 45 := rfl
    omega
  have hplus : c ≠ '+' := by
    intro h
    rw [h] at hcn
    have : ('+' : Char).toNat = 43 := rfl
    omega
  have hsign : stripSign (c :: t) = (false, c :: t) := by
    unfold stripSign
    simp only
    rw [if_neg hminus, if_neg hplus]
  have hhex : stripHexPrefix (c :: t) = none := by
    cases t with
    | nil => rfl
    | cons c1 t1 =>
      have hc1 := toNat_of_decDigit (hall c1 (by simp))
      unfold stripHexPrefix
      simp only
      rw [if_neg]
      rintro ⟨_, h | h⟩
      · rw [h] at hc1
        have : ('x' : Char).toNat = 120 := rfl
        omega
      · rw [h] at hc1
        have : ('X' : Char).toNat = 88 := rfl
        omega
  have htake : (c :: t).takeWhile (isRadixDigit 10) = c :: t := by
    rw [List.takeWhile_eq_self_iff]
    intro x hx
    exact isRadixDigit_ten_of_decDigit (hall x hx)
  unfold parseIntChars
  rw [if_neg (by simp), hdrop, hsign]
  simp only [true_or, if_true, hhex, Option.isSome_none, Option.getD_none]
  simp only [Bool.false_eq_true, if_false, htake]
  simp

/-- The digits of a decimal numeral denote the number, whatever stands before them:
reading `toDigitsCore` after the digits `n` gives the same as reading `ds` after the
number `n`. -/
theorem foldl_toDigitsCore (fuel : ℕ) : ∀ (n : ℕ) (ds : List Char), n < fuel →
    (Nat.toDigitsCore 10 fuel n ds).foldl (fun acc c => 10 * acc + (digitOf c).getD 0) 0 =
      ds.foldl (fun acc c => 10 * acc + (digitOf c).getD 0) n := by
  induction fuel with
  | zero => intro n ds h; omega
  | succ fuel ih =>
    intro n ds h
    have hd : (digitOf (Nat.digitChar (n % 10))).getD 0 = n % 10 := by
      have hlt : n % 10 < 10 := Nat.mod_lt _ (by norm_num)
      generalize n % 10 = k at hlt
      interval_cases k <;> rfl
    unfold Nat.toDigitsCore
    simp only
    split_ifs with h0
    · rw [List.foldl_cons, hd]
      congr 1
      omega
    · have hlt : n / 10 < fuel := by omega
      rw [ih (n / 10) _ hlt, List.foldl_cons, hd]
      congr 1
      omega

theorem toDigitsCore_decDigits (fuel : ℕ) : ∀ (n : ℕ) (ds : List Char),
    (∀ c ∈ ds, '0' ≤ c ∧ c ≤ '9') →
    ∀ c ∈ Nat.toDigitsCore 10 fuel n ds, '0' ≤ c ∧ c ≤ '9' := by
  induction fuel with
  | zero => intro n ds h; exact h
  | succ fuel ih =>
    intro n ds h
    have hd : '0' ≤ Nat.digitChar (n % 10) ∧ Nat.digitChar (n % 10) ≤ '9' := by
      have hlt : n % 10 < 10 := Nat.mod_lt _ (by norm_num)
      generalize n % 10 = k at hlt
      interval_cases k <;> decide
    have hcons : ∀ c ∈ Nat.digitChar (n % 10) :: ds, '0' ≤ c ∧ c ≤ '9' := by
      intro c hc
      rcases List.mem_cons.mp hc with rfl | hc
      · exact hd
      · exact h c hc
    unfold Nat.toDigitsCore
    simp only
    split_ifs with h0
    · exact hcons
    · exact ih (n / 10) _ hcons

theorem toDigitsCore_ne_nil (fuel : ℕ) : ∀ (n : ℕ) (ds : List Char),
    Nat.toDigitsCore 10 (fuel + 1) n ds ≠ [] := by
  induction fuel with
  | zero =>
    intro n ds
    unfold Nat.toDigitsCore
    simp only
    split_ifs <;> simp [Nat.toDigitsCore]
  | succ fuel ih =>
    intro n ds
    unfold Nat.toDigitsCore
    simp only
    split_ifs
    · simp
    · exact ih _ _

theorem toList_natToString (n : ℕ) : (natToString n).toList = Nat.toDigits 10 n := rfl

theorem digitsValue_natToString (n : ℕ) : digitsValue 10 (natToString n).toList = n := by
  rw [toList_natToString]
  unfold digitsValue Nat.toDigits
  rw [foldl_toDigitsCore (n + 1) n [] (by omega)]
  rfl

/-- Reading back the decimal numeral of a natural number gives the Number nearest to
it. -/
theorem parseInt_natToString (n : ℕ) : parseInt (natToString n) = some (fl n) := by
  unfold parseInt
  rw [parseIntChars_decDigits _ (by
      rw [toList_natToString]
      exact toDigitsCore_ne_nil n n [])
    (by
      rw [toList_natToString]
      exact toDigitsCore_decDigits (n + 1) n [] (by simp)),
    digitsValue_natToString]

/-! ## The displayed averages against each other -/

theorem dailyValue_le (r d : ℕ) : dailyValue r d ≤ 2 * ((r : ℚ) / d) := by
  have h1 := abs_dailyValue_sub_le r d
  have h2 := le_abs_self (dailyValue r d - (r : ℚ) / d)
  have h3 := abs_nonneg (dailyValue r d - (r : ℚ) / d)
  have hq : (0 : ℚ) ≤ (r : ℚ) / d := by positivity
  have h53 : (1 : ℚ) ≤ 2 ^ 53 := by norm_num
  nlinarith

theorem dailyValue_lt (r d : ℕ) (hr : r < 10 ^ 12) (hd : 1 ≤ d) :
    dailyValue r d < 2 * 10 ^ 12 := by
  have h := dailyValue_le r d
  have hdq : (1 : ℚ) ≤ d := by exact_mod_cast hd
  have hrq : (r : ℚ) < 10 ^ 12 := by exact_mod_cast hr
  have h2 : (r : ℚ) / d ≤ r := div_le_self (by positivity) hdq
  linarith

/-- The tenths displayed for a multiple `c` of the daily average lie within
`c / 2 + 1 / 2` plus the rounding of the product of `c` times the tenths displayed for
the daily average. -/
theorem abs_tenths_mul_sub_lt (r d : ℕ) (hr : r < 10 ^ 12) (hd : 1 ≤ d) (c : ℚ)
    (hc0 : 0 < c) (hc : c ≤ 30) :
    |c * (fixedScaled 1 (dailyValue r d) : ℚ) -
        (fixedScaled 1 (numMul (numDiv r d) c) : ℚ)| < c / 2 + 1 / 2 + 1 / 10 := by
  have hx0 := dailyValue_nonneg r d
  have hxlt := dailyValue_lt r d hr hd
  have hy0 : 0 ≤ numMul (numDiv r d) c := fl_nonneg (mul_nonneg (numDiv_nonneg r d) hc0.le)
  have hk1 := fixedScaled_cast 1 hx0
  have hk2 := fixedScaled_cast 1 hy0
  have a1 := Int.floor_le (dailyValue r d * 10 ^ 1 + 1 / 2)
  have a2 := Int.lt_floor_add_one (dailyValue r d * 10 ^ 1 + 1 / 2)
  have b1 := Int.floor_le (numMul (numDiv r d) c * 10 ^ 1 + 1 / 2)
  have b2 := Int.lt_floor_add_one (numMul (numDiv r d) c * 10 ^ 1 + 1 / 2)
  have herr := abs_fl_sub_le_rel (numDiv r d * c)
  rw [abs_of_nonneg (mul_nonneg (numDiv_nonneg r d) hc0.le)] at herr
  have hxd : dailyValue r d = numDiv r d := rfl
  have herr2 : |numMul (numDiv r d) c - numDiv r d * c| < 1 / 100 := by
    have h1 : |fl (numDiv r d * c) - numDiv r d * c| * 2 ^ 53 < 1 / 100 * 2 ^ 53 := by
      calc _ ≤ numDiv r d * c := herr
        _ ≤ numDiv r d * 30 := mul_le_mul_of_nonneg_left hc (numDiv_nonneg r d)
        _ < 2 * 10 ^ 12 * 30 := by
          rw [← hxd]
          linarith
        _ < 1 / 100 * 2 ^ 53 := by norm_num
    exact lt_of_mul_lt_mul_right h1 (by positivity)
  rw [abs_lt] at herr2
  rw [hk1, hk2, abs_lt]
  have m1 := mul_le_mul_of_nonneg_left a1 hc0.le
  have m2 := mul_lt_mul_of_pos_left a2 hc0
  rw [hxd] at m1 m2 ⊢
  have hc2 : c / 2 ≤ 15 := by linarith
  constructor
  · linarith [herr2.1, herr2.2]
  · linarith [herr2.1, herr2.2]

/-- C11 (as stated, refuted): with rawValue 1 and daysElapsed 3 the displayed values are
0.3, 2.3 and 10.0, so 7 * 0.3 = 2.1 differs from the weekly value by 0.2 and
30 * 0.3 = 9.0 from the monthly value by 1.0; with 3 over 20 days the values 0.1 and 1.1
differ by 0.4 after the multiplication, with 1 over 4 days the values 0.3 and 7.5 by
1.5; and with rawValue 1286742750677285 over 1 day the weekly value differs from 7
times the daily value by 1.0. -/
theorem displayed_averages_gap_counterexample :
    dailyAvg 1 3 = "0.3" ∧ weeklyAvg 1 3 = "2.3" ∧ monthlyAvg 1 3 = "10.0" ∧
    dailyAvg 1 3 = fixedDigits 1 3 ∧ weeklyAvg 1 3 = fixedDigits 1 23 ∧
    monthlyAvg 1 3 = fixedDigits 1 100 ∧
    ¬ |7 * ((3 : ℚ) / 10) - 23 / 10| < 1 / 10 ∧
    ¬ |30 * ((3 : ℚ) / 10) - 100 / 10| < 1 / 10 ∧
    dailyAvg 3 20 = fixedDigits 1 1 ∧ weeklyAvg 3 20 = fixedDigits 1 11 ∧
    |7 * ((1 : ℚ) / 10) - 11 / 10| = 4 / 10 ∧
    dailyAvg 1 4 = fixedDigits 1 3 ∧ monthlyAvg 1 4 = fixedDigits 1 75 ∧
    |30 * ((3 : ℚ) / 10) - 75 / 10| = 15 / 10 ∧
    dailyAvg 1286742750677285 1 = fixedDigits 1 12867427506772850 ∧
    weeklyAvg 1286742750677285 1 = fixedDigits 1 90071992547409960 ∧
    |7 * ((12867427506772850 : ℚ) / 10) - 90071992547409960 / 10| = 1 := by
  decide!

/-- C11 (amended): for every rawValue `r` with `0 ≤ r < 10^12` and daysElapsed `d ≥ 1`
the values displayed (the tenths `k1`, `k7`, `k30` printed by `toFixed(1)`) satisfy
`|7 * dailyAvg - weeklyAvg| ≤ 0.4` and `|30 * dailyAvg - monthlyAvg| ≤ 1.5`. -/
theorem displayed_averages_gap (r d : ℕ) (hr : r < 10 ^ 12) (hd : 1 ≤ d) :
    ∃ k1 k7 k30 : ℕ,
      dailyAvg r d = fixedDigits 1 k1 ∧ weeklyAvg r d = fixedDigits 1 k7 ∧
      monthlyAvg r d = fixedDigits 1 k30 ∧
      k1 = fixedScaled 1 (dailyValue r d) ∧ k7 = fixedScaled 1 (weeklyValue r d) ∧
      k30 = fixedScaled 1 (monthlyValue r d) ∧
      |7 * ((k1 : ℚ) / 10) - (k7 : ℚ) / 10| ≤ 4 / 10 ∧
      |30 * ((k1 : ℚ) / 10) - (k30 : ℚ) / 10| ≤ 15 / 10 := by
  have h21 := averages_lt r d hd (lt_trans hr (by norm_num))
  refine ⟨_, _, _, toFixed_of_nonneg 1 (dailyValue_nonneg r d) h21.1,
    toFixed_of_nonneg 1 (weeklyValue_nonneg r d) h21.2.1,
    toFixed_of_nonneg 1 (monthlyValue_nonneg r d) h21.2.2, rfl, rfl, rfl, ?_, ?_⟩
  · have h := abs_tenths_mul_sub_lt r d hr hd 7 (by norm_num) (by norm_num)
    have hz : |7 * (fixedScaled 1 (dailyValue r d) : ℤ) -
        (fixedScaled 1 (numMul (numDiv r d) 7) : ℤ)| < 5 := by
      have : ((|7 * (fixedScaled 1 (dailyValue r d) : ℤ) -
          (fixedScaled 1 (numMul (numDiv r d) 7) : ℤ)| : ℤ) : ℚ) < 5 := by
        push_cast
        linarith
      exact_mod_cast this
    have hz4 : |7 * (fixedScaled 1 (dailyValue r d) : ℤ) -
        (fixedScaled 1 (numMul (numDiv r d) 7) : ℤ)| ≤ 4 := by omega
    have hq : |7 * (fixedScaled 1 (dailyValue r d) : ℚ) -
        (fixedScaled 1 (numMul (numDiv r d) 7) : ℚ)| ≤ 4 := by exact_mod_cast hz4
    have e : 7 * ((fixedScaled 1 (dailyValue r d) : ℚ) / 10) -
        (fixedScaled 1 (weeklyValue r d) : ℚ) / 10 =
        (7 * (fixedScaled 1 (dailyValue r d) : ℚ) -
          (fixedScaled 1 (numMul (numDiv r d) 7) : ℚ)) / 10 := by
      unfold weeklyValue
      ring
    rw [e, abs_div, abs_of_pos (by norm_num : (0 : ℚ) < 10)]
    linarith
  · have h := abs_tenths_mul_sub_lt r d hr hd 30 (by norm_num) (by norm_num)
    have hz : |30 * (fixedScaled 1 (dailyValue r d) : ℤ) -
        (fixedScaled 1 (numMul (numDiv r d) 30) : ℤ)| < 16 := by
      have : ((|30 * (fixedScaled 1 (dailyValue r d) : ℤ) -
          (fixedScaled 1 (numMul (numDiv r d) 30) : ℤ)| : ℤ) : ℚ) < 16 := by
        push_cast
        linarith
      exact_mod_cast this
    have hz4 : |30 * (fixedScaled 1 (dailyValue r d) : ℤ) -
        (fixedScaled 1 (numMul (numDiv r d) 30) : ℤ)| ≤ 15 := by omega
    have hq : |30 * (fixedScaled 1 (dailyValue r d) : ℚ) -
        (fixedScaled 1 (numMul (numDiv r d) 30) : ℚ)| ≤ 15 := by exact_mod_cast hz4
    have e : 30 * ((fixedScaled 1 (dailyValue r d) : ℚ) / 10) -
        (fixedScaled 1 (monthlyValue r d) : ℚ) / 10 =
        (30 * (fixedScaled 1 (dailyValue r d) : ℚ) -
          (fixedScaled 1 (numMul (numDiv r d) 30) : ℚ)) / 10 := by
      unfold monthlyValue
      ring
    rw [e, abs_div, abs_of_pos (by norm_num : (0 : ℚ) < 10)]
    linarith

/-- Witness for C11 (amended): rawValue 3 over 20 days, where the weekly bound is
reached. -/
theorem displayed_averages_gap_witness :
    ((3 : ℕ) < 10 ^ 12 ∧ (1 : ℕ) ≤ 20) ∧
    ∃ k1 k7 k30 : ℕ,
      dailyAvg 3 20 = fixedDigits 1 k1 ∧ weeklyAvg 3 20 = fixedDigits 1 k7 ∧
      monthlyAvg 3 20 = fixedDigits 1 k30 ∧
      k1 = fixedScaled 1 (dailyValue 3 20) ∧ k7 = fixedScaled 1 (weeklyValue 3 20) ∧
      k30 = fixedScaled 1 (monthlyValue 3 20) ∧
      |7 * ((k1 : ℚ) / 10) - (k7 : ℚ) / 10| ≤ 4 / 10 ∧
      |30 * ((k1 : ℚ) / 10) - (k30 : ℚ) / 10| ≤ 15 / 10 :=
  ⟨by decide, displayed_averages_gap 3 20 (by decide) (by decide)⟩

/-! ## The counter text -/

theorem stripNonDigits_decDigits (text : String) :
    ∀ c ∈ (stripNonDigits text).toList, '0' ≤ c ∧ c ≤ '9' := by
  intro c hc
  have hc2 : c ∈ text.toList.filter (fun c => decide ('0' ≤ c ∧ c ≤ '9')) := hc
  simpa using (List.mem_filter.mp hc2).2

/-- The `rawValue` read from a counter text is the Number nearest to the integer that the
digit characters of the text denote; with no digit that integer is 0. -/
theorem rawValue_eq (text : String) :
    rawValue text = some (fl (digitsValue 10 (stripNonDigits text).toList)) := by
  unfold rawValue
  simp only
  by_cases h : stripNonDigits text = ""
  · rw [if_pos h, h]
    decide!
  · rw [if_neg h]
    unfold parseInt
    rw [parseIntChars_decDigits _ _ (stripNonDigits_decDigits text)]
    intro h0
    apply h
    have : stripNonDigits text = String.mk (stripNonDigits text).toList := rfl
    rw [this, h0]

/-- C12 (as stated, refuted): the digit characters of the counter text
"9007199254740993" denote the integer 9007199254740993, but the `rawValue` read from it
is 9007199254740992, the nearest Number. -/
theorem rawValue_digits_counterexample :
    digitsValue 10 (stripNonDigits "9007199254740993").toList = 9007199254740993 ∧
    rawValue "9007199254740993" = some 9007199254740992 ∧
    rawValue "9007199254740993" ≠ some 9007199254740993 := by
  decide!

/-- C12 (amended): for every displayed counter text whose digit characters, taken in
order with all other characters removed, denote an integer below 2^53, the `rawValue`
read by `showStatsTooltip` is that integer, and it is 0 when the text contains no digit;
for every text the reading yields a Number (never `NaN`) that is not negative. -/
theorem rawValue_digits (text : String) :
    (digitsValue 10 (stripNonDigits text).toList < 2 ^ 53 →
      rawValue text = some (digitsValue 10 (stripNonDigits text).toList : ℚ)) ∧
    (stripNonDigits text = "" → rawValue text = some 0) ∧
    (∃ v : ℚ, rawValue text = some v ∧ 0 ≤ v) := by
  refine ⟨?_, ?_, ?_⟩
  · intro h
    rw [rawValue_eq, fl_natCast _ h]
  · intro h
    rw [rawValue_eq, h]
    decide!
  · exact ⟨_, rawValue_eq text, fl_nonneg (by positivity)⟩

/-- Witness for C12 (amended): the texts "1,234" and "n/a". -/
theorem rawValue_digits_witness :
    (digitsValue 10 (stripNonDigits "1,234").toList < 2 ^ 53 ∧
      rawValue "1,234" = some (digitsValue 10 (stripNonDigits "1,234").toList : ℚ)) ∧
    (stripNonDigits "n/a" = "" ∧ rawValue "n/a" = some 0) :=
  ⟨⟨by decide, (rawValue_digits "1,234").1 (by decide)⟩,
   ⟨by decide, (rawValue_digits "n/a").2.1 (by decide)⟩⟩

/-! ## The application table -/

/-- C13 (code bug): "constructor" and "toString" are not among the seven application
identifiers, yet the detail used for them is not the generic fallback: the lookup
`appDetails[app]` finds the property inherited from `Object.prototype`, which is truthy,
so the fallback after `||` is skipped. -/
theorem detail_inherited_property :
    "constructor" ∉ ["sonarr", "radarr", "lidarr", "readarr", "whisparr", "eros", "swaparr"] ∧
    detail "hunted" "constructor" = Detail.inherited "constructor" ∧
    detail "hunted" "constructor" ≠ Detail.entry (fallbackDetail "hunted" "constructor") ∧
    "toString" ∉ ["sonarr", "radarr", "lidarr", "readarr", "whisparr", "eros", "swaparr"] ∧
    detail "upgraded" "toString" = Detail.inherited "toString" ∧
    detail "upgraded" "toString" ≠ Detail.entry (fallbackDetail "upgraded" "toString") := by
  decide

/-- The detail of an identifier that is not the name of an inherited property is the
fallback entry when the table has no entry for it, and the entry of the application for
each of the seven identifiers of the table. -/
theorem detail_of_own_or_absent (type app : String) :
    (app ∉ ["sonarr", "radarr", "lidarr", "readarr", "whisparr", "eros", "swaparr"] →
      app ∉ objectPrototypeKeys →
      detail type app = Detail.entry ⟨app, "#95a5a6",
        if type = "hunted" then "Searches triggered" else "Content upgraded"⟩) ∧
    (app ∈ ["sonarr", "radarr", "lidarr", "readarr", "whisparr", "eros", "swaparr"] →
      (∃ d : AppDetail, (app, d) ∈ appDetails type ∧ detail type app = Detail.entry d) ∧
      detail type app ≠ Detail.entry (fallbackDetail type app)) := by
  constructor
  · intro h1 h2
    simp only [List.mem_cons, List.mem_singleton, not_or, List.not_mem_nil, or_false] at h1
    obtain ⟨a1, a2, a3, a4, a5, a6, a7⟩ := h1
    unfold detail
    have b1 : (app == "sonarr") = false := by simpa using a1
    have b2 : (app == "radarr") = false := by simpa using a2
    have b3 : (app == "lidarr") = false := by simpa using a3
    have b4 : (app == "readarr") = false := by simpa using a4
    have b5 : (app == "whisparr") = false := by simpa using a5
    have b6 : (app == "eros") = false := by simpa using a6
    have b7 : (app == "swaparr") = false := by simpa using a7
    have hl : (appDetails type).lookup app = none := by
      simp only [appDetails, List.lookup, b1, b2, b3, b4, b5, b6, b7]
    rw [hl]
    simp only
    rw [if_neg h2]
    rfl
  · intro h
    simp only [List.mem_cons, List.mem_singleton, List.not_mem_nil, or_false] at h
    rcases h with rfl | rfl | rfl | rfl | rfl | rfl | rfl <;>
      simp [detail, appDetails, List.lookup, fallbackDetail]

/-! ## The duration displays -/

theorem parseInt_natToString_of_lt (s : ℕ) (h : s < 2 ^ 53) :
    parseInt (natToString s) = some (s : ℚ) := by
  rw [parseInt_natToString, fl_natCast s h]

/-! ## Decimal exponents and the order of rounded values -/

theorem log10Nat_spec (fuel : ℕ) : ∀ n : ℕ, 0 < n → n ≤ fuel →
    10 ^ log10Nat fuel n ≤ n ∧ n < 10 ^ (log10Nat fuel n + 1) := by
  induction fuel with
  | zero => intro n h0 h1; omega
  | succ fuel ih =>
    intro n h0 h1
    unfold log10Nat
    split_ifs with h
    · constructor
      · simpa using h0
      · simpa using h
    · have h2 : 0 < n / 10 := Nat.div_pos (by omega) (by norm_num)
      have h3 : n / 10 ≤ fuel := by omega
      obtain ⟨ih1, ih2⟩ := ih (n / 10) h2 h3
      constructor
      · rw [pow_succ]; omega
      · rw [pow_succ]; omega

theorem ten_zpow_log10Floor_le {q : ℚ} (hq : 0 < q) : (10 : ℚ) ^ log10Floor q ≤ q := by
  unfold log10Floor
  simp only
  split_ifs with h
  · exact h
  · have h1 := (log10Nat_spec _ _ (natAbs_num_pos hq) le_rfl).1
    have h2 := (log10Nat_spec _ _ q.den_pos le_rfl).2
    have h1q : (10 : ℚ) ^ log10Nat q.num.natAbs q.num.natAbs ≤ (q.num.natAbs : ℚ) := by
      exact_mod_cast h1
    have h2q : (q.den : ℚ) < 10 ^ (log10Nat q.den q.den + 1) := by exact_mod_cast h2
    have hq3 := rat_mul_den_eq_natAbs hq
    rw [zpow_sub₀ (by norm_num), zpow_sub₀ (by norm_num), zpow_natCast, zpow_natCast, zpow_one]
    rw [div_div]
    have hpos : (0 : ℚ) < 10 ^ log10Nat q.den q.den * 10 := by positivity
    rw [div_le_iff₀ hpos]
    calc (10 : ℚ) ^ log10Nat q.num.natAbs q.num.natAbs ≤ q.num.natAbs := h1q
      _ = q * q.den := hq3.symm
      _ ≤ q * (10 ^ log10Nat q.den q.den * 10) := by
        apply mul_le_mul_of_nonneg_left _ hq.le
        rw [pow_succ] at h2q
        exact h2q.le

theorem lt_ten_zpow_log10Floor {q : ℚ} (hq : 0 < q) :
    q < (10 : ℚ) ^ (log10Floor q + 1) := by
  unfold log10Floor
  simp only
  have h1 := (log10Nat_spec _ _ (natAbs_num_pos hq) le_rfl).2
  have h2 := (log10Nat_spec _ _ q.den_pos le_rfl).1
  have h1q : (q.num.natAbs : ℚ) < 10 ^ (log10Nat q.num.natAbs q.num.natAbs + 1) := by
    exact_mod_cast h1
  have h2q : (10 : ℚ) ^ log10Nat q.den q.den ≤ (q.den : ℚ) := by exact_mod_cast h2
  have hq3 := rat_mul_den_eq_natAbs hq
  split_ifs with h
  · rw [show ((log10Nat q.num.natAbs q.num.natAbs : ℤ) - (log10Nat q.den q.den : ℤ) + 1) =
      ((log10Nat q.num.natAbs q.num.natAbs + 1 : ℕ) : ℤ) - (log10Nat q.den q.den : ℤ) by
        push_cast; ring]
    rw [zpow_sub₀ (by norm_num), zpow_natCast, zpow_natCast]
    have hpos : (0 : ℚ) < 10 ^ log10Nat q.den q.den := by positivity
    rw [lt_div_iff₀ hpos]
    calc q * 10 ^ log10Nat q.den q.den ≤ q * q.den := by
          apply mul_le_mul_of_nonneg_left h2q hq.le
      _ = q.num.natAbs := hq3
      _ < _ := h1q
  · rw [sub_add_cancel]
    exact lt_of_not_ge h

/-- Rounding does not take an exact result below a Number that it is not below. -/
theorem le_fl_of_le {z q : ℚ} (hz : IsBinary64 z) (h : z ≤ q) : z ≤ fl q := by
  by_contra hlt
  push_neg at hlt
  have h1 := fl_nearest q z hz
  rw [abs_of_nonpos (by linarith), abs_of_nonpos (by linarith)] at h1
  linarith

/-- Rounding does not take an exact result above a Number that it is not above. -/
theorem fl_le_of_le {z q : ℚ} (hz : IsBinary64 z) (h : q ≤ z) : fl q ≤ z := by
  by_contra hlt
  push_neg at hlt
  have h1 := fl_nearest q z hz
  rw [abs_of_nonneg (by linarith), abs_of_nonneg (by linarith)] at h1
  linarith

theorem isBinary64_natCast (n : ℕ) (h : n ≤ 2 ^ 53) : IsBinary64 (n : ℚ) :=
  ⟨n, 0, by rw [abs_of_nonneg (by positivity)]; exact_mod_cast h, by simp⟩

theorem roundHalfEven_neg (y : ℚ) : roundHalfEven (-y) = -roundHalfEven y := by
  by_cases h0 : Int.fract y = 0
  · have hy : y = ((⌊y⌋ : ℤ) : ℚ) := by
      have := Int.floor_add_fract y
      rw [h0, add_zero] at this
      exact this.symm
    rw [hy, ← Int.cast_neg, roundHalfEven_intCast, roundHalfEven_intCast]
  · have hf1 : Int.fract (-y) = 1 - Int.fract y := Int.fract_neg h0
    have hpos : 0 < Int.fract y := lt_of_le_of_ne (Int.fract_nonneg y) (Ne.symm h0)
    have hfl : ⌊-y⌋ = -⌊y⌋ - 1 := by
      have e1 := Int.floor_add_fract y
      have e2 := Int.floor_add_fract (-y)
      rw [hf1] at e2
      have : ((⌊-y⌋ : ℤ) : ℚ) = ((-⌊y⌋ - 1 : ℤ) : ℚ) := by
        push_cast
        linarith
      exact_mod_cast this
    unfold roundHalfEven
    rw [hf1, hfl]
    by_cases a : Int.fract y < 1 / 2
    · rw [if_pos a, if_neg (by linarith), if_pos (by linarith)]
      ring
    · by_cases b : 1 / 2 < Int.fract y
      · rw [if_neg a, if_pos b, if_pos (by linarith)]
        ring
      · have hb : Int.fract y = 1 / 2 := le_antisymm (not_lt.mp b) (not_lt.mp a)
        rw [if_neg a, if_neg b, if_neg (by linarith), if_neg (by linarith)]
        by_cases c : ⌊y⌋ % 2 = 0
        · rw [if_pos c, if_neg (by omega)]
          ring
        · rw [if_neg c, if_pos (by omega)]
          ring

theorem fl_neg (q : ℚ) : fl (-q) = -fl q := by
  unfold fl
  by_cases h : q = 0
  · simp [h]
  · have hu : ulp (-q) = ulp q := by
      unfold ulp
      rw [abs_neg]
    rw [if_neg (neg_ne_zero.mpr h), if_neg h, hu, neg_div, roundHalfEven_neg]
    push_cast
    ring


/-! ## `Number::toString` on integers -/

/-- The search for the shortest digits stops at the first `k` that has a candidate. -/
theorem shortestDigits_spec (x : ℚ) (n0 : ℤ) : ∀ (fuel k k0 : ℕ), k ≤ k0 → k0 < k + fuel →
    (shortestCandidate x n0 k0).isSome = true →
    ∃ (k1 s : ℕ) (n : ℤ), k ≤ k1 ∧ k1 ≤ k0 ∧ shortestCandidate x n0 k1 = some (s, n) ∧
      shortestDigits x n0 fuel k = (s, n, k1) := by
  intro fuel
  induction fuel with
  | zero => intro k k0 h1 h2 _; omega
  | succ fuel ih =>
    intro k k0 h1 h2 h3
    unfold shortestDigits
    cases hc : shortestCandidate x n0 k with
    | some p =>
      obtain ⟨s, n⟩ := p
      exact ⟨k, s, n, le_rfl, h1, hc, rfl⟩
    | none =>
      have hne : k ≠ k0 := by
        intro e
        rw [e] at hc
        rw [hc] at h3
        simp at h3
      obtain ⟨k1, s, n, a1, a2, a3, a4⟩ := ih (k + 1) k0 (by omega) (by omega) h3
      exact ⟨k1, s, n, by omega, a2, a3, a4⟩

/-- A candidate is one of the two decimals next to `x`, and it rounds to `x`. -/
theorem shortestCandidate_eq {x : ℚ} {n0 : ℤ} {k s : ℕ} {n : ℤ}
    (h : shortestCandidate x n0 k = some (s, n)) :
    ∃ t : ℕ, fl ((t : ℚ) * (10 : ℚ) ^ (n0 - k)) = x ∧
      (s, n) = normalDigits n0 k t := by
  unfold shortestCandidate at h
  simp only at h
  by_cases a : fl (((⌊x / (10 : ℚ) ^ (n0 - k)⌋.toNat : ℕ) : ℚ) * (10 : ℚ) ^ (n0 - k)) = x
  · by_cases b : fl (((⌊x / (10 : ℚ) ^ (n0 - k)⌋.toNat + 1 : ℕ) : ℚ) * (10 : ℚ) ^ (n0 - k)) = x
    · simp only [a, b, decide_True, Bool.and_self, if_true] at h
      split_ifs at h
      · exact ⟨_, a, (Option.some.inj h).symm⟩
      · exact ⟨_, b, (Option.some.inj h).symm⟩
      · exact ⟨_, a, (Option.some.inj h).symm⟩
      · exact ⟨_, b, (Option.some.inj h).symm⟩
    · simp only [a, b, decide_True, decide_False, Bool.and_false, Bool.false_eq_true,
        if_false, if_true] at h
      exact ⟨_, a, (Option.some.inj h).symm⟩
  · by_cases b : fl (((⌊x / (10 : ℚ) ^ (n0 - k)⌋.toNat + 1 : ℕ) : ℚ) * (10 : ℚ) ^ (n0 - k)) = x
    · simp only [a, b, decide_True, decide_False, Bool.false_and, Bool.false_eq_true,
        if_false, if_true] at h
      exact ⟨_, b, (Option.some.inj h).symm⟩
    · simp only [a, b, decide_False, Bool.false_and, Bool.false_eq_true, if_false] at h
      exact absurd h (by simp)

/-- A candidate with at most as many digits as the integer part of `x` is an integer
`s * 10^j` that rounds to `x`, and its exponent `n = k + j` is at least `n0`. -/
theorem shortestCandidate_sound {x : ℚ} {n0 : ℤ} {k s : ℕ} {n : ℤ}
    (h : shortestCandidate x n0 k = some (s, n)) (hk1 : 1 ≤ k) (hk : (k : ℤ) ≤ n0) :
    ∃ j : ℕ, n = k + j ∧ fl (((s * 10 ^ j : ℕ) : ℚ)) = x ∧
      (n = n0 ∨ (n = n0 + 1 ∧ (((s * 10 ^ j : ℕ) : ℚ)) = (10 : ℚ) ^ n0)) := by
  obtain ⟨t, ht, hsn⟩ := shortestCandidate_eq h
  obtain ⟨i, hi⟩ : ∃ i : ℕ, n0 - k = i := ⟨(n0 - k).toNat, (Int.toNat_of_nonneg (by omega)).symm⟩
  rw [hi, zpow_natCast] at ht
  unfold normalDigits at hsn
  split_ifs at hsn with ht10
  · obtain ⟨hs, hn⟩ := Prod.mk.inj hsn
    have hval : ((s * 10 ^ (i + 1) : ℕ) : ℚ) = (t : ℚ) * 10 ^ i := by
      rw [hs, ht10]
      push_cast
      have : k = (k - 1) + 1 := by omega
      conv_rhs => rw [this]
      ring
    refine ⟨i + 1, by push_cast; omega, by rw [hval]; exact ht, Or.inr ⟨hn, ?_⟩⟩
    rw [hval, ht10]
    have hn0 : n0 = ((k + i : ℕ) : ℤ) := by push_cast; omega
    rw [hn0, zpow_natCast]
    push_cast
    ring
  · obtain ⟨hs, hn⟩ := Prod.mk.inj hsn
    refine ⟨i, by omega, ?_, Or.inl hn⟩
    rw [hs]
    push_cast
    exact ht

theorem fl_ten_pow_21 : fl ((10 : ℚ) ^ 21) = 10 ^ 21 := by decide!

/-- The text of a positive integer-valued Number below 10^21: the digits of some `s`
followed by `j` zeros, where `s * 10^j` rounds to the Number. -/
theorem positiveToString_natCast (m : ℕ) (h1 : 1 ≤ m) (h21 : m < 10 ^ 21)
    (hfl : fl (m : ℚ) = m) :
    ∃ s j : ℕ, positiveToString (m : ℚ) =
        String.mk ((natToString s).toList ++ List.replicate j '0') ∧
      fl (((s * 10 ^ j : ℕ) : ℚ)) = m := by
  have hpos : (0 : ℚ) < m := by exact_mod_cast h1
  have hlo := ten_zpow_log10Floor_le hpos
  have hhi := lt_ten_zpow_log10Floor hpos
  obtain ⟨e, he⟩ : ∃ e : ℕ, log10Floor (m : ℚ) = e := by
    refine ⟨(log10Floor (m : ℚ)).toNat, (Int.toNat_of_nonneg ?_).symm⟩
    by_contra hneg
    push_neg at hneg
    have : (10 : ℚ) ^ (log10Floor (m : ℚ) + 1) ≤ 10 ^ (0 : ℤ) :=
      zpow_le_zpow_right₀ (by norm_num) (by omega)
    have h1q : (1 : ℚ) ≤ m := by exact_mod_cast h1
    rw [zpow_zero] at this
    linarith
  rw [he, zpow_natCast] at hlo
  have he21 : e < 21 := by
    by_contra hge
    push_neg at hge
    have : (10 : ℚ) ^ 21 ≤ 10 ^ e := pow_le_pow_right₀ (by norm_num) hge
    have h21q : (m : ℚ) < 10 ^ 21 := by exact_mod_cast h21
    linarith
  -- the digits of `m` itself are a candidate
  have hcand : (shortestCandidate (m : ℚ) (log10Floor (m : ℚ) + 1) (e + 1)).isSome = true := by
    have hunit : ((log10Floor (m : ℚ) + 1 : ℤ) - ((e + 1 : ℕ) : ℤ)) = 0 := by
      rw [he]; push_cast; ring
    unfold shortestCandidate
    simp only [hunit, zpow_zero, div_one, mul_one, Int.floor_natCast, Int.toNat_natCast, hfl,
      decide_True, Bool.true_and]
    split_ifs <;> rfl
  obtain ⟨k1, s, n, a1, a2, a3, a4⟩ :=
    shortestDigits_spec (m : ℚ) (log10Floor (m : ℚ) + 1) 21 1 (e + 1) (by omega) (by omega) hcand
  obtain ⟨j, hj, hval, hn⟩ := shortestCandidate_sound a3 a1 (by rw [he]; exact_mod_cast a2)
  have hn21 : n ≤ 21 := by
    rcases hn with hn | ⟨hn, hten⟩
    · rw [hn, he]; omega
    · by_contra hgt
      have he20 : e = 20 := by rw [he] at hn; omega
      rw [he, he20] at hten
      rw [hten] at hval
      have h21q : (m : ℚ) < 10 ^ 21 := by exact_mod_cast h21
      have e1 : ((10 : ℚ) ^ (((20 : ℕ) : ℤ) + 1)) = 10 ^ 21 := by norm_num
      rw [e1, fl_ten_pow_21] at hval
      linarith
  refine ⟨s, j, ?_, hval⟩
  unfold positiveToString
  simp only [a4]
  unfold formatDigits
  rw [if_pos ⟨by omega, hn21⟩]
  congr 3
  omega

theorem digitsValue_append_zeros (ds : List Char) (j : ℕ) :
    digitsValue 10 (ds ++ List.replicate j '0') = digitsValue 10 ds * 10 ^ j := by
  unfold digitsValue
  rw [List.foldl_append]
  generalize List.foldl (fun acc c => 10 * acc + (digitOf c).getD 0) 0 ds = v
  induction j generalizing v with
  | zero => simp
  | succ j ih =>
    rw [List.replicate_succ, List.foldl_cons, ih]
    have : (digitOf '0').getD 0 = 0 := by decide
    rw [this, pow_succ]
    ring

theorem natToString_decDigits (n : ℕ) : ∀ c ∈ (natToString n).toList, '0' ≤ c ∧ c ≤ '9' := by
  rw [toList_natToString]
  exact toDigitsCore_decDigits _ _ _ (by simp)

theorem natToString_ne_nil (n : ℕ) : (natToString n).toList ≠ [] := by
  rw [toList_natToString]
  exact toDigitsCore_ne_nil _ _ _

/-- Reading back the text of a non-negative integer-valued Number below 10^21 gives the
Number. -/
theorem parseInt_numberToString (m : ℕ) (h21 : m < 10 ^ 21) (hfl : fl (m : ℚ) = m) :
    parseInt (numberToString (m : ℚ)) = some (m : ℚ) := by
  unfold numberToString
  by_cases h0 : m = 0
  · subst h0
    simp only [Nat.cast_zero, if_true]
    decide!
  · have hm : (m : ℚ) ≠ 0 := by exact_mod_cast h0
    have hnn : ¬ (m : ℚ) < 0 := not_lt.mpr (by positivity)
    rw [if_neg hm, if_neg hnn]
    obtain ⟨s, j, htext, hval⟩ := positiveToString_natCast m (by omega) h21 hfl
    rw [htext]
    show parseIntChars 0 ((natToString s).toList ++ List.replicate j '0') = _
    rw [parseIntChars_decDigits _
      (by
        intro h
        exact natToString_ne_nil s (List.append_eq_nil.mp h).1)
      (by
        intro c hc
        rcases List.mem_append.mp hc with hc | hc
        · exact natToString_decDigits s c hc
        · rw [List.eq_of_mem_replicate hc]; decide)]
    rw [digitsValue_append_zeros, digitsValue_natToString, hval]


theorem toDigitsCore_acc (fuel : ℕ) : ∀ (n : ℕ) (ds : List Char),
    Nat.toDigitsCore 10 fuel n ds = Nat.toDigitsCore 10 fuel n [] ++ ds := by
  induction fuel with
  | zero => intro n ds; simp [Nat.toDigitsCore]
  | succ fuel ih =>
    intro n ds
    unfold Nat.toDigitsCore
    simp only
    split_ifs with h
    · simp
    · rw [ih (n / 10) (Nat.digitChar (n % 10) :: ds), ih (n / 10) [Nat.digitChar (n % 10)]]
      simp

theorem toDigitsCore_fuel (f1 : ℕ) : ∀ (f2 n : ℕ) (ds : List Char), n < f1 → n < f2 →
    Nat.toDigitsCore 10 f1 n ds = Nat.toDigitsCore 10 f2 n ds := by
  induction f1 with
  | zero => intro f2 n ds h; omega
  | succ f1 ih =>
    intro f2 n ds h1 h2
    cases f2 with
    | zero => omega
    | succ f2 =>
      unfold Nat.toDigitsCore
      simp only
      split_ifs with h
      · rfl
      · exact ih f2 (n / 10) _ (by omega) (by omega)

theorem toDigits_mul_ten (a : ℕ) (ha : 1 ≤ a) :
    Nat.toDigits 10 (10 * a) = Nat.toDigits 10 a ++ ['0'] := by
  unfold Nat.toDigits
  rw [Nat.toDigitsCore]
  have h1 : 10 * a / 10 = a := by omega
  have h2 : 10 * a % 10 = 0 := by omega
  rw [h1, h2, if_neg (by omega), toDigitsCore_acc]
  congr 1
  exact toDigitsCore_fuel _ _ _ _ (by omega) (by omega)

/-- The numeral of `s * 10^j` is the numeral of `s` followed by `j` zeros. -/
theorem toList_natToString_mul_pow (s j : ℕ) (hs : 1 ≤ s) :
    (natToString (s * 10 ^ j)).toList = (natToString s).toList ++ List.replicate j '0' := by
  induction j with
  | zero => simp
  | succ j ih =>
    have e : s * 10 ^ (j + 1) = 10 * (s * 10 ^ j) := by ring
    have hpos : 1 ≤ s * 10 ^ j := Nat.one_le_iff_ne_zero.mpr (by positivity)
    rw [e, toList_natToString, toDigits_mul_ten _ hpos, ← toList_natToString, ih,
      List.replicate_succ', List.append_assoc]

/-- The texts of some Numbers, as every JavaScript engine prints them. -/
theorem numberToString_examples :
    numberToString (fl (1 / 10)) = "0.1" ∧ numberToString (3 / 2) = "1.5" ∧
    numberToString (-5) = "-5" ∧ numberToString 100 = "100" ∧
    numberToString (fl (fl (1 / 10) + fl (2 / 10))) = "0.30000000000000004" ∧
    numberToString (fl (1 / 3)) = "0.3333333333333333" ∧
    numberToString (fl (1 / 10 ^ 6)) = "0.000001" ∧ numberToString (fl (1 / 10 ^ 7)) = "1e-7" ∧
    numberToString (2 ^ 53) = "9007199254740992" ∧
    numberToString (2 ^ 60) = "1152921504606847000" ∧
    numberToString (2 ^ 64) = "18446744073709552000" ∧
    numberToString (10 ^ 21) = "1e+21" ∧
    numberToString (fl (123456789012345678901234)) = "1.2345678901234569e+23" := by
  decide!

/-- On the integers below 2^53 `Number::toString` writes the decimal numeral. -/
theorem numberToString_natCast (m : ℕ) (h : m < 2 ^ 53) :
    numberToString (m : ℚ) = natToString m := by
  unfold numberToString
  by_cases h0 : m = 0
  · subst h0
    simp only [Nat.cast_zero, if_true]
    rfl
  · have hm : (m : ℚ) ≠ 0 := by exact_mod_cast h0
    have hnn : ¬ (m : ℚ) < 0 := not_lt.mpr (by positivity)
    rw [if_neg hm, if_neg hnn]
    obtain ⟨s, j, htext, hval⟩ := positiveToString_natCast m (by omega)
      (lt_trans h (by norm_num)) (fl_natCast m h)
    have hy : s * 10 ^ j = m := by
      by_cases hlt : s * 10 ^ j < 2 ^ 53
      · rw [fl_natCast _ hlt] at hval
        exact_mod_cast hval
      · exfalso
        have h53 : IsBinary64 ((2 ^ 53 : ℕ) : ℚ) := isBinary64_natCast _ le_rfl
        have hle : ((2 ^ 53 : ℕ) : ℚ) ≤ ((s * 10 ^ j : ℕ) : ℚ) := by
          exact_mod_cast not_lt.mp hlt
        have := le_fl_of_le h53 hle
        rw [hval] at this
        have : 2 ^ 53 ≤ m := by exact_mod_cast this
        omega
    have hs : 1 ≤ s := by
      rcases Nat.eq_zero_or_pos s with hz | hp
      · rw [hz, zero_mul] at hy
        omega
      · exact hp
    rw [htext, ← toList_natToString_mul_pow s j hs, hy]
    rfl

theorem numberToString_intCast (k : ℕ) (h : k < 2 ^ 53) :
    numberToString (((k : ℕ) : ℤ) : ℚ) = intToString ((k : ℕ) : ℤ) := by
  rw [Int.cast_natCast, numberToString_natCast k h, intToString_natCast]

theorem numMod_natCast (a b : ℕ) : numMod (a : ℚ) (b : ℚ) = ((a % b : ℕ) : ℚ) := by
  unfold numMod
  rw [if_pos (by positivity), Rat.floor_natCast_div_natCast]
  have h := Nat.div_add_mod a b
  have hq : (b : ℚ) * ((a / b : ℕ) : ℚ) + ((a % b : ℕ) : ℚ) = (a : ℚ) := by exact_mod_cast h
  have e : ((((a : ℤ) / (b : ℤ) : ℤ)) : ℚ) = ((a / b : ℕ) : ℚ) := by norm_cast
  rw [e]
  linarith

theorem unitText_eq (n : ℕ) (word : String) :
    intToString (n : ℤ) ++ (" " ++ word) ++ (if (n : ℤ) ≠ 1 then "s" else "") =
      unitText n word := by
  unfold unitText
  rw [intToString_natCast]
  by_cases h : n = 1
  · have h1 : ¬ ((n : ℤ) ≠ 1) := by
      rw [h]
      simp
    rw [if_neg h1, if_pos h, String.append_empty, String.append_assoc]
  · have h1 : (n : ℤ) ≠ 1 := by exact_mod_cast h
    rw [if_pos h1, if_neg h, String.append_assoc, String.append_assoc, String.append_assoc]

/-- C14 (as stated, refuted): the input can hold the integer 9007199254741019; for it the
claim gives H = 2501999792983 and M = floor((s mod 3600)/60) = 36, but `parseInt`
returns the nearest Number 9007199254741020 and the text written shows 37 minutes. -/
theorem updateSleepDurationDisplay_counterexample :
    9007199254741019 / 3600 = 2501999792983 ∧ 9007199254741019 % 3600 / 60 = 36 ∧
    parseInt (natToString 9007199254741019) = some 9007199254741020 ∧
    updateSleepDurationDisplay (natToString 9007199254741019) =
      "≈ 2501999792983 hours 37 minutes" ∧
    updateSleepDurationDisplay (natToString 9007199254741019) ≠
      "≈ " ++ unitText (9007199254741019 / 3600) "hour" ++ " " ++
        unitText (9007199254741019 % 3600 / 60) "minute" := by
  decide!

/-- The text `updateSleepDurationDisplay` writes for the numeral of `s`, for
`1 ≤ s < 2^53`. -/
theorem updateSleepDurationDisplay_eq (s : ℕ) (h1 : 1 ≤ s) (h53 : s < 2 ^ 53) :
    updateSleepDurationDisplay (natToString s) =
      if s < 60 then natToString s ++ " seconds"
      else if s < 3600 then "≈ " ++ unitText (s / 60) "minute"
      else if s % 3600 / 60 = 0 then "≈ " ++ unitText (s / 3600) "hour"
      else "≈ " ++ unitText (s / 3600) "hour" ++ " " ++ unitText (s % 3600 / 60) "minute" := by
  have hs0 : (s : ℚ) ≠ 0 := by
    have : s ≠ 0 := by omega
    exact_mod_cast this
  have hsec : numberOr (parseInt (natToString s)) 900 = (s : ℚ) := by
    rw [parseInt_natToString_of_lt s h53]
    unfold numberOr
    simp only
    rw [if_neg hs0]
  have c60 : ((s : ℚ) < 60) ↔ s < 60 := by
    rw [← Nat.cast_ofNat, Nat.cast_lt]
  have c3600 : ((s : ℚ) < 3600) ↔ s < 3600 := by
    rw [← Nat.cast_ofNat, Nat.cast_lt]
  have f60 : mathFloor (numDiv (s : ℚ) 60) = ((s / 60 : ℕ) : ℤ) := by
    have := mathFloor_numDiv s 60 (by norm_num) h53
    simpa using this
  have f3600 : mathFloor (numDiv (s : ℚ) 3600) = ((s / 3600 : ℕ) : ℤ) := by
    have := mathFloor_numDiv s 3600 (by norm_num) h53
    simpa using this
  have fmod : mathFloor (numDiv (numMod (s : ℚ) 3600) 60) = ((s % 3600 / 60 : ℕ) : ℤ) := by
    have e : numMod (s : ℚ) 3600 = ((s % 3600 : ℕ) : ℚ) := by
      have := numMod_natCast s 3600
      simpa using this
    rw [e]
    have hlt : s % 3600 < 2 ^ 53 := lt_of_le_of_lt (Nat.mod_le _ _) h53
    have := mathFloor_numDiv (s % 3600) 60 (by norm_num) hlt
    simpa using this
  have sp1 : (" minute" : String) = " " ++ "minute" := by decide
  have sp2 : (" hour" : String) = " " ++ "hour" := by decide
  have n60 := numberToString_intCast (s / 60) (lt_of_le_of_lt (Nat.div_le_self _ _) h53)
  have n3600 := numberToString_intCast (s / 3600) (lt_of_le_of_lt (Nat.div_le_self _ _) h53)
  have nmod := numberToString_intCast (s % 3600 / 60)
    (lt_of_le_of_lt ((Nat.div_le_self _ _).trans (Nat.mod_le _ _)) h53)
  unfold updateSleepDurationDisplay
  simp only [hsec, f60, f3600, fmod, n60, n3600, nmod]
  by_cases a : s < 60
  · rw [if_pos (c60.mpr a), if_pos a, numberToString_natCast s h53]
  · rw [if_neg (mt c60.mp a), if_neg a]
    by_cases b : s < 3600
    · rw [if_pos (c3600.mpr b), if_pos b, sp1, String.append_assoc, String.append_assoc,
        ← String.append_assoc (intToString _), unitText_eq]
    · rw [if_neg (mt c3600.mp b), if_neg b]
      by_cases c : s % 3600 / 60 = 0
      · have c2 : ((s % 3600 / 60 : ℕ) : ℤ) = 0 := by exact_mod_cast c
        rw [if_pos c2, if_pos c, sp2, String.append_assoc, String.append_assoc,
          ← String.append_assoc (intToString _), unitText_eq]
      · have c2 : ¬ ((s % 3600 / 60 : ℕ) : ℤ) = 0 := by exact_mod_cast c
        rw [if_neg c2, if_neg c, sp1, sp2]
        rw [← unitText_eq (s / 3600) "hour", ← unitText_eq (s % 3600 / 60) "minute"]
        simp only [String.append_assoc]

/-- C14 (amended): for every integer number of seconds `s` with `2 ≤ s < 2^53` held by
the sleep-duration input, `updateSleepDurationDisplay` shows "s seconds" when `s < 60`;
"≈ M minute" or "≈ M minutes" with `M = floor(s/60)` when `60 ≤ s < 3600`; otherwise
"≈ H hour(s)" when `floor((s mod 3600)/60) = 0` and "≈ H hour(s) M minute(s)" when it is
not, with `H = floor(s/3600)` and `M = floor((s mod 3600)/60)`; a unit word is singular
exactly when its count is 1. -/
theorem updateSleepDurationDisplay_natToString (s : ℕ) (h2 : 2 ≤ s) (h53 : s < 2 ^ 53) :
    updateSleepDurationDisplay (natToString s) =
      if s < 60 then natToString s ++ " seconds"
      else if s < 3600 then "≈ " ++ unitText (s / 60) "minute"
      else if s % 3600 / 60 = 0 then "≈ " ++ unitText (s / 3600) "hour"
      else "≈ " ++ unitText (s / 3600) "hour" ++ " " ++ unitText (s % 3600 / 60) "minute" := by
  exact updateSleepDurationDisplay_eq s (by omega) h53

/-- Witness for C14 (amended): 3660 seconds, one hour and one minute. -/
theorem updateSleepDurationDisplay_natToString_witness :
    ((2 : ℕ) ≤ 3660 ∧ (3660 : ℕ) < 2 ^ 53) ∧
    updateSleepDurationDisplay (natToString 3660) =
      if 3660 < 60 then natToString 3660 ++ " seconds"
      else if 3660 < 3600 then "≈ " ++ unitText (3660 / 60) "minute"
      else if 3660 % 3600 / 60 = 0 then "≈ " ++ unitText (3660 / 3600) "hour"
      else "≈ " ++ unitText (3660 / 3600) "hour" ++ " " ++
        unitText (3660 % 3600 / 60) "minute" :=
  ⟨by decide, updateSleepDurationDisplay_natToString 3660 (by decide) (by decide)⟩

/-- C15 (as stated, refuted): with the value 0 in the input the text written is not
"0 seconds". -/
theorem updateSleepDurationDisplay_zero_counterexample :
    updateSleepDurationDisplay "0" ≠ "0 seconds" := by
  decide!

/-- C15 (amended): when the sleep-duration input holds the value 0, `parseInt` gives 0,
which is falsy, so `updateSleepDurationDisplay` uses the default of 900 seconds and
shows "≈ 15 minutes", as it does for an empty input. -/
theorem updateSleepDurationDisplay_zero :
    parseInt "0" = some 0 ∧ numberOr (parseInt "0") 900 = 900 ∧
    updateSleepDurationDisplay "0" = "≈ 15 minutes" ∧
    updateSleepDurationDisplay "" = "≈ 15 minutes" := by
  decide!

/-- C16 (as stated, refuted): with the value 0 in a sleep-duration input neither version
of `SettingsForms.updateDurationDisplay` writes "0.0 hours" to the span. -/
theorem updateDurationDisplay_zero_counterexample :
    Static.updateSleepDisplay "0" ≠ "0.0 hours" ∧
    Frontend.updateSleepDisplay "0" ≠ some "0.0 hours" := by
  decide!

/-- C16 (amended): when a sleep-duration input holds the value 0, the version of
`SettingsForms.updateDurationDisplay` in `static/js/settings_forms.js` falls back to
900 seconds and sets the span to "0.25 hours", and the version in
`frontend/static/js/settings_forms.js` sets the span to "0 minutes". -/
theorem updateDurationDisplay_zero :
    Static.updateSleepDisplay "0" = "0.25 hours" ∧
    Frontend.updateSleepDisplay "0" = some "0 minutes" ∧
    Static.updateDurationDisplay
        (fun id => if id = "sleep_duration" then some "0" else none) (fun _ => true) =
      [("sleep_duration_hours", "0.25 hours")] ∧
    Frontend.updateDurationDisplay
        (fun id => if id = "sleep_duration" then some "0" else none) (fun _ => true) =
      [("sleep_duration_hours", "0 minutes")] := by
  decide!

/-- Halves of integers of size below 2^53 are binary64 values. -/
theorem fl_intCast_div_two (z : ℤ) (h : |z| < 2 ^ 53) : fl ((z : ℚ) / 2) = (z : ℚ) / 2 := by
  by_cases h0 : z = 0
  · subst h0
    simp [fl_zero]
  · have hz0 : (z : ℚ) ≠ 0 := by exact_mod_cast h0
    have hq0 : (z : ℚ) / 2 ≠ 0 := div_ne_zero hz0 (by norm_num)
    have hzq : |(z : ℚ)| < 2 ^ 53 := by exact_mod_cast h
    have hq : |(z : ℚ) / 2| < 2 ^ 52 := by
      rw [abs_div, abs_of_pos (by norm_num : (0 : ℚ) < 2)]
      linarith
    have hu1 : ulp ((z : ℚ) / 2) < 1 := by
      have := ulp_le hq0
      have : ulp ((z : ℚ) / 2) * 2 ^ 52 < 2 ^ 52 := lt_of_le_of_lt this hq
      linarith
    obtain ⟨p, hp⟩ := ulp_mul_two_pow (by linarith : ulp ((z : ℚ) / 2) < 2)
    have hp1 : 1 ≤ p := by
      rcases Nat.eq_zero_or_pos p with hp0 | hp0
      · rw [hp0, pow_zero, mul_one] at hp
        linarith
      · exact hp0
    obtain ⟨m, rfl⟩ := Nat.exists_eq_add_of_le hp1
    apply fl_eq_self_of_mul (z * 2 ^ m)
    push_cast
    have e : (2 : ℚ) ^ (1 + m) = 2 * 2 ^ m := by ring
    rw [e] at hp
    have : (z : ℚ) * 2 ^ m * ulp ((z : ℚ) / 2) = (z : ℚ) / 2 * (ulp ((z : ℚ) / 2) * (2 * 2 ^ m)) := by
      ring
    rw [this, hp, mul_one]

/-- `Math.round` of a JavaScript quotient of naturals, twice the dividend below 2^53, is
the quotient rounded half up. -/
theorem mathRound_numDiv (a d : ℕ) (hd : 0 < d) (ha : 2 * a < 2 ^ 53) :
    mathRound (numDiv a d) = ((roundDivHalfUp a d : ℕ) : ℤ) := by
  have hdq : (0 : ℚ) < d := by exact_mod_cast hd
  unfold roundDivHalfUp mathRound numDiv
  have hj1 : (2 * a + d) / (2 * d) * (2 * d) ≤ 2 * a + d := Nat.div_mul_le_self _ _
  have hj2 : 2 * a + d < ((2 * a + d) / (2 * d) + 1) * (2 * d) := by
    have := Nat.lt_succ_iff.mpr (le_refl ((2 * a + d) / (2 * d)))
    exact (Nat.div_lt_iff_lt_mul (by omega)).mp this
  generalize (2 * a + d) / (2 * d) = j at hj1 hj2
  have hq : (a : ℚ) / d * d = a := div_mul_cancel₀ _ hdq.ne.symm
  rcases Nat.eq_or_lt_of_le hj1 with htie | hlt
  · -- the quotient is exactly j - 1/2
    have hz : (a : ℚ) / d = ((2 * (j : ℤ) - 1 : ℤ) : ℚ) / 2 := by
      rw [div_eq_div_iff hdq.ne.symm (by norm_num)]
      have : ((j * (2 * d) : ℕ) : ℚ) = ((2 * a + d : ℕ) : ℚ) := by rw [htie]
      push_cast at this ⊢
      linarith
    have hjpos : 1 ≤ j := by
      rcases Nat.eq_zero_or_pos j with h0 | h0
      · rw [h0] at htie
        omega
      · exact h0
    have hbound : |(2 * (j : ℤ) - 1 : ℤ)| < 2 ^ 53 := by
      have h1 : 2 * j ≤ 2 * a + 1 := by
        have : j * (2 * d) ≤ (2 * a + 1) * d := by
          rw [htie]
          nlinarith
        by_contra hcon
        have : (2 * a + 1) * d < 2 * j * d := by
          apply Nat.mul_lt_mul_of_pos_right (by omega) hd
        nlinarith
      have h53 : (2 : ℕ) ^ 53 = 9007199254740992 := by norm_num
      rw [abs_lt]
      constructor <;> omega
    rw [hz, fl_intCast_div_two _ hbound]
    have : ((2 * (j : ℤ) - 1 : ℤ) : ℚ) / 2 + 1 / 2 = ((j : ℤ) : ℚ) := by
      push_cast
      ring
    rw [this, Int.floor_intCast]
  · have herr : |fl ((a : ℚ) / d) - (a : ℚ) / d| < 1 / (2 * d) := by
      have h1 := abs_fl_sub_le_rel ((a : ℚ) / d)
      rw [abs_of_nonneg (by positivity : (0 : ℚ) ≤ (a : ℚ) / d)] at h1
      have haq : (2 : ℚ) * a < 2 ^ 53 := by exact_mod_cast ha
      have h2 : (a : ℚ) / d < 1 / (2 * d) * 2 ^ 53 := by
        rw [div_lt_iff₀ hdq]
        have : 1 / (2 * (d : ℚ)) * 2 ^ 53 * d = 2 ^ 53 / 2 := by
          field_simp
          ring
        rw [this]
        linarith
      exact lt_of_mul_lt_mul_right (lt_of_le_of_lt h1 h2) (by positivity)
    rw [abs_lt] at herr
    have hlo : ((j : ℚ)) + 1 / (2 * d) ≤ (a : ℚ) / d + 1 / 2 := by
      have h1 : j * (2 * d) + 1 ≤ 2 * a + d := hlt
      have h1q : (j : ℚ) * (2 * d) + 1 ≤ 2 * a + d := by exact_mod_cast h1
      rw [← sub_nonneg]
      have : (a : ℚ) / d + 1 / 2 - ((j : ℚ) + 1 / (2 * d)) =
          (2 * a + d - (j * (2 * d) + 1)) / (2 * d) := by
        field_simp
        ring
      rw [this]
      apply div_nonneg _ (by positivity)
      linarith
    have hhi : (a : ℚ) / d + 1 / 2 + 1 / (2 * d) ≤ (j : ℚ) + 1 := by
      have h1 : 2 * a + d + 1 ≤ (j + 1) * (2 * d) := hj2
      have h1q : (2 : ℚ) * a + d + 1 ≤ (j + 1) * (2 * d) := by exact_mod_cast h1
      rw [← sub_nonneg]
      have : (j : ℚ) + 1 - ((a : ℚ) / d + 1 / 2 + 1 / (2 * d)) =
          ((j + 1) * (2 * d) - (2 * a + d + 1)) / (2 * d) := by
        field_simp
        ring
      rw [this]
      apply div_nonneg _ (by positivity)
      linarith
    rw [Int.floor_eq_iff]
    constructor
    · push_cast
      linarith [herr.1]
    · push_cast
      linarith [herr.2]

theorem isBinary64_one : IsBinary64 1 := ⟨1, 0, by norm_num, by norm_num⟩

/-- Rounding does not take an exact result of at least 1 below 1. -/
theorem one_le_fl {q : ℚ} (h : 1 ≤ q) : 1 ≤ fl q := by
  have h1 := fl_nearest q 1 isBinary64_one
  rw [abs_of_nonpos (by linarith : (1 : ℚ) - q ≤ 0)] at h1
  have h2 := neg_abs_le (fl q - q)
  linarith

/-- Rounding does not take an exact result of at most 9/10 up to 1. -/
theorem fl_lt_one {q : ℚ} (h0 : 0 ≤ q) (h : q ≤ 9 / 10) : fl q < 1 := by
  have h1 := abs_fl_sub_le_rel q
  rw [abs_of_nonneg h0] at h1
  have h2 := le_abs_self (fl q - q)
  have h3 := abs_nonneg (fl q - q)
  have h53 : (10 : ℚ) ≤ 2 ^ 53 := by norm_num
  nlinarith

/-- The tenths of hours shown by the frontend helper reach 1.0 exactly from 3421
seconds on. -/
theorem toFixedNumber_hours_lt_one (s : ℕ) (h53 : s < 2 ^ 53) :
    toFixedNumber 1 (numDiv s 3600) < 1 ↔ s ≤ 3420 := by
  have hx : 0 ≤ numDiv (s : ℚ) 3600 := fl_nonneg (by positivity)
  have hnear := abs_fixedScaled_numDiv_sub_le s 180 (by norm_num) h53
  have e3600 : ((20 * 180 : ℕ) : ℚ) = 3600 := by norm_num
  rw [e3600] at hnear
  rw [abs_le] at hnear
  have hx21 : ¬ (10 : ℚ) ^ 21 ≤ |numDiv (s : ℚ) 3600| := by
    have := numDiv_lt_of_lt s 3600 (by norm_num) h53
    rw [abs_of_nonneg hx]
    push_cast at this
    exact not_le.mpr this
  unfold toFixedNumber
  rw [if_neg hx21, if_neg (not_lt.mpr hx)]
  constructor
  · intro hlt
    by_contra hcon
    have hs : 3421 ≤ s := by omega
    have hsq : (3421 : ℚ) ≤ s := by exact_mod_cast hs
    have hk : (1 : ℚ) ≤ ((fixedScaled 1 (numDiv s 3600) : ℕ) : ℚ) / 10 ^ 1 := by
      have hk9 : (9 : ℚ) < (fixedScaled 1 (numDiv s 3600) : ℕ) := by
        have : (3421 : ℚ) / 3600 ≤ (s : ℚ) / 3600 := by
          apply div_le_div_of_nonneg_right hsq (by norm_num)
        have h1 := hnear.1
        norm_num at this
        linarith
      have hk10 : 10 ≤ fixedScaled 1 (numDiv s 3600) := by
        have : 9 < fixedScaled 1 (numDiv s 3600) := by exact_mod_cast hk9
        omega
      have hk10q : (10 : ℚ) ≤ (fixedScaled 1 (numDiv s 3600) : ℕ) := by exact_mod_cast hk10
      rw [le_div_iff₀ (by norm_num)]
      linarith
    have := one_le_fl hk
    linarith
  · intro hs
    apply fl_lt_one (by positivity)
    rcases Nat.eq_or_lt_of_le hs with heq | hlt
    · rw [heq]
      decide!
    · have hs2 : s ≤ 3419 := by omega
      have hsq : (s : ℚ) ≤ 3419 := by exact_mod_cast hs2
      have : (s : ℚ) / 3600 ≤ 3419 / 3600 := by
        apply div_le_div_of_nonneg_right hsq (by norm_num)
      have hk10 : ((fixedScaled 1 (numDiv s 3600) : ℕ) : ℚ) < 10 := by
        have h2 := hnear.2
        linarith
      have hk9 : fixedScaled 1 (numDiv s 3600) ≤ 9 := by
        have : fixedScaled 1 (numDiv s 3600) < 10 := by exact_mod_cast hk10
        omega
      have hk9q : ((fixedScaled 1 (numDiv s 3600) : ℕ) : ℚ) ≤ 9 := by exact_mod_cast hk9
      rw [div_le_iff₀ (by norm_num)]
      linarith

/-- C17 (as stated, refuted): 3500 is below 3600 and 3500/60 rounded to a whole number
is 58, but the frontend `updateDurationDisplay` shows "1.0 hours" for it, because it
compares the hours already rounded to one decimal with 1; and for 4140 seconds it shows
"1.1 hours" although 4140/3600 = 1.15 rounds to 1.2. -/
theorem frontend_updateSleepDisplay_counterexample :
    (3500 : ℕ) < 3600 ∧ roundDivHalfUp 3500 60 = 58 ∧
    Frontend.updateSleepDisplay (natToString 3500) = some "1.0 hours" ∧
    Frontend.updateSleepDisplay (natToString 3500) ≠
      some (natToString (roundDivHalfUp 3500 60) ++ " minutes") ∧
    roundTenthsHalfUp 4140 3600 = 12 ∧ roundTenthsHalfEven 4140 3600 = 12 ∧
    Frontend.updateSleepDisplay (natToString 4140) = some "1.1 hours" ∧
    Frontend.updateSleepDisplay (natToString 4140) ≠
      some (fixedDigits 1 (roundTenthsHalfUp 4140 3600) ++ " hours") := by
  decide!

/-- C17 (amended): in the frontend `SettingsForms.updateDurationDisplay`, for every
integer `s` with `0 ≤ s ≤ 3420` the span shows `s/60` rounded to a whole number (a half
going up) followed by " minutes", and for every integer `s` with `3421 ≤ s < 2^53` it
shows `s/3600` with one decimal place followed by " hours": a one-decimal value nearest
to `s/3600`, the half-up rounding unless `s/3600` is exactly halfway between two
one-decimal values. -/
theorem frontend_updateSleepDisplay (s : ℕ) (h53 : s < 2 ^ 53) :
    (s ≤ 3420 → Frontend.updateSleepDisplay (natToString s) =
      some (natToString (roundDivHalfUp s 60) ++ " minutes")) ∧
    (3421 ≤ s → ∃ text : String, Frontend.updateSleepDisplay (natToString s) = some text ∧
      ShowsTenths text s 3600 " hours") := by
  have hparse := parseInt_natToString_of_lt s h53
  have hiff := toFixedNumber_hours_lt_one s h53
  constructor
  · intro hs
    have h2 : 2 * s < 2 ^ 53 := by
      have : (2 : ℕ) ^ 53 = 9007199254740992 := by norm_num
      omega
    have hr := mathRound_numDiv s 60 (by norm_num) h2
    simp only [Nat.cast_ofNat] at hr
    unfold Frontend.updateSleepDisplay
    rw [hparse]
    simp only
    have hlt : roundDivHalfUp s 60 < 2 ^ 53 := by
      unfold roundDivHalfUp
      have : (2 : ℕ) ^ 53 = 9007199254740992 := by norm_num
      omega
    rw [if_pos (hiff.mpr hs), hr, numberToString_intCast _ hlt, intToString_natCast]
  · intro hs
    refine ⟨toFixed 1 (numDiv s 3600) ++ " hours", ?_, ?_⟩
    · unfold Frontend.updateSleepDisplay
      rw [hparse]
      simp only
      rw [if_neg (by
        rw [hiff]
        omega)]
    · have h := showsTenths_numDiv s 180 (by norm_num) h53 " hours"
      norm_num at h
      exact h

/-- Witness for C17 (amended): 900 seconds and 5400 seconds. -/
theorem frontend_updateSleepDisplay_witness :
    (((900 : ℕ) < 2 ^ 53 ∧ (900 : ℕ) ≤ 3420) ∧
      Frontend.updateSleepDisplay (natToString 900) =
        some (natToString (roundDivHalfUp 900 60) ++ " minutes")) ∧
    (((5400 : ℕ) < 2 ^ 53 ∧ (3421 : ℕ) ≤ 5400) ∧
      ∃ text : String, Frontend.updateSleepDisplay (natToString 5400) = some text ∧
        ShowsTenths text 5400 3600 " hours") :=
  ⟨⟨by decide, (frontend_updateSleepDisplay 900 (by decide)).1 (by decide)⟩,
   ⟨by decide, (frontend_updateSleepDisplay 5400 (by decide)).2 (by decide)⟩⟩

/-! ## The settings forms -/

lemma JsValue.isFalse_iff (v : JsValue) : v.isFalse = true ↔ v = JsValue.bool false := by
  cases v with
  | bool b => cases b <;> simp [JsValue.isFalse]
  | _ => simp [JsValue.isFalse]

lemma JsValue.isTrue_iff (v : JsValue) : v.isTrue = true ↔ v = JsValue.bool true := by
  cases v with
  | bool b => cases b <;> simp [JsValue.isTrue]
  | _ => simp [JsValue.isTrue]

lemma Field.render_id (settings : JsValue) (f : Field) : (f.render settings).id = f.id := by
  cases f <;> rfl

/-- In a form whose ids are distinct, the input found under the id of a template line is
the one that line renders. -/
lemma checkedOf_map_render (settings : JsValue) (fields : List Field)
    (hnodup : (fields.map Field.id).Nodup) (f : Field) (hf : f ∈ fields) :
    checkedOf (fields.map (Field.render settings)) f.id = some (f.render settings).checked := by
  induction fields with
  | nil => simp at hf
  | cons g rest ih =>
    rw [List.map_cons, List.nodup_cons] at hnodup
    rcases List.mem_cons.mp hf with rfl | hmem
    · simp [checkedOf, List.find?, Field.render_id]
    · have hne : g.id ≠ f.id := by
        intro h
        exact hnodup.1 (h ▸ List.mem_map_of_mem Field.id hmem)
      have := ih hnodup.2 hmem
      simpa [checkedOf, List.find?, Field.render_id, hne] using this

/-- Every generator maps its template lines to inputs, and the ids of a form are
distinct. -/
lemma allForms_spec (p : List Field × (JsValue → List Input)) (hp : p ∈ allForms) :
    (∀ settings, p.2 settings = p.1.map (Field.render settings)) ∧
      (p.1.map Field.id).Nodup := by
  simp only [allForms, List.mem_cons, List.mem_singleton, List.not_mem_nil, or_false] at hp
  rcases hp with rfl | rfl | rfl | rfl | rfl | rfl | rfl | rfl | rfl <;>
    exact ⟨fun _ => rfl, by decide⟩

/-- The checkbox lines of every form test `!== false` exactly for the keys that are on by
default and `=== true` exactly for the keys that are off by default. -/
lemma allForms_toggles (p : List Field × (JsValue → List Input)) (hp : p ∈ allForms)
    (f : Field) (hf : f ∈ p.1) : f.testMatchesKey = true := by
  have hall : p.1.all Field.testMatchesKey = true := by
    simp only [allForms, List.mem_cons, List.mem_singleton, List.not_mem_nil, or_false] at hp
    rcases hp with rfl | rfl | rfl | rfl | rfl | rfl | rfl | rfl | rfl <;> decide
  exact List.all_eq_true.mp hall f hf

/-- C18 (code bug): a stored 0 is not rendered.  With `hunt_missing_shows: 0` stored, the
frontend and the static Sonarr form render the value 1; with `sleep_duration: 0` stored
they render 900; with `minimum_download_queue_size: 0` stored the frontend Sonarr form and
both global forms render -1.  Under `value ?? default` each of these would render 0. -/
theorem numeric_field_stored_zero :
    valueOf (Frontend.generateSonarrForm (JsValue.object
      [("sonarr", JsValue.object [("hunt_missing_shows", JsValue.number 0)])]))
      "hunt_missing_shows" = some "1" ∧
    valueOf (Static.generateSonarrForm (JsValue.object
      [("huntarr", JsValue.object [("hunt_missing_shows", JsValue.number 0)])]))
      "hunt_missing_shows" = some "1" ∧
    valueOf (Frontend.generateSonarrForm (JsValue.object
      [("sonarr", JsValue.object [("sleep_duration", JsValue.number 0)])]))
      "sleep_duration" = some "900" ∧
    valueOf (Static.generateSonarrForm (JsValue.object
      [("huntarr", JsValue.object [("sleep_duration", JsValue.number 0)])]))
      "sleep_duration" = some "900" ∧
    valueOf (Frontend.generateSonarrForm (JsValue.object
      [("sonarr", JsValue.object [("minimum_download_queue_size", JsValue.number 0)])]))
      "minimum_download_queue_size" = some "-1" ∧
    valueOf (Frontend.generateGlobalForm (JsValue.object
      [("global", JsValue.object [("minimum_download_queue_size", JsValue.number 0)])]))
      "minimum_download_queue_size" = some "-1" ∧
    valueOf (Static.generateGlobalForm (JsValue.object
      [("advanced", JsValue.object [("minimum_download_queue_size", JsValue.number 0)])]))
      "minimum_download_queue_size" = some "-1" ∧
    valueOf (Frontend.generateSonarrForm (JsValue.object
      [("sonarr", JsValue.object [("hunt_missing_shows", JsValue.number 5)])]))
      "hunt_missing_shows" = some "5" := by
  decide!

/-- C19: given an empty settings object, each app form generator (Sonarr, Radarr, Lidarr
and Readarr of the frontend file; Sonarr, Radarr and Lidarr of the static file, which has
no Readarr generator) renders empty URL and API key fields, the numeric defaults
missing-items 1, upgrade-items 0, sleep duration 900 and state reset interval 168 (and,
in the frontend Sonarr form, api_timeout 60, command_wait_delay 1, command_wait_attempts
600 and minimum_download_queue_size -1), the monitored-only, skip-future, random-missing
and random-upgrades toggles checked, and the skip-refresh and debug-mode toggles
unchecked. -/
theorem empty_settings_defaults :
    Frontend.generateSonarrForm (JsValue.object []) =
      [⟨"text", "sonarr_api_url", "", false⟩,
       ⟨"text", "sonarr_api_key", "", false⟩,
       ⟨"number", "hunt_missing_shows", "1", false⟩,
       ⟨"number", "hunt_upgrade_episodes", "0", false⟩,
       ⟨"number", "sleep_duration", "900", false⟩,
       ⟨"number", "state_reset_interval_hours", "168", false⟩,
       ⟨"checkbox", "monitored_only", "", true⟩,
       ⟨"checkbox", "skip_future_episodes", "", true⟩,
       ⟨"checkbox", "skip_series_refresh", "", false⟩,
       ⟨"checkbox", "random_missing", "", true⟩,
       ⟨"checkbox", "random_upgrades", "", true⟩,
       ⟨"checkbox", "debug_mode", "", false⟩,
       ⟨"number", "api_timeout", "60", false⟩,
       ⟨"number", "command_wait_delay", "1", false⟩,
       ⟨"number", "command_wait_attempts", "600", false⟩,
       ⟨"number", "minimum_download_queue_size", "-1", false⟩] ∧
    Frontend.generateRadarrForm (JsValue.object []) =
      [⟨"text", "radarr_api_url", "", false⟩,
       ⟨"text", "radarr_api_key", "", false⟩,
       ⟨"number", "hunt_missing_movies", "1", false⟩,
       ⟨"number", "hunt_upgrade_movies", "0", false⟩,
       ⟨"number", "radarr_sleep_duration", "900", false⟩,
       ⟨"number", "radarr_state_reset_interval_hours", "168", false⟩,
       ⟨"checkbox", "radarr_monitored_only", "", true⟩,
       ⟨"checkbox", "skip_future_releases", "", true⟩,
       ⟨"checkbox", "skip_movie_refresh", "", false⟩,
       ⟨"checkbox", "radarr_random_missing", "", true⟩,
       ⟨"checkbox", "radarr_random_upgrades", "", true⟩,
       ⟨"checkbox", "radarr_debug_mode", "", false⟩] ∧
    Frontend.generateLidarrForm (JsValue.object []) =
      [⟨"text", "lidarr_api_url", "", false⟩,
       ⟨"text", "lidarr_api_key", "", false⟩,
       ⟨"number", "hunt_missing_albums", "1", false⟩,
       ⟨"number", "hunt_upgrade_tracks", "0", false⟩,
       ⟨"number", "lidarr_sleep_duration", "900", false⟩,
       ⟨"number", "lidarr_state_reset_interval_hours", "168", false⟩,
       ⟨"checkbox", "lidarr_monitored_only", "", true⟩,
       ⟨"checkbox", "lidarr_skip_future_releases", "", true⟩,
       ⟨"checkbox", "skip_artist_refresh", "", false⟩,
       ⟨"checkbox", "lidarr_random_missing", "", true⟩,
       ⟨"checkbox", "lidarr_random_upgrades", "", true⟩,
       ⟨"checkbox", "lidarr_debug_mode", "", false⟩] ∧
    Frontend.generateReadarrForm (JsValue.object []) =
      [⟨"text", "readarr_api_url", "", false⟩,
       ⟨"text", "readarr_api_key", "", false⟩,
       ⟨"number", "hunt_missing_books", "1", false⟩,
       ⟨"number", "hunt_upgrade_books", "0", false⟩,
       ⟨"number", "readarr_sleep_duration", "900", false⟩,
       ⟨"number", "readarr_state_reset_interval_hours", "168", false⟩,
       ⟨"checkbox", "readarr_monitored_only", "", true⟩,
       ⟨"checkbox", "readarr_skip_future_releases", "", true⟩,
       ⟨"checkbox", "skip_author_refresh", "", false⟩,
       ⟨"checkbox", "readarr_random_missing", "", true⟩,
       ⟨"checkbox", "readarr_random_upgrades", "", true⟩,
       ⟨"checkbox", "readarr_debug_mode", "", false⟩] ∧
    Static.generateSonarrForm (JsValue.object []) =
      [⟨"text", "sonarr_api_url", "", false⟩,
       ⟨"text", "sonarr_api_key", "", false⟩,
       ⟨"number", "hunt_missing_shows", "1", false⟩,
       ⟨"number", "hunt_upgrade_episodes", "0", false⟩,
       ⟨"number", "sleep_duration", "900", false⟩,
       ⟨"number", "state_reset_interval_hours", "168", false⟩,
       ⟨"checkbox", "monitored_only", "", true⟩,
       ⟨"checkbox", "skip_future_episodes", "", true⟩,
       ⟨"checkbox", "skip_series_refresh", "", false⟩,
       ⟨"checkbox", "random_missing", "", true⟩,
       ⟨"checkbox", "random_upgrades", "", true⟩,
       ⟨"checkbox", "debug_mode", "", false⟩] ∧
    Static.generateRadarrForm (JsValue.object []) =
      [⟨"text", "radarr_api_url", "", false⟩,
       ⟨"text", "radarr_api_key", "", false⟩,
       ⟨"number", "hunt_missing_movies", "1", false⟩,
       ⟨"number", "hunt_upgrade_movies", "0", false⟩,
       ⟨"number", "radarr_sleep_duration", "900", false⟩,
       ⟨"number", "radarr_state_reset_interval_hours", "168", false⟩,
       ⟨"checkbox", "radarr_monitored_only", "", true⟩,
       ⟨"checkbox", "skip_future_releases", "", true⟩,
       ⟨"checkbox", "skip_movie_refresh", "", false⟩,
       ⟨"checkbox", "radarr_random_missing", "", true⟩,
       ⟨"checkbox", "radarr_random_upgrades", "", true⟩,
       ⟨"checkbox", "radarr_debug_mode", "", false⟩] ∧
    Static.generateLidarrForm (JsValue.object []) =
      [⟨"text", "lidarr_api_url", "", false⟩,
       ⟨"text", "lidarr_api_key", "", false⟩,
       ⟨"number", "hunt_missing_albums", "1", false⟩,
       ⟨"number", "hunt_upgrade_tracks", "0", false⟩,
       ⟨"number", "lidarr_sleep_duration", "900", false⟩,
       ⟨"number", "lidarr_state_reset_interval_hours", "168", false⟩,
       ⟨"checkbox", "lidarr_monitored_only", "", true⟩,
       ⟨"checkbox", "lidarr_skip_future_releases", "", true⟩,
       ⟨"checkbox", "skip_artist_refresh", "", false⟩,
       ⟨"checkbox", "lidarr_random_missing", "", true⟩,
       ⟨"checkbox", "lidarr_random_upgrades", "", true⟩,
       ⟨"checkbox", "lidarr_debug_mode", "", false⟩] := by
  refine ⟨?_, ?_, ?_, ?_, ?_, ?_, ?_⟩ <;> decide!

/-! ### The markup of the settings forms -/

namespace Tokenizer

theorem run_append (t : Tokenizer) (a b : List Char) :
    t.run (a ++ b) = t.run a ++ (t.runState a).run b := by
  induction a generalizing t with
  | nil => rfl
  | cons c a ih =>
    simp only [List.cons_append, run, runState]
    cases h : t.step c with
    | mk next tag =>
      cases tag with
      | none => simp only [List.append_eq, ih]
      | some tag => simp only [List.append_eq, ih, List.cons_append]

/-- Inside a double-quoted attribute value a text without a double quote is appended to
the value, and the quote and `>` after it complete the tag. -/
theorem run_value (nm an val : List Char) (rest : List (List Char × List Char))
    (v cs : List Char) (hv : '"' ∉ v) :
    run ⟨TokenizerMode.attributeValueDoubleQuoted, false, nm, (an, val) :: rest⟩
        (v ++ '"' :: '>' :: cs) =
      ⟨nm, ((an, val ++ v) :: rest).reverse⟩ :: run start cs := by
  induction v generalizing val with
  | nil =>
    simp [run, step, goto, beforeAttributeName, emit, isTagWhiteSpace]
  | cons c v ih =>
    have hc : c ≠ '"' := fun h => hv (by simp [h])
    have hv2 : '"' ∉ v := fun h => hv (by simp [h])
    simp only [List.cons_append, run, step, if_neg hc, pushValue, List.append_eq]
    rw [ih _ hv2]
    simp

/-- Before an attribute name the text `checked` adds the attribute, the empty text adds
nothing, and the `>` after it completes the tag. -/
theorem run_checked (nm : List Char) (rest : List (List Char × List Char)) (b : Bool)
    (cs : List Char) :
    run ⟨TokenizerMode.beforeAttributeName, false, nm, rest⟩
        ((if b then "checked" else "").toList ++ '>' :: cs) =
      ⟨nm, ((if b then [("checked".toList, [])] else []) ++ rest).reverse⟩ ::
        run start cs := by
  cases b
  · simp [run, step, goto, beforeAttributeName, emit, isTagWhiteSpace]
  · simp [run, step, goto, beforeAttributeName, afterAttributeName, emit, isTagWhiteSpace,
      newAttribute, pushName, lower]

end Tokenizer

theorem lookup_append_singleton (k k2 v : List Char) (l : List (List Char × List Char)) :
    (l ++ [(k2, v)]).lookup k =
      match l.lookup k with
      | some x => some x
      | none => if k = k2 then some v else none := by
  induction l with
  | nil =>
    by_cases h : k = k2
    · simp [List.lookup, h]
    · have : (k == k2) = false := by simpa using h
      simp [List.lookup, h, this]
  | cons p l ih =>
    obtain ⟨a, b⟩ := p
    by_cases h : k = a
    · simp [List.lookup, h]
    · have : (k == a) = false := by simpa using h
      simp only [List.cons_append, List.lookup, this, List.append_eq, ih]

theorem inputsOf_append (a b : List StartTag) : inputsOf (a ++ b) = inputsOf a ++ inputsOf b := by
  simp [inputsOf]

theorem inputsOf_cons_input (attrs : List (List Char × List Char)) (tags : List StartTag) :
    inputsOf (⟨"input".toList, attrs⟩ :: tags) =
      StartTag.toInput ⟨"input".toList, attrs⟩ :: inputsOf tags := by
  simp [inputsOf]

/-- The `input` element of a tag that is completed by a value. -/
theorem toInput_value (rest : List (List Char × List Char)) (kind id : String)
    (v : String) (h : attrsFit rest.reverse kind id = true) :
    StartTag.toInput ⟨"input".toList, (("value".toList, [] ++ v.toList) :: rest).reverse⟩ =
      ⟨kind, id, v, false⟩ := by
  simp only [attrsFit, Bool.and_eq_true, decide_eq_true_eq] at h
  obtain ⟨⟨⟨h1, h2⟩, h3⟩, h4⟩ := h
  simp only [StartTag.toInput, StartTag.attr, List.reverse_cons, lookup_append_singleton,
    h1, h2, h3, h4, List.nil_append, if_true, Option.map, Option.getD, Option.isSome]
  have e : ¬ ("checked".toList = "value".toList) := by decide
  simp only [if_neg e]
  rfl

/-- The `input` element of a checkbox tag that is completed by `checked` or by nothing. -/
theorem toInput_checked (rest : List (List Char × List Char)) (id : String) (b : Bool)
    (h : attrsFit rest.reverse "checkbox" id = true) :
    StartTag.toInput
        ⟨"input".toList, ((if b then [("checked".toList, [])] else []) ++ rest).reverse⟩ =
      ⟨"checkbox", id, "", b⟩ := by
  simp only [attrsFit, Bool.and_eq_true, decide_eq_true_eq] at h
  obtain ⟨⟨⟨h1, h2⟩, h3⟩, h4⟩ := h
  cases b
  · simp only [StartTag.toInput, StartTag.attr, Bool.false_eq_true, if_false,
      List.nil_append, h1, h2, h3, h4, Option.map, Option.getD, Option.isSome]
    rfl
  · have e : ¬ ("value".toList = "checked".toList) := by decide
    simp only [StartTag.toInput, StartTag.attr, if_true, List.singleton_append,
      List.reverse_cons, lookup_append_singleton, h1, h2, h3, h4, Option.map, Option.getD,
      Option.isSome, if_neg e]
    rfl

theorem templateLiteral_toList (text : String) (texts substitutions : List String) :
    (templateLiteral (text :: texts) substitutions).toList =
      text.toList ++ (templateLiteral ("" :: texts) substitutions).toList := by
  cases substitutions with
  | nil => simp [templateLiteral]
  | cons s ss => simp [templateLiteral]

/-- The `input` element of the tag that the interpolation of a template line completes. -/
theorem run_interpolation (settings : JsValue) (f : Field) (t : Tokenizer)
    (hfit : f.fits t = true) (hq : '"' ∉ (f.interpolation settings).toList)
    (cs : List Char) :
    inputsOf (t.run ((f.interpolation settings).toList ++ (f.closing ++ cs))) =
      f.render settings :: inputsOf (Tokenizer.start.run cs) := by
  obtain ⟨mode, isEndTag, name, attrs⟩ := t
  cases f with
  | text id key =>
    simp only [Field.fits, Bool.and_eq_true, Bool.not_eq_true', decide_eq_true_eq] at hfit
    obtain ⟨⟨he, hn⟩, hm, ha⟩ := hfit
    cases attrs with
    | nil => simp at ha
    | cons p rest =>
      obtain ⟨n, v⟩ := p
      simp only [Bool.and_eq_true, decide_eq_true_eq] at ha
      obtain ⟨⟨hn2, hv⟩, hfit2⟩ := ha
      subst he hn hm hn2 hv
      simp only [Field.closing, List.cons_append, List.nil_append]
      rw [Tokenizer.run_value _ _ _ _ _ _ hq, inputsOf_cons_input,
        toInput_value rest "text" id _ hfit2]
      rfl
  | number id ns key dflt =>
    simp only [Field.fits, Bool.and_eq_true, Bool.not_eq_true', decide_eq_true_eq] at hfit
    obtain ⟨⟨he, hn⟩, hm, ha⟩ := hfit
    cases attrs with
    | nil => simp at ha
    | cons p rest =>
      obtain ⟨n, v⟩ := p
      simp only [Bool.and_eq_true, decide_eq_true_eq] at ha
      obtain ⟨⟨hn2, hv⟩, hfit2⟩ := ha
      subst he hn hm hn2 hv
      simp only [Field.closing, List.cons_append, List.nil_append]
      rw [Tokenizer.run_value _ _ _ _ _ _ hq, inputsOf_cons_input,
        toInput_value rest "number" id _ hfit2]
      rfl
  | toggleUnlessFalse id ns key =>
    simp only [Field.fits, Bool.and_eq_true, Bool.not_eq_true', decide_eq_true_eq] at hfit
    obtain ⟨⟨he, hn⟩, hm, hfit2⟩ := hfit
    subst he hn hm
    simp only [Field.closing, Field.interpolation, List.cons_append, List.nil_append]
    rw [Tokenizer.run_checked, inputsOf_cons_input, toInput_checked attrs id _ hfit2]
    rfl
  | toggleIfTrue id ns key =>
    simp only [Field.fits, Bool.and_eq_true, Bool.not_eq_true', decide_eq_true_eq] at hfit
    obtain ⟨⟨he, hn⟩, hm, hfit2⟩ := hfit
    subst he hn hm
    simp only [Field.closing, Field.interpolation, List.cons_append, List.nil_append]
    rw [Tokenizer.run_checked, inputsOf_cons_input, toInput_checked attrs id _ hfit2]
    rfl

/-- The `input` elements of a template whose texts fit its lines are the elements that
the lines write, whenever no interpolated text holds a double quote. -/
theorem inputsOf_run_segments (settings : JsValue) :
    ∀ (fields : List Field) (body : List Char) (texts : List String),
      segmentsFit body texts fields = true →
      (∀ f ∈ fields, '"' ∉ (f.interpolation settings).toList) →
      inputsOf (Tokenizer.start.run (body ++
        (templateLiteral ("" :: texts) (fields.map (Field.interpolation settings))).toList)) =
      fields.map (Field.render settings) := by
  intro fields
  induction fields with
  | nil =>
    intro body texts hfit _
    simp only [segmentsFit, Bool.and_eq_true, List.isEmpty_iff] at hfit
    obtain ⟨ht, hb⟩ := hfit
    subst ht
    simp only [List.map_nil, templateLiteral]
    have : ("" : String).toList = [] := rfl
    rw [this, List.append_nil, hb]
  | cons f fields ih =>
    intro body texts hfit hq
    cases texts with
    | nil => simp [segmentsFit] at hfit
    | cons next texts =>
      simp only [segmentsFit, Bool.and_eq_true, List.isEmpty_iff] at hfit
      obtain ⟨⟨hb, hf⟩, hpre, hrest⟩ := hfit
      have hnext : next.toList = f.closing ++ next.toList.drop f.closing.length := by
        have := List.isPrefixOf_iff_prefix.mp hpre
        exact (List.prefix_iff_eq_append.mp this).symm
      have hchars : (templateLiteral ("" :: next :: texts)
            ((f :: fields).map (Field.interpolation settings))).toList =
          (f.interpolation settings).toList ++ (f.closing ++
            (next.toList.drop f.closing.length ++
              (templateLiteral ("" :: texts)
                (fields.map (Field.interpolation settings))).toList)) := by
        simp only [List.map_cons, templateLiteral]
        rw [String.toList, String.data_append, String.data_append]
        have e := templateLiteral_toList next texts (fields.map (Field.interpolation settings))
        rw [String.toList] at e
        rw [e]
        have : ("" : String).data = [] := rfl
        rw [this, List.nil_append]
        conv_lhs => rw [hnext]
        rw [List.append_assoc]
        rfl
      rw [hchars, Tokenizer.run_append, inputsOf_append, hb, List.nil_append,
        run_interpolation settings f _ hf (hq f (List.mem_cons_self _ _)),
        ih _ _ hrest (fun g hg => hq g (List.mem_cons_of_mem _ hg))]
      rfl

theorem not_mem_of_isPlainValue {s : String} (h : isPlainValue s = true) :
    '"' ∉ s.toList := by
  intro hm
  have := List.all_eq_true.mp h _ hm
  simp at this

/-- The literal texts of each of the nine templates fit its lines. -/
theorem allTemplates_fit : ∀ p ∈ allTemplates, templateFits p.1 p.2.1 = true := by
  decide!

/-- In the markup of each template, rendered for the empty settings object, no two
elements share an id: the element that `getElementById` finds for the id of an `input`
element is that `input` element. -/
theorem allTemplates_ids_nodup : ∀ p ∈ allTemplates,
    ((startTags (templateLiteral p.1
      (p.2.1.map (Field.interpolation (JsValue.object []))))).filterMap
        fun t => t.attr "id").Nodup := by
  decide!

/-- The elements of each of the nine generators are those that its lines write. -/
theorem allTemplates_render (p : List String × List Field × (JsValue → List Input))
    (hp : p ∈ allTemplates) (settings : JsValue) :
    p.2.2 settings = p.2.1.map (Field.render settings) := by
  simp only [allTemplates, List.mem_cons, List.mem_singleton, List.not_mem_nil, or_false] at hp
  rcases hp with rfl | rfl | rfl | rfl | rfl | rfl | rfl | rfl | rfl <;> rfl

/-- The nine forms are the nine templates without their literal texts. -/
theorem allForms_eq_allTemplates : allForms = allTemplates.map fun p => (p.2.1, p.2.2) := rfl

/-- The document that a generator builds for a settings object holds the `input`
elements that the lines of its template write, whenever every interpolated text stands
for itself inside an attribute value: the generator assigns markup, and the elements
parsed from it are those of the lines, in the same order. -/
theorem inputElements_generateMarkup (props : List (String × JsValue))
    (p : List String × List Field × (JsValue → List Input)) (hp : p ∈ allTemplates)
    (hq : ∀ f ∈ p.2.1, isPlainValue (f.interpolation (JsValue.object props)) = true) :
    ∃ markup : String, generateMarkup p.1 p.2.1 (JsValue.object props) = some markup ∧
      inputElements markup = p.2.2 (JsValue.object props) := by
  refine ⟨_, rfl, ?_⟩
  have h := allTemplates_fit p hp
  rw [allTemplates_render p hp]
  unfold templateFits at h
  unfold inputElements startTags
  generalize p.1 = texts at h
  cases texts with
  | nil => simp at h
  | cons first texts =>
    simp only at h
    rw [templateLiteral_toList]
    exact inputsOf_run_segments _ _ _ _ h fun f hf => not_mem_of_isPlainValue (hq f hf)

/-- The value a template line reads for a key of a group is the value the settings object
stores there. -/
theorem get_settingsGroup_object (props : List (String × JsValue)) (group key : String) :
    (settingsGroup (JsValue.object props) group).get key = storedValue props group key := by
  unfold settingsGroup storedValue
  simp only [JsValue.get]
  cases props.lookup group with
  | none => simp [JsValue.orElse, JsValue.truthy]
  | some v =>
    cases v with
    | undefined => simp [JsValue.orElse, JsValue.truthy]
    | null => simp [JsValue.orElse, JsValue.truthy]
    | bool b => cases b <;> simp [JsValue.orElse, JsValue.truthy]
    | number n =>
      by_cases hn : n = 0 <;> simp [JsValue.orElse, JsValue.truthy, hn]
    | string s =>
      by_cases hs : s = "" <;> simp [JsValue.orElse, JsValue.truthy, hs]
    | object values => simp [JsValue.orElse, JsValue.truthy]

/-- The template lines of the checkboxes: in each of the nine forms and for every settings
object, the line of a checkbox that tests `!== false` reads a default-true key and writes
`checked` if and only if the value stored under that key of its group is not exactly
`false`, and the line of a checkbox that tests `=== true` reads a default-false key and
writes `checked` if and only if the stored value is exactly `true`. -/
theorem checkbox_checked_iff_stored (props : List (String × JsValue))
    (p : List Field × (JsValue → List Input)) (hp : p ∈ allForms) (id group key : String) :
    (Field.toggleUnlessFalse id group key ∈ p.1 →
      key ∈ defaultTrueKeys ∧ key ∉ defaultFalseKeys ∧
      (checkedOf (p.2 (JsValue.object props)) id).isSome = true ∧
      (checkedOf (p.2 (JsValue.object props)) id = some true ↔
        storedValue props group key ≠ JsValue.bool false)) ∧
    (Field.toggleIfTrue id group key ∈ p.1 →
      key ∈ defaultFalseKeys ∧ key ∉ defaultTrueKeys ∧
      (checkedOf (p.2 (JsValue.object props)) id).isSome = true ∧
      (checkedOf (p.2 (JsValue.object props)) id = some true ↔
        storedValue props group key = JsValue.bool true)) := by
  obtain ⟨hgen, hnodup⟩ := allForms_spec p hp
  constructor
  · intro hf
    have hcls := allForms_toggles p hp _ hf
    have hchk := checkedOf_map_render (JsValue.object props) p.1 hnodup _ hf
    rw [← hgen (JsValue.object props)] at hchk
    simp only [Field.testMatchesKey, Bool.and_eq_true, Bool.not_eq_true',
      decide_eq_true_eq, decide_eq_false_iff_not] at hcls
    simp only [Field.id] at hchk
    rw [hchk]
    refine ⟨hcls.1, hcls.2, rfl, ?_⟩
    simp only [Field.render, Field.stored, get_settingsGroup_object, Option.some.injEq,
      Bool.not_eq_true', ne_eq]
    rw [← JsValue.isFalse_iff, Bool.not_eq_true]
  · intro hf
    have hcls := allForms_toggles p hp _ hf
    have hchk := checkedOf_map_render (JsValue.object props) p.1 hnodup _ hf
    rw [← hgen (JsValue.object props)] at hchk
    simp only [Field.testMatchesKey, Bool.and_eq_true, Bool.not_eq_true',
      decide_eq_true_eq, decide_eq_false_iff_not] at hcls
    simp only [Field.id] at hchk
    rw [hchk]
    refine ⟨hcls.1, hcls.2, rfl, ?_⟩
    simp only [Field.render, Field.stored, get_settingsGroup_object, Option.some.injEq]
    exact JsValue.isTrue_iff _

/-- The toggles of the documents: for every settings object all of whose interpolated
texts stand for themselves inside an attribute value, each of the nine generators
assigns markup, and in the document built from it the checkbox of a default-true key
(tested with `!== false`) is checked if and only if the value stored under that key of
its group is not exactly `false`, and the checkbox of a default-false key (tested with
`=== true`) is checked if and only if the stored value is exactly `true`. -/
theorem document_checkbox_checked_iff_stored (props : List (String × JsValue))
    (p : List String × List Field × (JsValue → List Input)) (hp : p ∈ allTemplates)
    (hq : ∀ f ∈ p.2.1, isPlainValue (f.interpolation (JsValue.object props)) = true) :
    ∃ markup : String, generateMarkup p.1 p.2.1 (JsValue.object props) = some markup ∧
      ∀ id group key : String,
        (Field.toggleUnlessFalse id group key ∈ p.2.1 →
          key ∈ defaultTrueKeys ∧
          (checkedOf (inputElements markup) id = some true ↔
            storedValue props group key ≠ JsValue.bool false)) ∧
        (Field.toggleIfTrue id group key ∈ p.2.1 →
          key ∈ defaultFalseKeys ∧
          (checkedOf (inputElements markup) id = some true ↔
            storedValue props group key = JsValue.bool true)) := by
  obtain ⟨markup, hm, he⟩ := inputElements_generateMarkup props p hp hq
  refine ⟨markup, hm, fun id group key => ?_⟩
  have hp2 : (p.2.1, p.2.2) ∈ allForms := by
    rw [allForms_eq_allTemplates]
    exact List.mem_map_of_mem _ hp
  have h := checkbox_checked_iff_stored props (p.2.1, p.2.2) hp2 id group key
  rw [he]
  exact ⟨fun hf => ⟨(h.1 hf).1, (h.1 hf).2.2.2⟩, fun hf => ⟨(h.2 hf).1, (h.2 hf).2.2.2⟩⟩

/-- C20 (code bug): `monitored_only` is a default-true toggle.  The templates of
`generateSonarrForm` write the stored texts into the `value` attributes as they are, so
the first double quote of a stored text ends the attribute and the rest of the text is
read as markup.  For the settings objects of `commentSettings` and
`commentStaticSettings`, which store exactly `true` for the toggle, the rest opens a
comment that runs to the end of the markup: the document holds three `input` elements
(one in the static file) and no checkbox with the id `monitored_only` at all, so the
toggle is not rendered checked although its stored value is not exactly `false`.  For
the settings objects of `quotedUrlSettings` and `quotedUrlStaticSettings`, which store
exactly `false` for the toggle, the rest holds two tags: the document holds 18 `input`
elements where the template has 16 lines (14 for 12 in the static file), the second of
them a checked checkbox with the id `monitored_only`, and the checkbox that
`getElementById` finds for the toggle is checked although the stored value is exactly
`false`.  With the same stored values and a URL without a double quote the elements are
those of the template lines, and the checkbox is not checked. -/
theorem generateSonarrForm_quoted_value :
    "monitored_only" ∈ defaultTrueKeys ∧
    (storedValue commentSettings "sonarr" "monitored_only" = JsValue.bool true ∧
      (Frontend.generateSonarrMarkup (JsValue.object commentSettings)).map inputElements =
        some [⟨"text", "sonarr_api_url", "", false⟩, ⟨"text", "sonarr_api_key", "", false⟩,
              ⟨"number", "hunt_missing_shows", "", false⟩] ∧
      (Frontend.generateSonarrMarkup (JsValue.object commentSettings)).map
        (fun markup => checkedOf (inputElements markup) "monitored_only") = some none) ∧
    (storedValue commentStaticSettings "huntarr" "monitored_only" = JsValue.bool true ∧
      (Static.generateSonarrMarkup (JsValue.object commentStaticSettings)).map inputElements =
        some [⟨"text", "sonarr_api_url", "", false⟩] ∧
      (Static.generateSonarrMarkup (JsValue.object commentStaticSettings)).map
        (fun markup => checkedOf (inputElements markup) "monitored_only") = some none) ∧
    (storedValue quotedUrlSettings "sonarr" "monitored_only" = JsValue.bool false ∧
      Frontend.sonarrFields.length = 16 ∧
      (Frontend.generateSonarrMarkup (JsValue.object quotedUrlSettings)).map
        (fun markup => (inputElements markup).length) = some 18 ∧
      (Frontend.generateSonarrMarkup (JsValue.object quotedUrlSettings)).map
        (fun markup => (inputElements markup).take 3) =
        some [⟨"text", "sonarr_api_url", "", false⟩,
              ⟨"checkbox", "monitored_only", "", true⟩,
              ⟨"hidden", "", "", false⟩] ∧
      (Frontend.generateSonarrMarkup (JsValue.object quotedUrlSettings)).map
        (fun markup => checkedOf (inputElements markup) "monitored_only") =
        some (some true)) ∧
    (storedValue quotedUrlStaticSettings "huntarr" "monitored_only" = JsValue.bool false ∧
      Static.sonarrFields.length = 12 ∧
      (Static.generateSonarrMarkup (JsValue.object quotedUrlStaticSettings)).map
        (fun markup => (inputElements markup).length) = some 14 ∧
      (Static.generateSonarrMarkup (JsValue.object quotedUrlStaticSettings)).map
        (fun markup => checkedOf (inputElements markup) "monitored_only") =
        some (some true)) ∧
    (storedValue plainUrlSettings "sonarr" "monitored_only" = JsValue.bool false ∧
      (Frontend.generateSonarrMarkup (JsValue.object plainUrlSettings)).map inputElements =
        some (Frontend.generateSonarrForm (JsValue.object plainUrlSettings)) ∧
      checkedOf (Frontend.generateSonarrForm (JsValue.object plainUrlSettings))
        "monitored_only" = some false) :=
  ⟨by decide, ⟨rfl, by decide!, by decide!⟩, ⟨rfl, by decide!, by decide!⟩,
    ⟨rfl, rfl, by decide!, by decide!, by decide!⟩, ⟨rfl, rfl, by decide!, by decide!⟩,
    ⟨rfl, by decide!, by decide!⟩⟩

/-! ## The log stream -/

/-- The search of `includes` finds exactly the contiguous runs. -/
theorem includesChars_iff (cs sub : List Char) :
    includesChars cs sub = true ↔ sub <:+: cs := by
  induction cs with
  | nil =>
    unfold includesChars
    rw [List.isEmpty_iff, List.infix_nil]
  | cons c cs ih =>
    unfold includesChars
    rw [Bool.or_eq_true, ih, List.isPrefixOf_iff_prefix, List.infix_cons_iff]

theorem includes_iff (s sub : String) : includes s sub = true ↔ sub.toList <:+: s.toList :=
  includesChars_iff _ _

/-- C21: for every log line received from the stream, the entry appended to the log has
the class `log-entry` and after it at most one level class: the class of the first of
the markers " - INFO - ", " - WARNING - ", " - ERROR - ", " - DEBUG - " (in that order)
that occurs in the line, and no level class when none of them occurs; the text of the
entry is the line unchanged. -/
theorem onmessage_level_class (data : String) :
    (onmessage data).textContent = data ∧
    (onmessage data).classList = "log-entry" ::
      ((levelMarkers.find? fun m => decide (m.1.toList <:+: data.toList)).map
        Prod.snd).toList ∧
    ((onmessage data).classList.filter fun c =>
      decide (c ∈ levelMarkers.map Prod.snd)).length ≤ 1 := by
  have key : (onmessage data).classList = "log-entry" ::
      ((levelMarkers.find? fun m => decide (m.1.toList <:+: data.toList)).map
        Prod.snd).toList := by
    unfold onmessage levelMarkers
    simp only [List.find?, ← includes_iff]
    by_cases h1 : includes data " - INFO - " = true
    · simp [h1]
    · by_cases h2 : includes data " - WARNING - " = true
      · simp [h1, h2]
      · by_cases h3 : includes data " - ERROR - " = true
        · simp [h1, h2, h3]
        · by_cases h4 : includes data " - DEBUG - " = true
          · simp [h1, h2, h3, h4]
          · simp [h1, h2, h3, h4]
  refine ⟨rfl, key, ?_⟩
  rw [key]
  cases h : (levelMarkers.find? fun m => decide (m.1.toList <:+: data.toList)) with
  | none => decide
  | some m =>
    have hm := List.mem_of_find?_eq_some h
    simp only [levelMarkers, List.mem_cons, List.mem_singleton, List.not_mem_nil,
      or_false] at hm
    rcases hm with rfl | rfl | rfl | rfl <;> decide


/-! ## `parseInt` with radix 10 -/

theorem decDigit_of_isRadixDigit_ten {c : Char} (h : isRadixDigit 10 c = true) :
    '0' ≤ c ∧ c ≤ '9' := by
  unfold isRadixDigit digitOf at h
  split_ifs at h with a b d
  · exact a
  · exfalso
    have h1 : ('a' : Char).toNat ≤ c.toNat := b.1
    have e1 : ('a' : Char).toNat = 97 := rfl
    simp only [decide_eq_true_eq] at h
    omega
  · exfalso
    have h1 : ('A' : Char).toNat ≤ c.toNat := d.1
    have e1 : ('A' : Char).toNat = 65 := rfl
    simp only [decide_eq_true_eq] at h
    omega

theorem takeWhile_decDigits (ds rest : List Char) (hds : ∀ c ∈ ds, '0' ≤ c ∧ c ≤ '9')
    (hrest : ∀ c ∈ rest.head?, ¬ ('0' ≤ c ∧ c ≤ '9')) :
    (ds ++ rest).takeWhile (isRadixDigit 10) = ds := by
  rw [List.takeWhile_append_of_pos (fun a ha => isRadixDigit_ten_of_decDigit (hds a ha))]
  cases rest with
  | nil => simp
  | cons r rest =>
    have hr : ¬ isRadixDigit 10 r = true := fun h =>
      hrest r (by simp) (decDigit_of_isRadixDigit_ten h)
    rw [List.takeWhile_cons_of_neg hr, List.append_nil]

/-- After the sign, `parseInt(text, 10)` reads the run of decimal digits. -/
theorem parseIntChars_ten_unsigned (neg : Bool) (ws body ds rest : List Char)
    (hws : ∀ c ∈ ws, isStrWhiteSpace c = true)
    (hbody : (body.dropWhile isStrWhiteSpace) = body)
    (hsign : stripSign body = (neg, ds ++ rest))
    (hne : ds ≠ []) (hds : ∀ c ∈ ds, '0' ≤ c ∧ c ≤ '9')
    (hrest : ∀ c ∈ rest.head?, ¬ ('0' ≤ c ∧ c ≤ '9')) :
    parseIntChars 10 (ws ++ body) =
      some (fl (if neg = true then -(digitsValue 10 ds : ℚ) else (digitsValue 10 ds : ℚ))) := by
  unfold parseIntChars
  rw [if_neg (by simp), List.dropWhile_append_of_pos hws, hbody, hsign]
  simp only [show ¬ ((10 : ℕ) = 0 ∨ (10 : ℕ) = 16) by norm_num, if_false, Option.isSome_none,
    Option.getD_none, Bool.false_eq_true,
    show (if (10 : ℕ) = 0 then (10 : ℕ) else 10) = 10 by norm_num]
  rw [takeWhile_decDigits ds rest hds hrest, if_neg hne]

theorem decDigit_ne_sign {c : Char} (h : '0' ≤ c ∧ c ≤ '9') : c ≠ '-' ∧ c ≠ '+' := by
  have hcn := toNat_of_decDigit h
  constructor
  · intro h
    rw [h] at hcn
    have : ('-' : Char).toNat = 45 := rfl
    omega
  · intro h
    rw [h] at hcn
    have : ('+' : Char).toNat = 43 := rfl
    omega

/-- The call `parseInt(text, 10)` on a text that holds an integer returns the Number
nearest to that integer. -/
theorem parseIntChars_ten_of_holdsInteger {cs : List Char} {z : ℤ} (h : HoldsInteger cs z) :
    parseIntChars 10 cs = some (fl (z : ℚ)) := by
  obtain ⟨ws, sign, ds, rest, rfl, hws, hsign, hne, hds, hrest, rfl⟩ := h
  obtain ⟨c, t, rfl⟩ := List.exists_cons_of_ne_nil hne
  have hc := hds c (List.mem_cons_self c t)
  have hcs := decDigit_ne_sign hc
  rcases hsign with rfl | rfl | rfl
  · have := parseIntChars_ten_unsigned false ws (c :: t ++ rest) (c :: t) rest hws
      (by
        rw [List.cons_append, List.dropWhile_cons_of_neg]
        rw [not_isStrWhiteSpace_of_decDigit hc]
        simp)
      (by
        unfold stripSign
        simp only [List.cons_append]
        rw [if_neg hcs.1, if_neg hcs.2])
      hne hds hrest
    simpa using this
  · have := parseIntChars_ten_unsigned false ws ('+' :: (c :: t ++ rest)) (c :: t) rest hws
      (by
        rw [List.dropWhile_cons_of_neg]
        decide)
      (by
        unfold stripSign
        simp)
      hne hds hrest
    simpa using this
  · have := parseIntChars_ten_unsigned true ws ('-' :: (c :: t ++ rest)) (c :: t) rest hws
      (by
        rw [List.dropWhile_cons_of_neg]
        decide)
      (by
        unfold stripSign
        simp)
      hne hds hrest
    simpa using this

/-- The call `parseInt(text, 10)` on a text that holds no integer returns `NaN`. -/
theorem parseIntChars_ten_of_holdsNoInteger {cs : List Char} (h : HoldsNoInteger cs) :
    parseIntChars 10 cs = none := by
  obtain ⟨ws, sign, rest, rfl, hws, hrest, hsign⟩ := h
  have htake : rest.takeWhile (isRadixDigit 10) = [] := by
    have := takeWhile_decDigits [] rest (by simp) hrest
    simpa using this
  have key : ∀ (neg : Bool) (body : List Char), body.dropWhile isStrWhiteSpace = body →
      stripSign body = (neg, rest) → parseIntChars 10 (ws ++ body) = none := by
    intro neg body hbody hs
    unfold parseIntChars
    rw [if_neg (by simp), List.dropWhile_append_of_pos hws, hbody, hs]
    simp only [show ¬ ((10 : ℕ) = 0 ∨ (10 : ℕ) = 16) by norm_num, if_false,
      Option.isSome_none, Option.getD_none, Bool.false_eq_true,
      show (if (10 : ℕ) = 0 then (10 : ℕ) else 10) = 10 by norm_num]
    rw [htake, if_pos rfl]
  rcases hsign with ⟨rfl, hfirst⟩ | rfl | rfl
  · rw [List.append_nil]
    cases rest with
    | nil =>
      exact key false [] rfl rfl
    | cons r rest =>
      obtain ⟨h1, h2, h3⟩ := hfirst r (by simp)
      refine key false (r :: rest) ?_ ?_
      · rw [List.dropWhile_cons_of_neg]
        rw [h1]
        simp
      · unfold stripSign
        simp only
        rw [if_neg h3, if_neg h2]
  · rw [List.append_assoc]
    refine key false (['+'] ++ rest) ?_ ?_
    · rw [List.singleton_append, List.dropWhile_cons_of_neg]
      decide
    · unfold stripSign
      simp
  · rw [List.append_assoc]
    refine key true (['-'] ++ rest) ?_ ?_
    · rw [List.singleton_append, List.dropWhile_cons_of_neg]
      decide
    · unfold stripSign
      simp


/-- Every text either holds an integer or holds none. -/
theorem holdsNoInteger_or_holdsInteger (cs : List Char) :
    HoldsNoInteger cs ∨ ∃ z : ℤ, HoldsInteger cs z := by
  have hsplit := List.takeWhile_append_dropWhile isStrWhiteSpace cs
  have hws : ∀ c ∈ cs.takeWhile isStrWhiteSpace, isStrWhiteSpace c = true := fun c hc =>
    List.mem_takeWhile_imp hc
  -- what follows the sign is a run of digits and a rest
  have main : ∀ (sign body : List Char), cs = cs.takeWhile isStrWhiteSpace ++ sign ++ body →
      ((sign = [] ∧ ∀ c ∈ body.head?, isStrWhiteSpace c = false ∧ c ≠ '+' ∧ c ≠ '-') ∨
        sign = ['+'] ∨ sign = ['-']) →
      HoldsNoInteger cs ∨ ∃ z : ℤ, HoldsInteger cs z := by
    intro sign body hcs hsign
    have hb := List.takeWhile_append_dropWhile
      (fun c => decide ('0' ≤ c ∧ c ≤ '9')) body
    have hds : ∀ c ∈ body.takeWhile (fun c => decide ('0' ≤ c ∧ c ≤ '9')),
        '0' ≤ c ∧ c ≤ '9' := fun c hc => by
      simpa using List.mem_takeWhile_imp hc
    have hrest : ∀ c ∈ (body.dropWhile (fun c => decide ('0' ≤ c ∧ c ≤ '9'))).head?,
        ¬ ('0' ≤ c ∧ c ≤ '9') := by
      intro c hc
      have := List.head?_dropWhile_not (fun c => decide ('0' ≤ c ∧ c ≤ '9')) body
      rw [Option.mem_def.mp hc] at this
      simpa using this
    by_cases hne : body.takeWhile (fun c => decide ('0' ≤ c ∧ c ≤ '9')) = []
    · left
      rw [hne, List.nil_append] at hb
      rw [hb] at hrest
      exact ⟨_, sign, body, hcs, hws, hrest, hsign⟩
    · right
      refine ⟨_, _, sign, _, _, ?_, hws, ?_, hne, hds, hrest, rfl⟩
      · rw [List.append_assoc _ _ (List.dropWhile _ body), hb]
        exact hcs
      · rcases hsign with ⟨h, _⟩ | h | h
        · exact Or.inl h
        · exact Or.inr (Or.inl h)
        · exact Or.inr (Or.inr h)
  cases hbody : cs.dropWhile isStrWhiteSpace with
  | nil =>
    refine main [] [] ?_ (Or.inl ⟨rfl, by simp⟩)
    rw [hbody] at hsplit
    simpa using hsplit.symm
  | cons c t =>
    have hc : isStrWhiteSpace c = false := by
      have := List.head?_dropWhile_not isStrWhiteSpace cs
      rw [hbody] at this
      simpa using this
    rw [hbody] at hsplit
    by_cases hp : c = '+'
    · subst hp
      exact main ['+'] t (by simpa using hsplit.symm) (Or.inr (Or.inl rfl))
    · by_cases hm : c = '-'
      · subst hm
        exact main ['-'] t (by simpa using hsplit.symm) (Or.inr (Or.inr rfl))
      · refine main [] (c :: t) (by simpa using hsplit.symm) (Or.inl ⟨rfl, ?_⟩)
        intro x hx
        have : x = c := by simpa using hx.symm
        subst this
        exact ⟨hc, hp, hm⟩

/-! ## `parseNumericSetting` -/

/-- C22 (as stated, refuted): the string "9007199254740993" holds the base-10 integer
9007199254740993, but `parseNumericSetting` returns 9007199254740992 for it, the
nearest Number. -/
theorem parseNumericSetting_cases_counterexample :
    HoldsInteger "9007199254740993".toList 9007199254740993 ∧
    parseNumericSetting (SettingValue.string "9007199254740993")
        (SettingValue.number (some 0)) =
      SettingValue.number (some 9007199254740992) ∧
    parseNumericSetting (SettingValue.string "9007199254740993")
        (SettingValue.number (some 0)) ≠
      SettingValue.number (some 9007199254740993) := by
  refine ⟨⟨[], [], "9007199254740993".toList, [], rfl, by simp, Or.inl rfl, by decide,
    by decide, by simp, by decide⟩, by decide!, by decide!⟩

/-- C22 (amended): `parseNumericSetting(value, defaultValue)` returns `defaultValue`
(0 when the argument is omitted or `undefined`) when `value` is `undefined` or `null` or
is a string from which no base-10 integer can be parsed, or is a boolean; returns `value`
unchanged when `value` is a number (an infinity included); and for a string that holds a
base-10 integer returns the Number nearest to that integer: the integer itself when its
size is below 2^53, and `Infinity` or `-Infinity` when the nearest value is out of the
binary64 range.  Every string holds an integer or none. -/
theorem parseNumericSetting_cases (d : SettingValue) :
    defaultParameter SettingValue.undefined (SettingValue.number (some 0)) =
      SettingValue.number (some 0) ∧
    (d ≠ SettingValue.undefined →
      defaultParameter d (SettingValue.number (some 0)) = d) ∧
    parseNumericSetting SettingValue.undefined d =
      defaultParameter d (SettingValue.number (some 0)) ∧
    parseNumericSetting SettingValue.null d =
      defaultParameter d (SettingValue.number (some 0)) ∧
    (∀ x : Option ℚ, parseNumericSetting (SettingValue.number x) d = SettingValue.number x) ∧
    (∀ negative : Bool, parseNumericSetting (SettingValue.infinity negative) d =
      SettingValue.infinity negative) ∧
    (∀ b : Bool, parseNumericSetting (SettingValue.bool b) d =
      defaultParameter d (SettingValue.number (some 0))) ∧
    (∀ s : String, HoldsNoInteger s.toList →
      parseNumericSetting (SettingValue.string s) d =
        defaultParameter d (SettingValue.number (some 0))) ∧
    (∀ (s : String) (z : ℤ), HoldsInteger s.toList z →
      parseNumericSetting (SettingValue.string s) d =
        if (2 : ℚ) ^ 1024 ≤ |fl (z : ℚ)| then SettingValue.infinity (decide (z < 0))
        else SettingValue.number (some (fl z))) ∧
    (∀ (s : String) (z : ℤ), HoldsInteger s.toList z → |z| < 2 ^ 53 →
      parseNumericSetting (SettingValue.string s) d = SettingValue.number (some (z : ℚ))) ∧
    (∀ s : String, HoldsNoInteger s.toList ∨ ∃ z : ℤ, HoldsInteger s.toList z) := by
  refine ⟨rfl, ?_, rfl, rfl, fun x => rfl, fun negative => rfl, ?_, ?_, ?_, ?_, fun s =>
    holdsNoInteger_or_holdsInteger _⟩
  · intro hd
    unfold defaultParameter
    rw [if_neg hd]
  · intro b
    cases b
    · have : parseIntChars 10 (SettingValue.bool false).toStr.toList = none := by decide!
      unfold parseNumericSetting
      simp only [this]
    · have : parseIntChars 10 (SettingValue.bool true).toStr.toList = none := by decide!
      unfold parseNumericSetting
      simp only [this]
  · intro s hs
    have := parseIntChars_ten_of_holdsNoInteger hs
    unfold parseNumericSetting
    simp only [SettingValue.toStr, this]
  · intro s z hs
    have := parseIntChars_ten_of_holdsInteger hs
    have hsign : decide (fl (z : ℚ) < 0) = decide (z < 0) := by
      rw [decide_eq_decide]
      constructor
      · intro h
        by_contra hz
        have : (0 : ℚ) ≤ fl (z : ℚ) := fl_nonneg (by exact_mod_cast not_lt.mp hz)
        linarith
      · intro h
        have h1 : IsBinary64 (-1 : ℚ) := ⟨-1, 0, by norm_num, by norm_num⟩
        have h2 : (z : ℚ) ≤ -1 := by
          have : z ≤ -1 := by omega
          exact_mod_cast this
        have := fl_le_of_le h1 h2
        linarith
    unfold parseNumericSetting
    simp only [SettingValue.toStr, this, hsign]
  · intro s z hs hz
    have := parseIntChars_ten_of_holdsInteger hs
    rw [fl_intCast z hz] at this
    have hsmall : ¬ (2 : ℚ) ^ 1024 ≤ |(z : ℚ)| := by
      have h1 : |(z : ℚ)| < 2 ^ 53 := by exact_mod_cast hz
      have h2 : (2 : ℚ) ^ 53 ≤ 2 ^ 1024 := pow_le_pow_right₀ (by norm_num) (by norm_num)
      exact not_le.mpr (lt_of_lt_of_le h1 h2)
    unfold parseNumericSetting
    simp only [SettingValue.toStr, this, if_neg hsmall]

/-- Witness for C22 (amended): the default 5 with the strings "abc" and " -42px", and
with the numerals of 10^309 and -10^309, which are out of the binary64 range. -/
theorem parseNumericSetting_cases_witness :
    (SettingValue.number (some 5) ≠ SettingValue.undefined ∧
      defaultParameter (SettingValue.number (some 5)) (SettingValue.number (some 0)) =
        SettingValue.number (some 5)) ∧
    (HoldsNoInteger "abc".toList ∧
      parseNumericSetting (SettingValue.string "abc") (SettingValue.number (some 5)) =
        defaultParameter (SettingValue.number (some 5)) (SettingValue.number (some 0))) ∧
    ((HoldsInteger " -42px".toList (-42) ∧ |(-42 : ℤ)| < 2 ^ 53) ∧
      parseNumericSetting (SettingValue.string " -42px") (SettingValue.number (some 5)) =
        SettingValue.number (some ((-42 : ℤ) : ℚ))) ∧
    (HoldsInteger (String.mk ('1' :: List.replicate 309 '0')).toList (10 ^ 309) ∧
      parseNumericSetting (SettingValue.string (String.mk ('1' :: List.replicate 309 '0')))
        (SettingValue.number (some 5)) = SettingValue.infinity false) ∧
    (HoldsInteger (String.mk ('-' :: '1' :: List.replicate 309 '0')).toList (-10 ^ 309) ∧
      parseNumericSetting
        (SettingValue.string (String.mk ('-' :: '1' :: List.replicate 309 '0')))
        (SettingValue.number (some 5)) = SettingValue.infinity true) :=
  have h1 : SettingValue.number (some 5) ≠ SettingValue.undefined := by decide
  have h2 : HoldsNoInteger "abc".toList :=
    ⟨[], [], "abc".toList, rfl, by simp, by decide, Or.inl ⟨rfl, by decide⟩⟩
  have h3 : HoldsInteger " -42px".toList (-42) :=
    ⟨[' '], ['-'], ['4', '2'], ['p', 'x'], rfl, by decide, Or.inr (Or.inr rfl), by decide,
      by decide, by decide, by decide⟩
  have h4 : |(-42 : ℤ)| < 2 ^ 53 := by decide
  have h5 : HoldsInteger (String.mk ('1' :: List.replicate 309 '0')).toList (10 ^ 309) :=
    ⟨[], [], '1' :: List.replicate 309 '0', [], by decide!, by simp, Or.inl rfl,
      List.cons_ne_nil _ _, by decide!, by simp, by decide!⟩
  have h6 : HoldsInteger (String.mk ('-' :: '1' :: List.replicate 309 '0')).toList
      (-10 ^ 309) :=
    ⟨[], ['-'], '1' :: List.replicate 309 '0', [], by decide!, by simp, Or.inr (Or.inr rfl),
      List.cons_ne_nil _ _, by decide!, by simp, by decide!⟩
  ⟨⟨h1, (parseNumericSetting_cases (SettingValue.number (some 5))).2.1 h1⟩,
   ⟨h2, (parseNumericSetting_cases (SettingValue.number (some 5))).2.2.2.2.2.2.2.1 "abc" h2⟩,
   ⟨⟨h3, h4⟩,
    (parseNumericSetting_cases (SettingValue.number (some 5))).2.2.2.2.2.2.2.2.2.1
      " -42px" (-42) h3 h4⟩,
   ⟨h5, ((parseNumericSetting_cases (SettingValue.number (some 5))).2.2.2.2.2.2.2.2.1
      _ (10 ^ 309) h5).trans (by decide!)⟩,
   ⟨h6, ((parseNumericSetting_cases (SettingValue.number (some 5))).2.2.2.2.2.2.2.2.1
      _ (-10 ^ 309) h6).trans (by decide!)⟩⟩


/-! ## The flip without clamping, the band edges and the formatter read back -/

/-- C23: the flip in `moveStatsTooltip` is not followed by any clamping: there are a
pointer inside the viewport, a tooltip size and a viewport size, the tooltip wider than
the space left of the pointer, for which the horizontal position computed is the flipped
one and is negative, so the left edge of the tooltip lies outside the viewport. -/
theorem moveStatsTooltip_flip_overflow :
    ∃ px py w h vw vh : ℤ, 0 ≤ px ∧ px ≤ vw ∧ 0 ≤ py ∧ py ≤ vh ∧ px - 15 < w ∧
      ∃ x y : ℤ, moveStatsTooltip (some ⟨w, h⟩) ⟨vw, vh⟩ ⟨px, py⟩ = some (x, y) ∧
        x = px - w - 15 ∧ x < 0 :=
  ⟨10, 10, 100, 50, 120, 100, by decide, by decide, by decide, by decide, by decide,
    -105, 20, by decide, by decide, by decide⟩

/-- The tenths shown for a quotient `n / d` between `lo` and `hi` lie between `10 * lo`
and `10 * hi`. -/
theorem tenths_bounds_of_showsTenths (s u : String) (n d lo hi : ℕ) (hd : 0 < d)
    (h : ShowsTenths s n d u) (h1 : lo * d ≤ n) (h2 : n < hi * d) :
    ∃ k : ℕ, s = fixedDigits 1 k ++ u ∧ 10 * lo ≤ k ∧ k ≤ 10 * hi := by
  obtain ⟨k, hs, hk, _⟩ := h
  have hdq : (0 : ℚ) < d := by exact_mod_cast hd
  have hlo : (lo : ℚ) ≤ (n : ℚ) / d := by
    rw [le_div_iff₀ hdq]
    exact_mod_cast h1
  have hhi : (n : ℚ) / d < hi := by
    rw [div_lt_iff₀ hdq]
    exact_mod_cast h2
  rw [abs_le] at hk
  refine ⟨k, hs, ?_, ?_⟩
  · have : (10 * lo : ℚ) - 1 < k := by linarith [hk.1]
    have : (10 * lo : ℤ) - 1 < k := by exact_mod_cast this
    omega
  · have : (k : ℚ) < 10 * hi + 1 := by linarith [hk.2]
    have : (k : ℤ) < 10 * hi + 1 := by exact_mod_cast this
    omega

/-- C24 (as stated, refuted): 9960000 lies in the band 1,000,000 to 9,999,999 and is
shown as "10.0 MIL", above 9.9; 99950 lies in the band 1000 to 99,999 and is shown as
"100.0K", above 99.9; 999960000000 lies in the band 10^9 to 10^12 and is shown as
"1000.0 BIL", not below 1000. -/
theorem formatLargeNumber_band_edges_counterexample :
    (1000000 ≤ 9960000 ∧ 9960000 < 10000000) ∧
    formatLargeNumber 9960000 = "10.0 MIL" ∧
    formatLargeNumber 9960000 = fixedDigits 1 100 ++ " MIL" ∧ ¬ (100 ≤ 99) ∧
    (1000 ≤ 99950 ∧ 99950 < 100000) ∧
    formatLargeNumber 99950 = "100.0K" ∧
    formatLargeNumber 99950 = fixedDigits 1 1000 ++ "K" ∧ ¬ (1000 ≤ 999) ∧
    (1000000000 ≤ 999960000000 ∧ 999960000000 < 1000000000000) ∧
    formatLargeNumber 999960000000 = "1000.0 BIL" ∧
    formatLargeNumber 999960000000 = fixedDigits 1 10000 ++ " BIL" ∧ ¬ (10000 < 10000) := by
  decide!

/-- C24 (amended): for every integer `n` with `1,000,000 ≤ n < 10,000,000` the number
`formatLargeNumber` shows before " MIL" lies between 1.0 and 10.0 inclusive; for every
`n` with `1000 ≤ n < 100000` the number shown before "K" lies between 1.0 and 100.0
inclusive; and for every `n` with `10^9 ≤ n < 10^12` the number shown before " BIL" lies
between 1.0 and 1000.0 inclusive.  The number shown is `k / 10` for the count `k` of
tenths that `toFixed(1)` prints. -/
theorem formatLargeNumber_band_edges (n : ℕ) :
    (1000000 ≤ n → n < 10000000 →
      ∃ k : ℕ, formatLargeNumber n = fixedDigits 1 k ++ " MIL" ∧ 10 ≤ k ∧ k ≤ 100) ∧
    (1000 ≤ n → n < 100000 →
      ∃ k : ℕ, formatLargeNumber n = fixedDigits 1 k ++ "K" ∧ 10 ≤ k ∧ k ≤ 1000) ∧
    (1000000000 ≤ n → n < 1000000000000 →
      ∃ k : ℕ, formatLargeNumber n = fixedDigits 1 k ++ " BIL" ∧ 10 ≤ k ∧ k ≤ 10000) := by
  refine ⟨?_, ?_, ?_⟩
  · intro h1 h2
    have hn : n < 2 ^ 53 := lt_trans h2 (by norm_num)
    have h := showsTenths_numDiv n 50000 (by norm_num) hn " MIL"
    norm_num at h
    have e : formatLargeNumber n = toFixed 1 (numDiv n 1000000) ++ " MIL" := by
      unfold formatLargeNumber
      rw [if_neg (by omega), if_neg (by omega), if_neg (by omega), if_neg (by omega),
        if_pos h2]
    rw [e]
    have := tenths_bounds_of_showsTenths _ _ n _ 1 10 (by norm_num) h (by omega)
      (by omega)
    simpa using this
  · intro h1 h2
    have hn : n < 2 ^ 53 := lt_trans h2 (by norm_num)
    have h := showsTenths_numDiv n 50 (by norm_num) hn "K"
    norm_num at h
    have e : formatLargeNumber n = toFixed 1 (numDiv n 1000) ++ "K" := by
      unfold formatLargeNumber
      rw [if_neg (by omega)]
      split_ifs <;> rfl
    rw [e]
    have := tenths_bounds_of_showsTenths _ _ n _ 1 100 (by norm_num) h (by omega)
      (by omega)
    simpa using this
  · intro h1 h2
    have hn : n < 2 ^ 53 := lt_trans h2 (by norm_num)
    have h := showsTenths_numDiv n 50000000 (by norm_num) hn " BIL"
    norm_num at h
    have e : formatLargeNumber n = toFixed 1 (numDiv n 1000000000) ++ " BIL" := by
      unfold formatLargeNumber
      rw [if_neg (by omega), if_neg (by omega), if_neg (by omega), if_neg (by omega),
        if_neg (by omega), if_neg (by omega), if_pos h2]
    rw [e]
    have := tenths_bounds_of_showsTenths _ _ n _ 1 1000 (by norm_num) h (by omega)
      (by omega)
    simpa using this

/-- Witness for C24 (amended): 9960000, 99950 and 999960000000, at the upper edges. -/
theorem formatLargeNumber_band_edges_witness :
    ((1000000 ≤ 9960000 ∧ 9960000 < 10000000) ∧
      ∃ k : ℕ, formatLargeNumber 9960000 = fixedDigits 1 k ++ " MIL" ∧ 10 ≤ k ∧ k ≤ 100) ∧
    ((1000 ≤ 99950 ∧ 99950 < 100000) ∧
      ∃ k : ℕ, formatLargeNumber 99950 = fixedDigits 1 k ++ "K" ∧ 10 ≤ k ∧ k ≤ 1000) ∧
    ((1000000000 ≤ 999960000000 ∧ 999960000000 < 1000000000000) ∧
      ∃ k : ℕ, formatLargeNumber 999960000000 = fixedDigits 1 k ++ " BIL" ∧ 10 ≤ k ∧
        k ≤ 10000) :=
  ⟨⟨by decide, (formatLargeNumber_band_edges 9960000).1 (by decide) (by decide)⟩,
   ⟨by decide, (formatLargeNumber_band_edges 99950).2.1 (by decide) (by decide)⟩,
   ⟨by decide, (formatLargeNumber_band_edges 999960000000).2.2 (by decide) (by decide)⟩⟩

theorem stripNonDigits_natToString (n : ℕ) : stripNonDigits (natToString n) = natToString n := by
  unfold stripNonDigits
  rw [List.filter_eq_self.mpr]
  · rfl
  · intro c hc
    simpa using natToString_decDigits n c hc

/-- C28: for every integer `n` with `0 ≤ n < 1000`, reading the text
`formatLargeNumber(n)` the way `showStatsTooltip` reads a counter (remove the
non-digits, parse as an integer, 0 if nothing is left) returns `n`. -/
theorem rawValue_formatLargeNumber (n : ℕ) (h : n < 1000) :
    rawValue (formatLargeNumber n) = some (n : ℚ) := by
  have e : formatLargeNumber n = natToString n := by
    unfold formatLargeNumber
    rw [if_pos h]
  rw [e, rawValue_eq, stripNonDigits_natToString, digitsValue_natToString,
    fl_natCast n (lt_trans h (by norm_num))]

/-- Witness for C28: the counter 742. -/
theorem rawValue_formatLargeNumber_witness :
    (742 : ℕ) < 1000 ∧ rawValue (formatLargeNumber 742) = some ((742 : ℕ) : ℚ) :=
  ⟨by decide, rawValue_formatLargeNumber 742 (by decide)⟩


/-! ## Rounding to two decimal places -/

/-- The hundredths `toFixed(2)` prints for the JavaScript quotient `n / d`, with `d` a
multiple of 200 and `n` below 2^53, are a nearest count of hundredths of the exact
quotient. -/
theorem abs_fixedScaled_two_numDiv_sub_le (n e : ℕ) (he : 0 < e) (hn : n < 2 ^ 53) :
    |((fixedScaled 2 (numDiv n (200 * e : ℕ)) : ℕ) : ℚ) / 100 - (n : ℚ) / (200 * e : ℕ)|
      ≤ 1 / 200 := by
  have heq : (0 : ℚ) < e := by exact_mod_cast he
  have hx := numDiv_nonneg n (200 * e)
  rw [fixedScaled_cast 2 hx]
  have herr := abs_fl_div_sub_lt n (200 * e) (by omega) hn
  have key := abs_floor_add_half_sub_le (numDiv n (200 * e : ℕ) * 10 ^ 2)
    ((n : ℚ) / (2 * e)) ((n + e : ℕ) : ℤ) (2 * e) (by omega)
    (by push_cast; field_simp; ring)
    (by
      unfold numDiv
      push_cast at herr ⊢
      have h100 : fl ((n : ℚ) / (200 * e)) * 10 ^ 2 - (n : ℚ) / (2 * e) =
          100 * (fl ((n : ℚ) / (200 * e)) - (n : ℚ) / (200 * e)) := by
        field_simp
        ring
      rw [h100, abs_mul, abs_of_pos (by norm_num : (0 : ℚ) < 100)]
      have : (1 : ℚ) / (2 * e) = 100 * (1 / (200 * e)) := by
        field_simp
        ring
      rw [this]
      exact mul_lt_mul_of_pos_left herr (by norm_num))
  have h2 : (n : ℚ) / ((200 * e : ℕ) : ℚ) = (n : ℚ) / (2 * e) / 100 := by
    rw [div_div]
    congr 1
    push_cast
    ring
  rw [h2, ← sub_div, abs_div, abs_of_pos (by norm_num : (0 : ℚ) < 100)]
  rw [div_le_iff₀ (by norm_num)]
  calc _ ≤ (1 : ℚ) / 2 := key
    _ = 1 / 200 * 100 := by norm_num

/-- A nearest count of hundredths of `n / d` is the half-up rounding unless the quotient
lies exactly halfway between two hundredths. -/
theorem eq_roundHundredthsHalfUp_of_near (k n d : ℕ) (hd : 0 < d)
    (h : |(k : ℚ) / 100 - (n : ℚ) / d| ≤ 1 / 200) (hne : (200 * n + d) % (2 * d) ≠ 0) :
    k = roundHundredthsHalfUp n d := by
  have hdq : (0 : ℚ) < d := by exact_mod_cast hd
  rw [abs_le] at h
  obtain ⟨h1, h2⟩ := h
  have hq : (n : ℚ) / d * d = n := div_mul_cancel₀ _ hdq.ne.symm
  have e1 : (200 : ℚ) * n ≤ 2 * k * d + d := by
    have := mul_le_mul_of_nonneg_right h1 hdq.le
    rw [sub_mul, hq] at this
    linarith
  have e2 : (2 : ℚ) * k * d ≤ 200 * n + d := by
    have := mul_le_mul_of_nonneg_right h2 hdq.le
    rw [sub_mul, hq] at this
    linarith
  have e1n : 200 * n ≤ 2 * k * d + d := by exact_mod_cast e1
  have e2n : 2 * k * d ≤ 200 * n + d := by exact_mod_cast e2
  unfold roundHundredthsHalfUp
  apply le_antisymm
  · rw [Nat.le_div_iff_mul_le (by omega)]
    calc k * (2 * d) = 2 * k * d := by ring
      _ ≤ 200 * n + d := e2n
  · have hlt : 200 * n + d < (k + 1) * (2 * d) := by
      rcases Nat.lt_or_ge (200 * n + d) ((k + 1) * (2 * d)) with hlt | hge
      · exact hlt
      · exfalso
        have heq : 200 * n + d = (k + 1) * (2 * d) := by
          have : (k + 1) * (2 * d) = 2 * k * d + 2 * d := by ring
          omega
        apply hne
        rw [heq]
        exact Nat.mul_mod_left _ _
    have := (Nat.div_lt_iff_lt_mul (by omega : 0 < 2 * d)).mpr hlt
    omega

theorem showsHundredths_numDiv (n e : ℕ) (he : 0 < e) (hn : n < 2 ^ 53) (u : String) :
    ShowsHundredths (toFixed 2 (numDiv n (200 * e : ℕ)) ++ u) n (200 * e) u := by
  refine ⟨fixedScaled 2 (numDiv n (200 * e : ℕ)), ?_, ?_, ?_⟩
  · rw [toFixed_of_nonneg 2 (numDiv_nonneg n (200 * e))
      (numDiv_lt_of_lt n (200 * e) (by omega) hn)]
  · exact abs_fixedScaled_two_numDiv_sub_le n e he hn
  · intro hne
    exact eq_roundHundredthsHalfUp_of_near _ n (200 * e) (by omega)
      (abs_fixedScaled_two_numDiv_sub_le n e he hn) hne

/-- C25 (as stated, refuted): 270 seconds are 0.075 hours, which rounds to 0.08 (a half
going up, and also a half going to the even digit), but the static
`updateDurationDisplay` shows "0.07 hours": `toFixed(2)` rounds the binary64 quotient,
which lies below 0.075. -/
theorem static_updateSleepDisplay_counterexample :
    (270 : ℚ) / 3600 = 75 / 1000 ∧
    roundHundredthsHalfUp 270 3600 = 8 ∧ roundHundredthsHalfEven 270 3600 = 8 ∧
    Static.updateSleepDisplay (natToString 270) = "0.07 hours" ∧
    Static.updateSleepDisplay (natToString 270) ≠
      fixedDigits 2 (roundHundredthsHalfUp 270 3600) ++ " hours" := by
  decide!

/-- C25 (amended): in the static `SettingsForms.updateDurationDisplay`, for every integer
`s` with `1 ≤ s < 2^53` held by a sleep-duration input the span shows `s/3600` with exactly
two decimal places followed by " hours", also for sub-hour durations (900 gives
"0.25 hours") and never a minutes rendering: the number shown is a two-decimal value
nearest to `s/3600`, the half-up rounding unless `s/3600` is exactly halfway between two
two-decimal values. -/
theorem static_updateSleepDisplay_hundredths (s : ℕ) (h1 : 1 ≤ s) (h53 : s < 2 ^ 53) :
    ShowsHundredths (Static.updateSleepDisplay (natToString s)) s 3600 " hours" ∧
    Static.updateDurationDisplay
        (fun id => if id = "sleep_duration" then some (natToString s) else none)
        (fun _ => true) =
      [("sleep_duration_hours", Static.updateSleepDisplay (natToString s))] ∧
    Static.updateSleepDisplay "900" = "0.25 hours" := by
  refine ⟨?_, ?_, by decide!⟩
  · have hs0 : (s : ℚ) ≠ 0 := by
      have : s ≠ 0 := by omega
      exact_mod_cast this
    have hsec : numberOr (parseInt (natToString s)) 900 = (s : ℚ) := by
      rw [parseInt_natToString_of_lt s h53]
      unfold numberOr
      simp only
      rw [if_neg hs0]
    unfold Static.updateSleepDisplay
    simp only [hsec]
    have h := showsHundredths_numDiv s 18 (by norm_num) h53 " hours"
    norm_num at h
    exact h
  · simp [Static.updateDurationDisplay]

/-- Witness for C25 (amended): 5400 seconds. -/
theorem static_updateSleepDisplay_hundredths_witness :
    ((1 : ℕ) ≤ 5400 ∧ (5400 : ℕ) < 2 ^ 53) ∧
    ShowsHundredths (Static.updateSleepDisplay (natToString 5400)) 5400 3600 " hours" ∧
    Static.updateDurationDisplay
        (fun id => if id = "sleep_duration" then some (natToString 5400) else none)
        (fun _ => true) =
      [("sleep_duration_hours", Static.updateSleepDisplay (natToString 5400))] ∧
    Static.updateSleepDisplay "900" = "0.25 hours" :=
  ⟨by decide, static_updateSleepDisplay_hundredths 5400 (by decide) (by decide)⟩


/-! ## The duration shown against the duration entered -/

/-- C26 (as stated, refuted): the input can hold the integer 9007199254741019, for which
the text shows 2501999792983 hours 37 minutes, and that duration overstates the input:
2501999792983 * 3600 + 37 * 60 = 9007199254741020. -/
theorem updateSleepDurationDisplay_bounds_counterexample :
    (60 : ℕ) ≤ 9007199254741019 ∧
    updateSleepDurationDisplay (natToString 9007199254741019) =
      "≈ " ++ unitText 2501999792983 "hour" ++ " " ++ unitText 37 "minute" ∧
    ¬ (2501999792983 * 3600 + 37 * 60 ≤ 9007199254741019) := by
  decide!

/-- C26 (amended): for every integer `s` with `60 ≤ s < 2^53` the duration that
`updateSleepDurationDisplay` displays (`H` hours and `M` minutes, with `H = 0` in the
minutes-only form and `M = 0` in the hours-only form) never overstates the input and
understates it by less than one minute: `H*3600 + M*60 ≤ s < H*3600 + M*60 + 60`, with
`0 ≤ M < 60`. -/
theorem updateSleepDurationDisplay_bounds (s : ℕ) (h60 : 60 ≤ s) (h53 : s < 2 ^ 53) :
    ∃ H M : ℕ,
      updateSleepDurationDisplay (natToString s) =
        (if H = 0 then "≈ " ++ unitText M "minute"
         else if M = 0 then "≈ " ++ unitText H "hour"
         else "≈ " ++ unitText H "hour" ++ " " ++ unitText M "minute") ∧
      H * 3600 + M * 60 ≤ s ∧ s < H * 3600 + M * 60 + 60 ∧ M < 60 := by
  refine ⟨s / 3600, s % 3600 / 60, ?_, by omega, by omega, by omega⟩
  rw [updateSleepDurationDisplay_eq s (by omega) h53, if_neg (by omega)]
  by_cases b : s < 3600
  · have hH : s / 3600 = 0 := Nat.div_eq_of_lt b
    have hM : s % 3600 = s := Nat.mod_eq_of_lt b
    rw [if_pos b, if_pos hH, hM]
  · have hH : s / 3600 ≠ 0 := by
      have : 1 ≤ s / 3600 := (Nat.one_le_div_iff (by norm_num)).mpr (by omega)
      omega
    rw [if_neg b, if_neg hH]

/-- Witness for C26 (amended): 3725 seconds, shown as 1 hour 2 minutes. -/
theorem updateSleepDurationDisplay_bounds_witness :
    ((60 : ℕ) ≤ 3725 ∧ (3725 : ℕ) < 2 ^ 53) ∧
    ∃ H M : ℕ,
      updateSleepDurationDisplay (natToString 3725) =
        (if H = 0 then "≈ " ++ unitText M "minute"
         else if M = 0 then "≈ " ++ unitText H "hour"
         else "≈ " ++ unitText H "hour" ++ " " ++ unitText M "minute") ∧
      H * 3600 + M * 60 ≤ 3725 ∧ 3725 < H * 3600 + M * 60 + 60 ∧ M < 60 :=
  ⟨by decide, updateSleepDurationDisplay_bounds 3725 (by decide) (by decide)⟩


/-- Reading back, with radix 10, the text of an integer-valued Number of size below 10^21
gives the Number. -/
theorem parseIntChars_ten_numberToString (z : ℤ) (hfl : fl (z : ℚ) = z)
    (h21 : |z| < 10 ^ 21) :
    parseIntChars 10 (numberToString (z : ℚ)).toList = some (z : ℚ) := by
  -- the digits of a positive integer
  have pos : ∀ m : ℕ, 1 ≤ m → m < 10 ^ 21 → fl (m : ℚ) = m →
      ∃ ds : List Char, (positiveToString (m : ℚ)).toList = ds ∧ ds ≠ [] ∧
        (∀ c ∈ ds, '0' ≤ c ∧ c ≤ '9') ∧ fl ((digitsValue 10 ds : ℕ) : ℚ) = m := by
    intro m h1 hm hflm
    obtain ⟨s, j, htext, hval⟩ := positiveToString_natCast m h1 hm hflm
    refine ⟨(natToString s).toList ++ List.replicate j '0', by rw [htext]; rfl, ?_, ?_, ?_⟩
    · intro h
      exact natToString_ne_nil s (List.append_eq_nil.mp h).1
    · intro c hc
      rcases List.mem_append.mp hc with hc | hc
      · exact natToString_decDigits s c hc
      · rw [List.eq_of_mem_replicate hc]; decide
    · rw [digitsValue_append_zeros, digitsValue_natToString, hval]
  unfold numberToString
  rcases lt_trichotomy z 0 with hneg | hzero | hpos
  · obtain ⟨m, hm⟩ : ∃ m : ℕ, z = -(m : ℤ) := ⟨z.natAbs, by omega⟩
    subst hm
    have hm1 : 1 ≤ m := by omega
    have hm21 : m < 10 ^ 21 := by
      rw [abs_neg, abs_of_nonneg (by positivity)] at h21
      exact_mod_cast h21
    have hflm : fl (m : ℚ) = m := by
      have := fl_neg (((-(m : ℤ) : ℤ)) : ℚ)
      rw [hfl] at this
      push_cast at this
      rw [neg_neg] at this
      exact this
    obtain ⟨ds, htext, hne, hds, hval⟩ := pos m hm1 hm21 hflm
    have hq : ((-(m : ℤ) : ℤ) : ℚ) < 0 := by
      push_cast
      have : (0 : ℚ) < m := by exact_mod_cast hm1
      linarith
    rw [if_neg (ne_of_lt hq), if_pos hq]
    have e : ("-" ++ positiveToString (-((-(m : ℤ) : ℤ) : ℚ))).toList = [] ++ ['-'] ++ ds ++ [] := by
      push_cast
      rw [neg_neg, List.append_nil, List.nil_append, ← htext]
      rfl
    rw [e]
    have hh : HoldsInteger ([] ++ ['-'] ++ ds ++ []) (-(digitsValue 10 ds : ℤ)) :=
      ⟨[], ['-'], ds, [], rfl, by simp, Or.inr (Or.inr rfl), hne, hds, by simp, by simp⟩
    rw [parseIntChars_ten_of_holdsInteger hh]
    push_cast
    rw [fl_neg]
    have : fl ((digitsValue 10 ds : ℕ) : ℚ) = m := hval
    rw [this]
  · subst hzero
    simp only [Int.cast_zero, if_true]
    decide!
  · obtain ⟨m, hm⟩ : ∃ m : ℕ, z = (m : ℤ) := ⟨z.natAbs, by omega⟩
    subst hm
    have hm1 : 1 ≤ m := by omega
    have hm21 : m < 10 ^ 21 := by
      rw [abs_of_nonneg (by positivity)] at h21
      exact_mod_cast h21
    have hflm : fl (m : ℚ) = m := by exact_mod_cast hfl
    obtain ⟨ds, htext, hne, hds, hval⟩ := pos m hm1 hm21 hflm
    have hq : (0 : ℚ) < ((m : ℤ) : ℚ) := by exact_mod_cast hm1
    rw [if_neg (ne_of_gt hq), if_neg (not_lt.mpr hq.le)]
    have e : (positiveToString (((m : ℤ)) : ℚ)).toList = [] ++ [] ++ ds ++ [] := by
      rw [List.append_nil, List.nil_append, List.nil_append, ← htext]
      rfl
    rw [e]
    have hh : HoldsInteger ([] ++ [] ++ ds ++ []) (digitsValue 10 ds : ℤ) :=
      ⟨[], [], ds, [], rfl, by simp, Or.inl rfl, hne, hds, by simp, by simp⟩
    rw [parseIntChars_ten_of_holdsInteger hh]
    push_cast
    have : fl ((digitsValue 10 ds : ℕ) : ℚ) = m := hval
    rw [this]

/-- C27 (as stated, refuted): 1.5 is a finite Number and `String(1.5)` is "1.5", from
which `parseNumericSetting` parses 1, while it returns the number 1.5 unchanged; and
`String(10^21)` is "1e+21", from which it parses 1. -/
theorem parseNumericSetting_string_counterexample :
    fl (3 / 2) = 3 / 2 ∧ numberToString (3 / 2) = "1.5" ∧
    parseNumericSetting (SettingValue.string (numberToString (3 / 2)))
        (SettingValue.number (some 0)) = SettingValue.number (some 1) ∧
    parseNumericSetting (SettingValue.number (some (3 / 2)))
        (SettingValue.number (some 0)) = SettingValue.number (some (3 / 2)) ∧
    parseNumericSetting (SettingValue.string (numberToString (3 / 2)))
        (SettingValue.number (some 0)) ≠
      parseNumericSetting (SettingValue.number (some (3 / 2))) (SettingValue.number (some 0)) ∧
    fl (10 ^ 21) = 10 ^ 21 ∧ numberToString (10 ^ 21) = "1e+21" ∧
    parseNumericSetting (SettingValue.string (numberToString (10 ^ 21)))
        (SettingValue.number (some 0)) = SettingValue.number (some 1) := by
  decide!

/-- C27 (amended): `parseNumericSetting` treats an integer and its decimal string
consistently: for every integer-valued Number `x` of size below 10^21 and every default
`d`, `parseNumericSetting(String(x), d) = parseNumericSetting(x, d)`. -/
theorem parseNumericSetting_string (z : ℤ) (hfl : fl (z : ℚ) = z) (h21 : |z| < 10 ^ 21)
    (d : SettingValue) :
    parseNumericSetting (SettingValue.string (numberToString (z : ℚ))) d =
      parseNumericSetting (SettingValue.number (some (z : ℚ))) d := by
  have := parseIntChars_ten_numberToString z hfl h21
  have hsmall : ¬ (2 : ℚ) ^ 1024 ≤ |(z : ℚ)| := by
    have h1 : |(z : ℚ)| < 10 ^ 21 := by exact_mod_cast h21
    have h2 : (10 : ℚ) ^ 21 ≤ 2 ^ 1024 := by norm_num
    exact not_le.mpr (lt_of_lt_of_le h1 h2)
  unfold parseNumericSetting
  simp only [SettingValue.toStr, this, if_neg hsmall]

/-- Witness for C27 (amended): the Number -1500 and the default 7. -/
theorem parseNumericSetting_string_witness :
    (fl (((-1500 : ℤ)) : ℚ) = ((-1500 : ℤ) : ℚ) ∧ |(-1500 : ℤ)| < 10 ^ 21) ∧
    parseNumericSetting (SettingValue.string (numberToString ((-1500 : ℤ) : ℚ)))
        (SettingValue.number (some 7)) =
      parseNumericSetting (SettingValue.number (some ((-1500 : ℤ) : ℚ)))
        (SettingValue.number (some 7)) :=
  ⟨⟨by decide!, by decide⟩,
    parseNumericSetting_string (-1500) (by decide!) (by decide) (SettingValue.number (some 7))⟩


/-! ## Loading and saving the settings in `main.js` -/

theorem numberOr_some_natCast (n : ℕ) (dflt : ℚ) (h : n ≠ 0 ∨ dflt = 0) :
    numberOr (some (n : ℚ)) dflt = n := by
  unfold numberOr
  simp only
  split_ifs with h0
  · rcases h with h | h
    · exact absurd (by exact_mod_cast h0) h
    · rw [h, h0]
  · rfl

/-- The value `loadSettings` writes for a stored integer and `saveSettings` reads back. -/
theorem parseInt_inputValue_number (n : ℕ) (h21 : n < 10 ^ 21) (hfl : fl (n : ℚ) = n) :
    parseInt (inputValue (JsValue.number (n : ℤ))) = some (n : ℚ) := by
  have := parseInt_numberToString n h21 hfl
  unfold inputValue
  simp only [JsValue.toStr, Int.cast_natCast]
  exact this

/-- C29 (as stated, refuted): 10^21 is a Number holding a non-negative integer; with it
stored as `hunt_missing_shows` the form is given the text "1e+21", from which
`saveSettings` builds `hunt_missing_shows: 1`. -/
theorem loadSettings_saveSettings_counterexample :
    fl (10 ^ 21) = 10 ^ 21 ∧
    (loadSettings (JsValue.object [("huntarr", JsValue.object
      [("hunt_missing_shows", JsValue.number (10 ^ 21)),
       ("hunt_upgrade_episodes", JsValue.number 0),
       ("sleep_duration", JsValue.number 900),
       ("state_reset_interval_hours", JsValue.number 168),
       ("monitored_only", JsValue.bool true),
       ("random_selection", JsValue.bool true),
       ("skip_future_episodes", JsValue.bool true),
       ("skip_series_refresh", JsValue.bool false)])])).huntMissingShowsInput = "1e+21" ∧
    saveSettings (loadSettings (JsValue.object [("huntarr", JsValue.object
      [("hunt_missing_shows", JsValue.number (10 ^ 21)),
       ("hunt_upgrade_episodes", JsValue.number 0),
       ("sleep_duration", JsValue.number 900),
       ("state_reset_interval_hours", JsValue.number 168),
       ("monitored_only", JsValue.bool true),
       ("random_selection", JsValue.bool true),
       ("skip_future_episodes", JsValue.bool true),
       ("skip_series_refresh", JsValue.bool false)])])) =
      ⟨1, 0, 900, 168, true, true, true, false⟩ ∧
    saveSettings (loadSettings (JsValue.object [("huntarr", JsValue.object
      [("hunt_missing_shows", JsValue.number (10 ^ 21)),
       ("hunt_upgrade_episodes", JsValue.number 0),
       ("sleep_duration", JsValue.number 900),
       ("state_reset_interval_hours", JsValue.number 168),
       ("monitored_only", JsValue.bool true),
       ("random_selection", JsValue.bool true),
       ("skip_future_episodes", JsValue.bool true),
       ("skip_series_refresh", JsValue.bool false)])])) ≠
      ⟨10 ^ 21, 0, 900, 168, true, true, true, false⟩ := by
  decide!

/-- C29 (amended): for every settings object whose `huntarr` object stores Numbers below
10^21 holding non-negative integers as `hunt_missing_shows` and `hunt_upgrade_episodes`,
Numbers below 10^21 holding positive integers as `sleep_duration` and
`state_reset_interval_hours`, and booleans as the four flags, filling the form with
`loadSettings` and then building the request body with `saveSettings` yields exactly
those eight values. -/
theorem loadSettings_saveSettings (data huntarr : JsValue) (a b c d : ℕ) (m r f s : Bool)
    (hdata : data.get "huntarr" = huntarr)
    (ha : huntarr.get "hunt_missing_shows" = JsValue.number (a : ℤ))
    (hb : huntarr.get "hunt_upgrade_episodes" = JsValue.number (b : ℤ))
    (hc : huntarr.get "sleep_duration" = JsValue.number (c : ℤ))
    (hd : huntarr.get "state_reset_interval_hours" = JsValue.number (d : ℤ))
    (hm : huntarr.get "monitored_only" = JsValue.bool m)
    (hr : huntarr.get "random_selection" = JsValue.bool r)
    (hf : huntarr.get "skip_future_episodes" = JsValue.bool f)
    (hs : huntarr.get "skip_series_refresh" = JsValue.bool s)
    (ha1 : fl (a : ℚ) = a) (ha2 : a < 10 ^ 21) (hb1 : fl (b : ℚ) = b) (hb2 : b < 10 ^ 21)
    (hc0 : 0 < c) (hc1 : fl (c : ℚ) = c) (hc2 : c < 10 ^ 21)
    (hd0 : 0 < d) (hd1 : fl (d : ℚ) = d) (hd2 : d < 10 ^ 21) :
    saveSettings (loadSettings data) = ⟨a, b, c, d, m, r, f, s⟩ := by
  have hobj : (data.get "huntarr").orElse (JsValue.object []) = huntarr := by
    rw [hdata]
    cases huntarr with
    | object props => rfl
    | _ => simp [JsValue.get] at ha
  have hct : (JsValue.number (c : ℤ)).orElse (JsValue.number 900) = JsValue.number (c : ℤ) := by
    unfold JsValue.orElse JsValue.truthy
    simp only [ne_eq, decide_not, Bool.not_eq_true', decide_eq_false_iff_not]
    rw [if_pos (by omega)]
  have hdt : (JsValue.number (d : ℤ)).orElse (JsValue.number 168) = JsValue.number (d : ℤ) := by
    unfold JsValue.orElse JsValue.truthy
    simp only [ne_eq, decide_not, Bool.not_eq_true', decide_eq_false_iff_not]
    rw [if_pos (by omega)]
  unfold saveSettings loadSettings
  simp only [hobj, ha, hb, hc, hd, hm, hr, hf, hs, hct, hdt, JsValue.isDefined, if_true,
    parseInt_inputValue_number a ha2 ha1, parseInt_inputValue_number b hb2 hb1,
    parseInt_inputValue_number c hc2 hc1, parseInt_inputValue_number d hd2 hd1,
    numberOr_some_natCast a 0 (Or.inr rfl), numberOr_some_natCast b 0 (Or.inr rfl),
    numberOr_some_natCast c 900 (Or.inl (by omega)),
    numberOr_some_natCast d 168 (Or.inl (by omega))]
  cases m <;> cases r <;> cases f <;> cases s <;> rfl

/-- Witness for C29 (amended): a settings object that disables both hunts. -/
theorem loadSettings_saveSettings_witness :
    ((JsValue.object [("huntarr", sampleHuntarr)]).get "huntarr" = sampleHuntarr ∧
      sampleHuntarr.get "hunt_missing_shows" = JsValue.number ((0 : ℕ) : ℤ) ∧
      sampleHuntarr.get "hunt_upgrade_episodes" = JsValue.number ((0 : ℕ) : ℤ) ∧
      sampleHuntarr.get "sleep_duration" = JsValue.number ((600 : ℕ) : ℤ) ∧
      sampleHuntarr.get "state_reset_interval_hours" = JsValue.number ((24 : ℕ) : ℤ) ∧
      sampleHuntarr.get "monitored_only" = JsValue.bool false ∧
      sampleHuntarr.get "random_selection" = JsValue.bool true ∧
      sampleHuntarr.get "skip_future_episodes" = JsValue.bool false ∧
      sampleHuntarr.get "skip_series_refresh" = JsValue.bool true ∧
      fl ((0 : ℕ) : ℚ) = ((0 : ℕ) : ℚ) ∧ (0 : ℕ) < 10 ^ 21 ∧
      (0 : ℕ) < 600 ∧ fl ((600 : ℕ) : ℚ) = ((600 : ℕ) : ℚ) ∧ (600 : ℕ) < 10 ^ 21 ∧
      (0 : ℕ) < 24 ∧ fl ((24 : ℕ) : ℚ) = ((24 : ℕ) : ℚ) ∧ (24 : ℕ) < 10 ^ 21) ∧
    saveSettings (loadSettings (JsValue.object [("huntarr", sampleHuntarr)])) =
      ⟨((0 : ℕ) : ℚ), ((0 : ℕ) : ℚ), ((600 : ℕ) : ℚ), ((24 : ℕ) : ℚ),
        false, true, false, true⟩ :=
  ⟨⟨rfl, rfl, rfl, rfl, rfl, rfl, rfl, rfl, rfl, by decide!, by decide, by decide,
      by decide!, by decide, by decide, by decide!, by decide⟩,
    loadSettings_saveSettings (JsValue.object [("huntarr", sampleHuntarr)]) sampleHuntarr
      0 0 600 24 false true false true rfl rfl rfl rfl rfl rfl rfl rfl rfl
      (by decide!) (by decide) (by decide!) (by decide) (by decide) (by decide!)
      (by decide) (by decide) (by decide!) (by decide)⟩

/-- C30 (code bug): for an empty settings object `loadSettings` gives
`hunt_upgrade_episodes` the default 5, while `SettingsForms.generateSonarrForm` (in both
files) renders the default 0; the other six shared fields get the same default value or
checked state from all three. -/
theorem loadSettings_generateSonarrForm_defaults :
    (loadSettings (JsValue.object [])).huntUpgradeEpisodesInput = "5" ∧
    valueOf (Static.generateSonarrForm (JsValue.object [])) "hunt_upgrade_episodes" =
      some "0" ∧
    valueOf (Frontend.generateSonarrForm (JsValue.object [])) "hunt_upgrade_episodes" =
      some "0" ∧
    valueOf (Static.generateSonarrForm (JsValue.object [])) "hunt_missing_shows" =
      some (loadSettings (JsValue.object [])).huntMissingShowsInput ∧
    valueOf (Static.generateSonarrForm (JsValue.object [])) "sleep_duration" =
      some (loadSettings (JsValue.object [])).sleepDurationInput ∧
    valueOf (Static.generateSonarrForm (JsValue.object [])) "state_reset_interval_hours" =
      some (loadSettings (JsValue.object [])).stateResetIntervalInput ∧
    checkedOf (Static.generateSonarrForm (JsValue.object [])) "monitored_only" =
      some (loadSettings (JsValue.object [])).monitoredOnlyInput ∧
    checkedOf (Static.generateSonarrForm (JsValue.object [])) "skip_future_episodes" =
      some (loadSettings (JsValue.object [])).skipFutureEpisodesInput ∧
    checkedOf (Static.generateSonarrForm (JsValue.object [])) "skip_series_refresh" =
      some (loadSettings (JsValue.object [])).skipSeriesRefreshInput ∧
    valueOf (Frontend.generateSonarrForm (JsValue.object [])) "hunt_missing_shows" =
      some (loadSettings (JsValue.object [])).huntMissingShowsInput ∧
    valueOf (Frontend.generateSonarrForm (JsValue.object [])) "sleep_duration" =
      some (loadSettings (JsValue.object [])).sleepDurationInput ∧
    valueOf (Frontend.generateSonarrForm (JsValue.object [])) "state_reset_interval_hours" =
      some (loadSettings (JsValue.object [])).stateResetIntervalInput ∧
    checkedOf (Frontend.generateSonarrForm (JsValue.object [])) "monitored_only" =
      some (loadSettings (JsValue.object [])).monitoredOnlyInput ∧
    checkedOf (Frontend.generateSonarrForm (JsValue.object [])) "skip_future_episodes" =
      some (loadSettings (JsValue.object [])).skipFutureEpisodesInput ∧
    checkedOf (Frontend.generateSonarrForm (JsValue.object [])) "skip_series_refresh" =
      some (loadSettings (JsValue.object [])).skipSeriesRefreshInput := by
  decide!


end Huntarr
